import Mathlib

/-!
# Homestead: the registration-data request orchestrator

A shallow embedding of the reg-data handler of `handlers_scscf.cpp`
(`ImpuRegDataHandler` and the deprecated `ImpuIMSSubscriptionHandler`).

The handler is event driven: `run` issues a cache read, the cache completion
callback `on_get_ims_subscription_success` applies the registration state
machine and may send a Server-Assignment request, and the Diameter callbacks
`on_sar_response` / `on_diameter_timeout` finish the request.  Every callback is
embedded as a function from the handler's fields (and the callback's input) to
the new fields together with the ordered list of effects the callback performs:
cache requests sent, Diameter requests sent, content added to the HTTP
response, the HTTP reply, and the release of the handler (`delete this`).

The XML helpers (`XmlUtils`), the cache client and the Diameter stack are not
part of the embedded file; the XML helpers are taken as parameters and the
other two appear only through the requests handed to them.
-/

namespace Homestead

/-- Registration state stored with a subscription (`RegistrationState`). -/
inductive RegistrationState where
  | NOT_REGISTERED
  | UNREGISTERED
  | REGISTERED
  deriving DecidableEq, Repr

/-- Request types of `ImpuRegDataHandler::RequestType`. -/
inductive RequestType where
  | UNKNOWN
  | REG
  | CALL
  | DEREG_USER
  | DEREG_ADMIN
  | DEREG_TIMEOUT
  | DEREG_AUTH_FAIL
  | DEREG_AUTH_TIMEOUT
  deriving DecidableEq, Repr

/-- The values of `Cx::ServerAssignmentType` that the handlers name. -/
inductive ServerAssignmentType where
  | REGISTRATION
  | RE_REGISTRATION
  | UNREGISTERED_USER
  | TIMEOUT_DEREGISTRATION
  | USER_DEREGISTRATION
  | ADMINISTRATIVE_DEREGISTRATION
  | AUTHENTICATION_FAILURE
  | AUTHENTICATION_TIMEOUT
  deriving DecidableEq, Repr

/-- HTTP methods (`htp_method`); the handler distinguishes GET, PUT and the rest. -/
inductive htp_method where
  | htp_method_GET
  | htp_method_PUT
  | htp_method_POST
  | htp_method_DELETE
  | htp_method_HEAD
  deriving DecidableEq, Repr

/-- The value a C++ `int` holds for an arithmetic result `n`: the representative of `n`
modulo 2^32 in the range of a 32-bit two's-complement `int`.  It is `n` itself when `n`
fits, and the wrapped value the compiled code yields when it does not. -/
def int_wrap (n : Int) : Int :=
  (n + 2147483648) % 4294967296 - 2147483648

/-- The configuration read through `_cfg`.  The C++ fields `hss_reregistration_time`
and `impu_cache_ttl` are `int` numbers of seconds; they are embedded as integers, and
the `int` product `2 * hss_reregistration_time` of the handlers is
`int_wrap (2 * hss_reregistration_time)`. -/
structure Config where
  query_cache_av : Bool
  scheme_unknown : String
  scheme_digest : String
  scheme_aka : String
  impu_cache_ttl : Int
  hss_configured : Bool
  hss_reregistration_time : Int
  deriving Repr

/-- The three `XmlUtils` functions the reg-data handler calls.  Their code is not in
the embedded file, so they are parameters of every definition below:
`get_public_ids` is the spec's `public_ids`, `get_private_id` its `private_id_hint`
(the empty string when absent) and `build_ClearwaterRegData_xml` its `wrap`. -/
structure XmlUtils where
  get_public_ids : String → List String
  get_private_id : String → String
  build_ClearwaterRegData_xml : RegistrationState → String → String

/-- Requests handed to `_cache->send`, with the arguments of the `create_...` call. -/
inductive CacheRequest where
  | GetAuthVector (private_id public_id : String)
  | GetAssociatedPublicIDs (private_id : String)
  | PutAssociatedPublicID (private_id public_id : String) (timestamp : Int) (ttl : Int)
  | GetIMSSubscription (public_id : String)
  | PutIMSSubscription (public_ids : List String) (xml : String)
      (reg_state : RegistrationState) (impis : List String) (timestamp : Int) (ttl : Int)
  | PutAssociatedPrivateID (public_ids : List String) (impi : String)
      (timestamp : Int) (ttl : Int)
  | DeletePublicIDs (public_ids : List String) (impis : List String) (timestamp : Int)
  deriving DecidableEq, Repr

/-- Observable actions of a handler, in the order the code performs them. -/
inductive Effect where
  | cache_send (req : CacheRequest)
  | sar_send (impi impu : String) (type : ServerAssignmentType)
  | mar_send (impi impu scheme authorization : String)
  | add_content (content : String)
  | send_reply (rc : Nat)
  | delete_this
  deriving DecidableEq, Repr

/-- Which class the handler object is: it selects the virtual `send_reply`. -/
inductive HandlerKind where
  | ImpuRegData
  | ImpuIMSSubscription
  deriving DecidableEq, Repr

/-- The member variables of an `ImpuRegDataHandler` that the callbacks read or write,
and the method of the HTTP request it owns. -/
structure Handler where
  kind : HandlerKind
  method : htp_method
  _impi : String
  _impu : String
  _type : RequestType
  _xml : String
  _new_state : RegistrationState
  deriving Repr

/-- What a successful `Cache::GetIMSSubscription` reports through `get_xml`,
`get_registration_state` and `get_associated_impis`.  Both `get_xml` and
`get_registration_state` write the local `ttl`; the value left in it is the one
written last, `reg_state_ttl`. -/
structure GetIMSSubscription where
  xml : String
  xml_ttl : Int
  reg_state : RegistrationState
  reg_state_ttl : Int
  associated_impis : List String
  deriving Repr

/-- What the handler reads from a `Cx::ServerAssignmentAnswer`: the value left in
`result_code` by `saa.result_code(result_code)` (it starts at 0) and the user data. -/
structure ServerAssignmentAnswer where
  result_code : Int
  user_data : String
  deriving Repr

/-- How a Diameter exchange ends: the response callback or the timeout callback. -/
inductive DiameterOutcome where
  | response (saa : ServerAssignmentAnswer)
  | timeout
  deriving Repr

/-- `ImpuRegDataHandler::is_deregistration_request`. -/
def is_deregistration_request (type : RequestType) : Bool :=
  match type with
  | .DEREG_USER => true
  | .DEREG_ADMIN => true
  | .DEREG_TIMEOUT => true
  | _ => false

/-- `ImpuRegDataHandler::is_auth_failure_request`. -/
def is_auth_failure_request (type : RequestType) : Bool :=
  match type with
  | .DEREG_AUTH_FAIL => true
  | .DEREG_AUTH_TIMEOUT => true
  | _ => false

/-- `ImpuRegDataHandler::sar_type_for_request`; the last arm is the C++ `default`. -/
def sar_type_for_request (type : RequestType) : ServerAssignmentType :=
  match type with
  | .DEREG_USER => .USER_DEREGISTRATION
  | .DEREG_ADMIN => .ADMINISTRATIVE_DEREGISTRATION
  | .DEREG_TIMEOUT => .TIMEOUT_DEREGISTRATION
  | .DEREG_AUTH_FAIL => .AUTHENTICATION_FAILURE
  | .DEREG_AUTH_TIMEOUT => .AUTHENTICATION_TIMEOUT
  | _ => .ADMINISTRATIVE_DEREGISTRATION

/-- The virtual `send_reply`: `ImpuRegDataHandler::send_reply` adds the wrapped
document and replies 200; `ImpuIMSSubscriptionHandler::send_reply` adds the raw
profile when it is non-empty and replies 404 otherwise. -/
def send_reply (xu : XmlUtils) (h : Handler) : List Effect :=
  match h.kind with
  | .ImpuRegData =>
    [.add_content (xu.build_ClearwaterRegData_xml h._new_state h._xml), .send_reply 200]
  | .ImpuIMSSubscription =>
    if h._xml ≠ "" then [.add_content h._xml, .send_reply 200] else [.send_reply 404]

/-- `ImpuRegDataHandler::send_server_assignment_request`: one SAR carrying the
handler's private and public identity and the given assignment type. -/
def send_server_assignment_request (h : Handler) (type : ServerAssignmentType) :
    List Effect :=
  [.sar_send h._impi h._impu type]

/-- `ImpuRegDataHandler::get_associated_private_ids`. -/
def get_associated_private_ids (xu : XmlUtils) (h : Handler) : List String :=
  let private_ids : List String := if h._impi ≠ "" then [h._impi] else []
  let xml_impi := xu.get_private_id h._xml
  if xml_impi ≠ "" ∧ xml_impi ≠ h._impi then private_ids ++ [xml_impi] else private_ids

/-- `ImpuRegDataHandler::put_in_cache`; `now` is `Cache::generate_timestamp()`. -/
def put_in_cache (cfg : Config) (xu : XmlUtils) (h : Handler) (now : Int) : List Effect :=
  let ttl : Int := if cfg.hss_configured then int_wrap (2 * cfg.hss_reregistration_time) else 0
  let public_ids := xu.get_public_ids h._xml
  if public_ids ≠ [] then
    let associated_private_ids : List String :=
      if cfg.hss_configured then get_associated_private_ids xu h else []
    [.cache_send (.PutIMSSubscription public_ids h._xml h._new_state
      associated_private_ids now ttl)]
  else
    []

/-- The private-identity step of `on_get_ims_subscription_success` (the `if` /
`else if` before the split on `hss_configured`): the private identity to use and
the `new_binding` flag. -/
def check_binding (xu : XmlUtils) (impi xml : String) (associated_impis : List String) :
    String × Bool :=
  if impi = "" then
    (xu.get_private_id xml, false)
  else if xml ≠ "" ∧ (associated_impis = [] ∨ impi ∉ associated_impis) then
    (impi, true)
  else
    (impi, false)

/-- `ImpuRegDataHandler::on_get_ims_subscription_success`.  At most one timestamp is
drawn in a run of the callback; it is the argument `now`. -/
def on_get_ims_subscription_success (cfg : Config) (xu : XmlUtils) (h : Handler)
    (get_ims_sub : GetIMSSubscription) (now : Int) : Handler × List Effect :=
  let old_state := get_ims_sub.reg_state
  let ttl := get_ims_sub.reg_state_ttl
  let associated_impis := get_ims_sub.associated_impis
  let h := { h with _xml := get_ims_sub.xml, _new_state := old_state }
  if h.method = .htp_method_GET then
    (h, send_reply xu h ++ [.delete_this])
  else
    let b := check_binding xu h._impi h._xml associated_impis
    let h := { h with _impi := b.1 }
    let new_binding := b.2
    if cfg.hss_configured then
      let e0 : List Effect :=
        if new_binding then
          [.cache_send (.PutAssociatedPrivateID (xu.get_public_ids h._xml) h._impi now
            (int_wrap (2 * cfg.hss_reregistration_time)))]
        else []
      if h._type = .REG then
        if old_state = .REGISTERED ∧ ¬ new_binding then
          let h := { h with _new_state := .REGISTERED }
          if ttl < cfg.hss_reregistration_time then
            (h, e0 ++ send_server_assignment_request h .RE_REGISTRATION)
          else
            (h, e0 ++ send_reply xu h ++ [.delete_this])
        else
          let h := { h with _new_state := .REGISTERED }
          (h, e0 ++ send_server_assignment_request h .REGISTRATION)
      else if h._type = .CALL then
        if old_state = .NOT_REGISTERED then
          let h := { h with _new_state := .UNREGISTERED }
          (h, e0 ++ send_server_assignment_request h .UNREGISTERED_USER)
        else
          (h, e0 ++ send_reply xu h ++ [.delete_this])
      else if is_deregistration_request h._type then
        if old_state = .REGISTERED then
          let h := { h with _new_state := .NOT_REGISTERED }
          (h, e0 ++ send_server_assignment_request h (sar_type_for_request h._type))
        else
          (h, e0 ++ [.send_reply 400, .delete_this])
      else if is_auth_failure_request h._type then
        (h, e0 ++ send_server_assignment_request h (sar_type_for_request h._type))
      else
        (h, e0 ++ [.delete_this])
    else
      if h._type = .REG then
        match old_state with
        | .REGISTERED =>
          let h := { h with _new_state := .REGISTERED }
          (h, send_reply xu h ++ [.delete_this])
        | .UNREGISTERED =>
          let h := { h with _new_state := .REGISTERED }
          (h, put_in_cache cfg xu h now ++ send_reply xu h ++ [.delete_this])
        | _ =>
          (h, [.send_reply 404, .delete_this])
      else if h._type = .CALL then
        if old_state = .NOT_REGISTERED then
          (h, [.send_reply 404, .delete_this])
        else
          (h, send_reply xu h ++ [.delete_this])
      else if is_deregistration_request h._type then
        if old_state = .REGISTERED then
          let h := { h with _new_state := .UNREGISTERED }
          (h, put_in_cache cfg xu h now ++ send_reply xu h ++ [.delete_this])
        else
          (h, [.send_reply 400, .delete_this])
      else if is_auth_failure_request h._type then
        (h, [.send_reply 200, .delete_this])
      else
        (h, [.delete_this])

/-- `ImpuRegDataHandler::on_sar_response`.  At most one timestamp is drawn in a run
of the callback (the delete and the put exclude each other); it is `now`. -/
def on_sar_response (cfg : Config) (xu : XmlUtils) (h : Handler)
    (saa : ServerAssignmentAnswer) (now : Int) : Handler × List Effect :=
  let result_code := saa.result_code
  let e0 : List Effect :=
    if is_deregistration_request h._type then
      let public_ids := xu.get_public_ids h._xml
      if public_ids ≠ [] then
        [.cache_send (.DeletePublicIDs public_ids (get_associated_private_ids xu h) now)]
      else []
    else []
  if result_code = 2001 then
    if (! is_deregistration_request h._type) && (! is_auth_failure_request h._type) then
      let h := { h with _xml := saa.user_data }
      (h, e0 ++ put_in_cache cfg xu h now ++ send_reply xu h ++ [.delete_this])
    else
      (h, e0 ++ send_reply xu h ++ [.delete_this])
  else if result_code = 5001 then
    (h, e0 ++ [.send_reply 404, .delete_this])
  else
    (h, e0 ++ [.send_reply 500, .delete_this])

/-- `HssCacheHandler::on_diameter_timeout`. -/
def on_diameter_timeout (h : Handler) : Handler × List Effect :=
  (h, [.send_reply 503, .delete_this])

/-- Server-Assignment types of the SARs sent, in order. -/
def sars_sent : List Effect → List ServerAssignmentType
  | [] => []
  | .sar_send _ _ type :: es => type :: sars_sent es
  | _ :: es => sars_sent es

/-- All requests handed to the cache, in order. -/
def cache_requests : List Effect → List CacheRequest
  | [] => []
  | .cache_send req :: es => req :: cache_requests es
  | _ :: es => cache_requests es

/-- Whether a cache request modifies the cache (a put or a delete). -/
def CacheRequest.is_write : CacheRequest → Bool
  | .PutAssociatedPublicID .. => true
  | .PutIMSSubscription .. => true
  | .PutAssociatedPrivateID .. => true
  | .DeletePublicIDs .. => true
  | _ => false

/-- Whether a cache request is a `PutIMSSubscription` (the spec's `put_subscription`). -/
def CacheRequest.is_put_subscription : CacheRequest → Bool
  | .PutIMSSubscription .. => true
  | _ => false

/-- Whether a cache request is a `DeletePublicIDs` (the spec's `delete_public_ids`). -/
def CacheRequest.is_delete_public_ids : CacheRequest → Bool
  | .DeletePublicIDs .. => true
  | _ => false

/-- The cache writes issued, in order. -/
def cache_writes (es : List Effect) : List CacheRequest :=
  (cache_requests es).filter CacheRequest.is_write

/-- The `put_subscription` writes issued, in order. -/
def put_subscriptions (es : List Effect) : List CacheRequest :=
  (cache_requests es).filter CacheRequest.is_put_subscription

/-- The `delete_public_ids` writes issued, in order. -/
def delete_public_ids (es : List Effect) : List CacheRequest :=
  (cache_requests es).filter CacheRequest.is_delete_public_ids

/-- HTTP replies sent, each with the content added to the response before it:
`body` is the content added so far. -/
def replies_from (body : List String) : List Effect → List (Nat × String)
  | [] => []
  | .add_content c :: es => replies_from (body ++ [c]) es
  | .send_reply rc :: es => (rc, String.join body) :: replies_from body es
  | _ :: es => replies_from body es

/-- HTTP replies (status, body) in a list of effects that starts with an empty
response. -/
def replies (es : List Effect) : List (Nat × String) :=
  replies_from [] es

/-- A reg-data request from the completion of its cache read to its end: the cache
callback runs; the Diameter transaction exists only if that callback sent a SAR, and
then exactly one of its two callbacks runs, chosen by `outcome`.  `now1` and `now2`
are the timestamps available to the two callbacks. -/
def reg_data_flow (cfg : Config) (xu : XmlUtils) (h : Handler)
    (get_ims_sub : GetIMSSubscription) (now1 : Int) (outcome : DiameterOutcome)
    (now2 : Int) : Handler × List Effect :=
  let r1 := on_get_ims_subscription_success cfg xu h get_ims_sub now1
  if sars_sent r1.2 = [] then
    r1
  else
    match outcome with
    | .response saa =>
      let r2 := on_sar_response cfg xu r1.1 saa now2
      (r2.1, r1.2 ++ r2.2)
    | .timeout =>
      let r2 := on_diameter_timeout r1.1
      (r2.1, r1.2 ++ r2.2)


/-- A small stand-in for the XML helpers, for evaluating the handler on concrete
inputs: the document "P" has the one public identity sip:u@d, every other document
has none, no document carries a private identity, and the wrapped document is the
state name followed by the profile. -/
def sample_xml_utils : XmlUtils where
  get_public_ids := fun xml => if xml = "P" then ["sip:u@d"] else []
  get_private_id := fun _ => ""
  build_ClearwaterRegData_xml := fun s xml =>
    (match s with
      | .REGISTERED => "REGISTERED:"
      | .UNREGISTERED => "UNREGISTERED:"
      | .NOT_REGISTERED => "NOT_REGISTERED:") ++ xml

/-- A configuration with an HSS and `hss_reregistration_time` 3600. -/
def sample_hss_config : Config :=
  ⟨false, "Unknown", "SIP Digest", "Digest-AKAv1-MD5", 0, true, 3600⟩

/-- A configuration without an HSS. -/
def sample_no_hss_config : Config :=
  ⟨false, "Unknown", "SIP Digest", "Digest-AKAv1-MD5", 0, false, 3600⟩

/-- The handler of `PUT /impu/sip:u@d/reg-data?private_id=i@d` with the given type,
as `run` leaves it. -/
def sample_put (type : RequestType) : Handler :=
  ⟨.ImpuRegData, .htp_method_PUT, "i@d", "sip:u@d", type, "", .NOT_REGISTERED⟩

/-- Modelled from the spec: the error codes a cache transaction hands to a failure
callback (`Cache::ResultCode`, declared outside the embedded file).  The handlers
name `NOT_FOUND`; the other values are the cache errors of the spec's taxonomy. -/
inductive CacheResultCode where
  | NOT_FOUND
  | BACKEND_UNAVAILABLE
  | BACKEND_ERROR
  | TIMEOUT
  deriving DecidableEq, Repr

/-- What the handler observes of a `rapidjson` value: `IsString()` and, for a string,
the `std::string` it assigns from `GetString()`. -/
inductive JsonValue where
  | string (s : String)
  | other
  deriving DecidableEq, Repr

/-- What `request_type_from_body` observes of the parsed `rapidjson::Document`:
`IsObject()`, and for a member name whether `HasMember(name)` holds (the lookup is
`some`) and the value `document[name]`.  A body that does not parse is not an
object. -/
structure JsonDocument where
  IsObject : Bool
  member : String → Option JsonValue

/-- `ImpuRegDataHandler::request_type_from_body`; `json_parse` is the library call
`document.Parse<0>(body.c_str())`. -/
def request_type_from_body (json_parse : String → JsonDocument) (body : String) :
    RequestType :=
  let document := json_parse body
  let reqtype : String :=
    if document.IsObject then
      match document.member "reqtype" with
      | some (.string s) => s
      | _ => ""
    else ""
  if reqtype = "reg" then .REG
  else if reqtype = "call" then .CALL
  else if reqtype = "dereg-user" then .DEREG_USER
  else if reqtype = "dereg-admin" then .DEREG_ADMIN
  else if reqtype = "dereg-timeout" then .DEREG_TIMEOUT
  else if reqtype = "dereg-auth-failed" then .DEREG_AUTH_FAIL
  else if reqtype = "dereg-auth-timeout" then .DEREG_AUTH_TIMEOUT
  else .UNKNOWN

/-- Whether a cache request is a `PutAssociatedPrivateID` (the spec's
`put_associated_private_id`). -/
def CacheRequest.is_put_associated_private_id : CacheRequest → Bool
  | .PutAssociatedPrivateID .. => true
  | _ => false

/-- The parts of the HTTP request (`_req`) that `run` reads: `method()`,
`full_path()`, `param("private_id")` (empty when absent) and `body()`. -/
structure HttpRequest where
  method : htp_method
  full_path : String
  private_id : String
  body : String
  deriving Repr

/-- The public identity `run` cuts out of the path:
`path.substr(6, path.find_first_of("/", 6) - 6)` with 6 the length of the prefix
"/impu/", that is the characters after the prefix up to the next slash (all of them
when there is none).  `substr` throws when the path is shorter than the prefix, which
is `none`.  Positions are counted in characters; for a path that starts with the
prefix this agrees with the byte positions of `std::string`. -/
def impu_from_path (path : String) : Option String :=
  if path.length < 6 then none
  else some (String.mk ((path.data.drop 6).takeWhile (fun c => c ≠ '/')))

/-- `ImpuRegDataHandler::run`: the handler it leaves behind and its effects.  The
fields `_xml` and `_new_state` are not yet assigned by `run`; they are shown empty and
NOT_REGISTERED and are overwritten by the cache callback before they are read. -/
def ImpuRegDataHandler.run (json_parse : String → JsonDocument) (req : HttpRequest) :
    Option (Handler × List Effect) :=
  match impu_from_path req.full_path with
  | none => none
  | some impu =>
    let h : Handler :=
      ⟨.ImpuRegData, req.method, req.private_id, impu, .UNKNOWN, "", .NOT_REGISTERED⟩
    if req.method = .htp_method_PUT then
      let h := { h with _type := request_type_from_body json_parse req.body }
      if h._type = .UNKNOWN then
        some (h, [.send_reply 400, .delete_this])
      else
        some (h, [.cache_send (.GetIMSSubscription h._impu)])
    else if req.method = .htp_method_GET then
      let h := { h with _type := .UNKNOWN }
      some (h, [.cache_send (.GetIMSSubscription h._impu)])
    else
      some (h, [.send_reply 405, .delete_this])

/-- `ImpuRegDataHandler::on_get_ims_subscription_failure`: 502 whatever the error. -/
def on_get_ims_subscription_failure (h : Handler) (_error : CacheResultCode)
    (_text : String) : Handler × List Effect :=
  (h, [.send_reply 502, .delete_this])

/-- The ways the read of a subscription can end in the subscriber store: the record is
there, there is no record, or the store fails. -/
inductive CacheReadOutcome where
  | found (r : GetIMSSubscription)
  | not_found
  | failed (error : CacheResultCode) (text : String)
  deriving Repr

/-- Modelled from the spec: which callback `Cache::GetIMSSubscription` (not in the
embedded file) runs.  Spec 4.5.2: let (cached_xml, old_state, assoc_privates, ttl) be
the result, with old_state = NOT_REGISTERED on NOT_FOUND.  A missing record is
therefore delivered to the success callback as an empty profile in state
NOT_REGISTERED with no associated private identity and ttl 0; a failure of the store is
delivered to the failure callback. -/
def get_subscription_completion (read : CacheReadOutcome) :
    GetIMSSubscription ⊕ (CacheResultCode × String) :=
  match read with
  | .found r => .inl r
  | .not_found => .inl ⟨"", 0, .NOT_REGISTERED, 0, []⟩
  | .failed error text => .inr (error, text)

/-- A reg-data request from the completion of its cache read to its end: the success
callback and what follows it (`reg_data_flow`), or the failure callback. -/
def reg_data_after_read (cfg : Config) (xu : XmlUtils) (h : Handler)
    (read : CacheReadOutcome) (now1 : Int) (outcome : DiameterOutcome) (now2 : Int) :
    Handler × List Effect :=
  match get_subscription_completion read with
  | .inl r => reg_data_flow cfg xu h r now1 outcome now2
  | .inr e => on_get_ims_subscription_failure h e.1 e.2

/-- A whole reg-data request: `run`, and unless `run` already released the handler,
the completion of the cache read it issued and what follows. -/
def reg_data_request (cfg : Config) (xu : XmlUtils) (json_parse : String → JsonDocument)
    (req : HttpRequest) (read : CacheReadOutcome) (now1 : Int)
    (outcome : DiameterOutcome) (now2 : Int) : Option (Handler × List Effect) :=
  match ImpuRegDataHandler.run json_parse req with
  | none => none
  | some r0 =>
    if Effect.delete_this ∈ r0.2 then
      some r0
    else
      let r1 := reg_data_after_read cfg xu r0.1 read now1 outcome now2
      some (r1.1, r0.2 ++ r1.2)

/-- Modelled from the spec: a row of the column family keyed by public identity
(spec 3, subscription record; spec 6, cache schema). -/
structure SubscriptionRecord where
  profile_document : String
  registration_state : RegistrationState
  associated_private_ids : List String
  ttl_seconds : Int
  deriving DecidableEq, Repr

/-- Modelled from the spec: the subscriber store behind the cache gateway, as the row
held for each public identity. -/
def CacheStore : Type := String → Option SubscriptionRecord

/-- Modelled from the spec: the effect of a cache request on the store (spec 4.3 and
the round trip of spec 8: after put_subscription(P, d, S, ...) the read of p in P yields
(d, S, ...)).  `PutIMSSubscription` writes profile, state and ttl of the rows of the
listed public identities and adds the private identities to them;
`PutAssociatedPrivateID` adds the private identity to the rows of the listed public
identities; `DeletePublicIDs` removes those rows; the other requests leave the rows
alone.  Writes take effect in the order they are issued and expiry is not modelled
(a record is read back before its ttl has passed). -/
def CacheStore.apply (store : CacheStore) (req : CacheRequest) : CacheStore :=
  match req with
  | .PutIMSSubscription public_ids xml reg_state impis _ ttl =>
    fun p =>
      if p ∈ public_ids then
        let old : List String :=
          match store p with
          | some record => record.associated_private_ids
          | none => []
        some ⟨xml, reg_state, old ++ impis.filter (fun i => i ∉ old), ttl⟩
      else store p
  | .PutAssociatedPrivateID public_ids impi _ ttl =>
    fun p =>
      if p ∈ public_ids then
        match store p with
        | some record =>
          some { record with
            associated_private_ids :=
              record.associated_private_ids ++ [impi].filter
                (fun i => i ∉ record.associated_private_ids) }
        | none => some ⟨"", .NOT_REGISTERED, [impi], ttl⟩
      else store p
  | .DeletePublicIDs public_ids _ _ =>
    fun p => if p ∈ public_ids then none else store p
  | _ => store

/-- The store after the cache requests of a list of effects, applied in order. -/
def CacheStore.after (store : CacheStore) (es : List Effect) : CacheStore :=
  (cache_requests es).foldl CacheStore.apply store

/-- Modelled from the spec: how the read of the subscription of `public_id` ends on a
store that does not fail: the record when there is one, `not_found` otherwise. -/
def CacheStore.get_subscription (store : CacheStore) (public_id : String) :
    CacheReadOutcome :=
  match store public_id with
  | some record =>
    .found ⟨record.profile_document, record.ttl_seconds, record.registration_state,
      record.ttl_seconds, record.associated_private_ids⟩
  | none => .not_found

/-- A JSON reader for evaluating `run` on concrete bodies: it knows the body
`\x7b"reqtype":"X"\x7d` for the seven request names and for the unknown name "bogus",
and the non-string member of `\x7b"reqtype":1\x7d`; every other body is not an
object. -/
def sample_json_parse (body : String) : JsonDocument :=
  let names := ["reg", "call", "dereg-user", "dereg-admin", "dereg-timeout",
    "dereg-auth-failed", "dereg-auth-timeout", "bogus"]
  match names.find? (fun n => body = "\x7b\"reqtype\":\"" ++ n ++ "\"\x7d") with
  | some n => ⟨true, fun k => if k = "reqtype" then some (.string n) else none⟩
  | none =>
    if body = "\x7b\"reqtype\":1\x7d" then
      ⟨true, fun k => if k = "reqtype" then some .other else none⟩
    else ⟨false, fun _ => none⟩

/-- The request `PUT /impu/sip:u@d/reg-data?private_id=i@d` with the given body. -/
def sample_http_put (body : String) : HttpRequest :=
  ⟨.htp_method_PUT, "/impu/sip:u@d/reg-data", "i@d", body⟩

/-- The empty subscriber store. -/
def empty_store : CacheStore := fun _ => none

/-- A store whose only record, for sip:u@d, is in state REGISTERED with a profile
that yields no public identity. -/
def sample_store_broken : CacheStore :=
  fun p => if p = "sip:u@d" then some ⟨"<broken", .REGISTERED, ["i@d"], 7200⟩ else none

/-- A store whose only record, for sip:u@d, holds the profile "P" in state REGISTERED
bound to i@d. -/
def sample_store_registered : CacheStore :=
  fun p => if p = "sip:u@d" then some ⟨"P", .REGISTERED, ["i@d"], 7200⟩ else none

/-- The digest authentication vector (`DigestAuthVector`). -/
structure DigestAuthVector where
  ha1 : String
  realm : String
  qop : String
  deriving DecidableEq, Repr

/-- The AKA authentication vector (`AKAAuthVector`). -/
structure AKAAuthVector where
  challenge : String
  response : String
  crypt_key : String
  integrity_key : String
  deriving DecidableEq, Repr

/-- The calls the handlers make on a `rapidjson::Writer`, in order: `StartObject()`,
`EndObject()` and `String(s)` (a member name or a string value), with `s` the
characters the writer reads from its `const char*` argument. -/
inductive WriterCall where
  | StartObject
  | EndObject
  | Str (s : String)
  deriving DecidableEq, Repr

/-- Modelled from the spec: the member names and the default qop of the credential
bodies (spec 4.1); the constants `JSON_DIGEST_HA1`, `JSON_DIGEST`, `JSON_HA1`,
`JSON_REALM`, `JSON_QOP`, `JSON_AUTH`, `JSON_AKA`, `JSON_CHALLENGE`, `JSON_RESPONSE`,
`JSON_CRYPTKEY` and `JSON_INTEGRITYKEY` are declared outside the embedded file. -/
def JSON_DIGEST_HA1 : String := "digest_HA1"

/-- Modelled from the spec: member name of the nested digest object (spec 4.1). -/
def JSON_DIGEST : String := "digest"

/-- Modelled from the spec: member name of the ha1 value (spec 4.1). -/
def JSON_HA1 : String := "ha1"

/-- Modelled from the spec: member name of the realm value (spec 4.1). -/
def JSON_REALM : String := "realm"

/-- Modelled from the spec: member name of the qop value (spec 4.1). -/
def JSON_QOP : String := "qop"

/-- Modelled from the spec: the qop emitted for an empty qop (spec 4.1). -/
def JSON_AUTH : String := "auth"

/-- Modelled from the spec: member name of the nested AKA object (spec 4.1). -/
def JSON_AKA : String := "aka"

/-- Modelled from the spec: member name of the challenge value (spec 4.1). -/
def JSON_CHALLENGE : String := "challenge"

/-- Modelled from the spec: member name of the response value (spec 4.1). -/
def JSON_RESPONSE : String := "response"

/-- Modelled from the spec: member name of the crypt key value (spec 4.1). -/
def JSON_CRYPTKEY : String := "cryptkey"

/-- Modelled from the spec: member name of the integrity key value (spec 4.1). -/
def JSON_INTEGRITYKEY : String := "integritykey"

/-- Which class a credential handler is: it selects `parse_request` and the two
`send_reply` overloads. -/
inductive ImpiKind where
  | ImpiDigest
  | ImpiAv
  deriving DecidableEq, Repr

/-- The member variables of an `ImpiHandler`. -/
structure ImpiHandler where
  kind : ImpiKind
  _impi : String
  _impu : String
  _scheme : String
  _authorization : String
  deriving DecidableEq, Repr

/-- The parts of the HTTP request that the credential handlers read: `path()`,
`file()` (the last path segment) and `param(name)` (empty when absent). -/
structure ImpiHttpRequest where
  path : String
  file : String
  param : String → String

/-- What the handler reads from a `Cx::MultimediaAuthAnswer`: the value left in
`result_code` by `maa.result_code(result_code)` (it starts at 0), the scheme and the
two vectors. -/
structure MultimediaAuthAnswer where
  result_code : Int
  sip_auth_scheme : String
  digest_auth_vector : DigestAuthVector
  aka_auth_vector : AKAAuthVector
  deriving Repr

/-- How a Multimedia-Auth exchange ends: the response callback or the timeout
callback. -/
inductive MarOutcome where
  | response (maa : MultimediaAuthAnswer)
  | timeout
  deriving Repr

/-- How a cache transaction with a handler ends: the success callback with the
result, or the failure callback with an error code and a text. -/
inductive CacheCompletion (α : Type) where
  | success (result : α)
  | failure (error : CacheResultCode) (text : String)
  deriving Repr

/-- `PingHandler::run`. -/
def PingHandler.run : List Effect :=
  [.add_content "OK", .send_reply 200, .delete_this]

/-- The private identity the credential handlers cut out of the path:
`path.substr(6, path.find_first_of("/", 6) - 6)` with 6 the length of the prefix
"/impi/"; `none` when `substr` throws because the path is shorter than the prefix. -/
def impi_from_path (path : String) : Option String :=
  if path.length < 6 then none
  else some (String.mk ((path.data.drop 6).takeWhile (fun c => c ≠ '/')))

/-- `ImpiDigestHandler::parse_request`: the fields it sets and its result (always
true); `none` when the path is shorter than the prefix. -/
def ImpiDigestHandler.parse_request (cfg : Config) (req : ImpiHttpRequest) :
    Option (ImpiHandler × Bool) :=
  match impi_from_path req.path with
  | none => none
  | some impi =>
    some (⟨.ImpiDigest, impi, req.param "public_id", cfg.scheme_digest, ""⟩, true)

/-- `ImpiAvHandler::parse_request`: the fields it sets and its result; on an unknown
scheme name it returns false before `_impu` and `_authorization` are set (they stay
empty). -/
def ImpiAvHandler.parse_request (cfg : Config) (req : ImpiHttpRequest) :
    Option (ImpiHandler × Bool) :=
  match impi_from_path req.path with
  | none => none
  | some impi =>
    let scheme := req.file
    if scheme = "av" then
      some (⟨.ImpiAv, impi, req.param "impu", cfg.scheme_unknown, req.param "autn"⟩, true)
    else if scheme = "digest" then
      some (⟨.ImpiAv, impi, req.param "impu", cfg.scheme_digest, req.param "autn"⟩, true)
    else if scheme = "aka" then
      some (⟨.ImpiAv, impi, req.param "impu", cfg.scheme_aka, req.param "autn"⟩, true)
    else
      some (⟨.ImpiAv, impi, "", "", ""⟩, false)

/-- The virtual `parse_request`. -/
def ImpiHandler.parse_request (cfg : Config) (kind : ImpiKind) (req : ImpiHttpRequest) :
    Option (ImpiHandler × Bool) :=
  match kind with
  | .ImpiDigest => ImpiDigestHandler.parse_request cfg req
  | .ImpiAv => ImpiAvHandler.parse_request cfg req

/-- What a callee reads from `s.c_str()`: the characters of `s` before its first NUL
character (all of `s` when it has none).  `writer.String(const char*)` takes its
argument this way. -/
def c_str (s : String) : String :=
  String.mk (s.data.takeWhile (fun c => c ≠ Char.ofNat 0))

/-- The writer calls of `ImpiDigestHandler::send_reply(const DigestAuthVector&)`; each
string is handed over as `.c_str()`. -/
def ImpiDigestHandler.digest_body (av : DigestAuthVector) : List WriterCall :=
  [.StartObject, .Str (c_str JSON_DIGEST_HA1), .Str (c_str av.ha1), .EndObject]

/-- The writer calls of `ImpiAvHandler::send_reply(const DigestAuthVector&)`; each
string is handed over as `.c_str()`, the qop after the test for emptiness. -/
def ImpiAvHandler.digest_body (av : DigestAuthVector) : List WriterCall :=
  let qop_value : String := if av.qop ≠ "" then av.qop else JSON_AUTH
  [.StartObject, .Str (c_str JSON_DIGEST), .StartObject, .Str (c_str JSON_HA1),
    .Str (c_str av.ha1), .Str (c_str JSON_REALM), .Str (c_str av.realm),
    .Str (c_str JSON_QOP), .Str (c_str qop_value), .EndObject, .EndObject]

/-- The writer calls of `ImpiAvHandler::send_reply(const AKAAuthVector&)`; each string
is handed over as `.c_str()`. -/
def ImpiAvHandler.aka_body (av : AKAAuthVector) : List WriterCall :=
  [.StartObject, .Str (c_str JSON_AKA), .StartObject, .Str (c_str JSON_CHALLENGE),
    .Str (c_str av.challenge), .Str (c_str JSON_RESPONSE), .Str (c_str av.response),
    .Str (c_str JSON_CRYPTKEY), .Str (c_str av.crypt_key),
    .Str (c_str JSON_INTEGRITYKEY), .Str (c_str av.integrity_key), .EndObject,
    .EndObject]

/-- The virtual `send_reply(const DigestAuthVector&)`; `GetString` is the library
rendering of the writer calls (`sb.GetString()`). -/
def ImpiHandler.send_reply_digest (GetString : List WriterCall → String)
    (h : ImpiHandler) (av : DigestAuthVector) : List Effect :=
  match h.kind with
  | .ImpiDigest =>
    [.add_content (GetString (ImpiDigestHandler.digest_body av)), .send_reply 200]
  | .ImpiAv =>
    [.add_content (GetString (ImpiAvHandler.digest_body av)), .send_reply 200]

/-- The virtual `send_reply(const AKAAuthVector&)`: the digest endpoint rejects an AKA
vector with 404. -/
def ImpiHandler.send_reply_aka (GetString : List WriterCall → String)
    (h : ImpiHandler) (av : AKAAuthVector) : List Effect :=
  match h.kind with
  | .ImpiDigest => [.send_reply 404]
  | .ImpiAv =>
    [.add_content (GetString (ImpiAvHandler.aka_body av)), .send_reply 200]

/-- `ImpiHandler::query_cache_av`. -/
def ImpiHandler.query_cache_av (h : ImpiHandler) : List Effect :=
  [.cache_send (.GetAuthVector h._impi h._impu)]

/-- `ImpiHandler::on_get_av_success`. -/
def ImpiHandler.on_get_av_success (GetString : List WriterCall → String)
    (h : ImpiHandler) (av : DigestAuthVector) : ImpiHandler × List Effect :=
  (h, ImpiHandler.send_reply_digest GetString h av ++ [.delete_this])

/-- `ImpiHandler::on_get_av_failure`: 502 whatever the error. -/
def ImpiHandler.on_get_av_failure (h : ImpiHandler) (_error : CacheResultCode)
    (_text : String) : ImpiHandler × List Effect :=
  (h, [.send_reply 502, .delete_this])

/-- `ImpiHandler::send_mar`: one Multimedia-Auth request with the handler's private
identity, public identity, scheme and authorization. -/
def ImpiHandler.send_mar (h : ImpiHandler) : List Effect :=
  [.mar_send h._impi h._impu h._scheme h._authorization]

/-- `ImpiHandler::query_cache_impu`. -/
def ImpiHandler.query_cache_impu (h : ImpiHandler) : List Effect :=
  [.cache_send (.GetAssociatedPublicIDs h._impi)]

/-- `ImpiHandler::get_av`. -/
def ImpiHandler.get_av (cfg : Config) (h : ImpiHandler) : List Effect :=
  if h._impu = "" then
    if h._scheme = cfg.scheme_aka then
      [.send_reply 404, .delete_this]
    else
      ImpiHandler.query_cache_impu h
  else
    ImpiHandler.send_mar h

/-- `ImpiHandler::on_get_impu_success`. -/
def ImpiHandler.on_get_impu_success (h : ImpiHandler) (ids : List String) :
    ImpiHandler × List Effect :=
  match ids with
  | id0 :: _ =>
    let h := { h with _impu := id0 }
    (h, ImpiHandler.send_mar h)
  | [] => (h, [.send_reply 404, .delete_this])

/-- `ImpiHandler::on_get_impu_failure`. -/
def ImpiHandler.on_get_impu_failure (h : ImpiHandler) (error : CacheResultCode)
    (_text : String) : ImpiHandler × List Effect :=
  if error = .NOT_FOUND then
    (h, [.send_reply 404, .delete_this])
  else
    (h, [.send_reply 502, .delete_this])

/-- `ImpiHandler::on_mar_response`; `now` is `Cache::generate_timestamp()`. -/
def ImpiHandler.on_mar_response (cfg : Config) (GetString : List WriterCall → String)
    (h : ImpiHandler) (maa : MultimediaAuthAnswer) (now : Int) :
    ImpiHandler × List Effect :=
  let result_code := maa.result_code
  if result_code = 2001 then
    let sip_auth_scheme := maa.sip_auth_scheme
    if sip_auth_scheme = cfg.scheme_digest then
      (h, ImpiHandler.send_reply_digest GetString h maa.digest_auth_vector ++
        (if cfg.impu_cache_ttl ≠ 0 then
          [.cache_send (.PutAssociatedPublicID h._impi h._impu now cfg.impu_cache_ttl)]
         else []) ++ [.delete_this])
    else if sip_auth_scheme = cfg.scheme_aka then
      (h, ImpiHandler.send_reply_aka GetString h maa.aka_auth_vector ++ [.delete_this])
    else
      (h, [.send_reply 404, .delete_this])
  else if result_code = 5001 then
    (h, [.send_reply 404, .delete_this])
  else
    (h, [.send_reply 500, .delete_this])

/-- `HssCacheHandler::on_diameter_timeout` on a credential handler. -/
def ImpiHandler.on_diameter_timeout (h : ImpiHandler) : ImpiHandler × List Effect :=
  (h, [.send_reply 503, .delete_this])

/-- `ImpiHandler::run`; `none` when `parse_request` throws on a path shorter than the
prefix. -/
def ImpiHandler.run (cfg : Config) (kind : ImpiKind) (req : ImpiHttpRequest) :
    Option (ImpiHandler × List Effect) :=
  match ImpiHandler.parse_request cfg kind req with
  | none => none
  | some (h, ok) =>
    if ok then
      if cfg.query_cache_av then
        some (h, ImpiHandler.query_cache_av h)
      else
        some (h, ImpiHandler.get_av cfg h)
    else
      some (h, [.send_reply 404, .delete_this])

/-- Multimedia-Auth requests sent, in order, as (private id, public id, scheme,
authorization). -/
def mars_sent : List Effect → List (String × String × String × String)
  | [] => []
  | .mar_send impi impu scheme authorization :: es =>
    (impi, impu, scheme, authorization) :: mars_sent es
  | _ :: es => mars_sent es

/-- A whole credential request: `run`; then the completion of the cache transaction
`run` started, if any (`av_done` for a `GetAuthVector`, `impu_done` for a
`GetAssociatedPublicIDs`); then, if a Multimedia-Auth request has been sent, the end of
that exchange (`mar_done`).  Each transaction ends in exactly one callback. -/
def impi_request (cfg : Config) (GetString : List WriterCall → String) (kind : ImpiKind)
    (req : ImpiHttpRequest) (av_done : CacheCompletion DigestAuthVector)
    (impu_done : CacheCompletion (List String)) (mar_done : MarOutcome) (now : Int) :
    Option (ImpiHandler × List Effect) :=
  match ImpiHandler.run cfg kind req with
  | none => none
  | some r0 =>
    let r1 : ImpiHandler × List Effect :=
      match r0.2.getLast? with
      | some (.cache_send (.GetAuthVector _ _)) =>
        match av_done with
        | .success av => ImpiHandler.on_get_av_success GetString r0.1 av
        | .failure error text => ImpiHandler.on_get_av_failure r0.1 error text
      | some (.cache_send (.GetAssociatedPublicIDs _)) =>
        match impu_done with
        | .success ids => ImpiHandler.on_get_impu_success r0.1 ids
        | .failure error text => ImpiHandler.on_get_impu_failure r0.1 error text
      | _ => (r0.1, [])
    let r2 : ImpiHandler × List Effect :=
      match (r0.2 ++ r1.2).getLast? with
      | some (.mar_send _ _ _ _) =>
        match mar_done with
        | .response maa => ImpiHandler.on_mar_response cfg GetString r1.1 maa now
        | .timeout => ImpiHandler.on_diameter_timeout r1.1
      | _ => (r1.1, [])
    some (r2.1, r0.2 ++ r1.2 ++ r2.2)

/-- The public identity `ImpuIMSSubscriptionHandler::run` cuts out of the path:
`path.substr(6)`, everything after the prefix "/impu/"; `none` when `substr` throws
because the path is shorter than the prefix. -/
def impu_from_deprecated_path (path : String) : Option String :=
  if path.length < 6 then none
  else some (String.mk (path.data.drop 6))

/-- `ImpuIMSSubscriptionHandler::run` (the deprecated endpoint): no check of the
method; the type is CALL without a private identity and REG with one. -/
def ImpuIMSSubscriptionHandler.run (req : HttpRequest) : Option (Handler × List Effect) :=
  match impu_from_deprecated_path req.full_path with
  | none => none
  | some impu =>
    let type : RequestType := if req.private_id = "" then .CALL else .REG
    let h : Handler :=
      ⟨.ImpuIMSSubscription, req.method, req.private_id, impu, type, "", .NOT_REGISTERED⟩
    some (h, [.cache_send (.GetIMSSubscription h._impu)])

/-- A whole request on the deprecated endpoint: `run`, the completion of the cache
read and what follows. -/
def impu_subscription_request (cfg : Config) (xu : XmlUtils) (req : HttpRequest)
    (read : CacheReadOutcome) (now1 : Int) (outcome : DiameterOutcome) (now2 : Int) :
    Option (Handler × List Effect) :=
  match ImpuIMSSubscriptionHandler.run req with
  | none => none
  | some r0 =>
    let r1 := reg_data_after_read cfg xu r0.1 read now1 outcome now2
    some (r1.1, r0.2 ++ r1.2)

/-- The number of times the handler is released (`delete this`). -/
def releases : List Effect → Nat
  | [] => 0
  | .delete_this :: es => releases es + 1
  | _ :: es => releases es

/-- The effects of a request end it properly: exactly one HTTP reply is sent, the
handler is released exactly once, and the release is the last effect, so nothing uses
the handler after it. -/
@[reducible] def replied_and_released_once (es : List Effect) : Prop :=
  (replies es).length = 1 ∧ releases es = 1 ∧ es.getLast? = some .delete_this

/-- Modelled from the spec: a JSON value as the reader of a credential body holds it
(spec 4.1): a string, or an object with its named members in document order.  The
reader is not part of the embedded file. -/
inductive JsonTree where
  | str (s : String)
  | obj (members : List (String × JsonTree))

/-- Modelled from the spec: the member of an object with the given name (the first one
in document order); `none` for a string and for a name the object does not have. -/
def JsonTree.member (t : JsonTree) (name : String) : Option JsonTree :=
  match t with
  | .obj members => members.lookup name
  | .str _ => none

/-- Modelled from the spec: the value of a JSON string; `none` for an object. -/
def JsonTree.string_value (t : JsonTree) : Option String :=
  match t with
  | .str s => some s
  | .obj _ => none

/-- Modelled from the spec: the state of the reader while it goes through a document:
for each object still open, innermost first, the members read so far and the member
name that waits for its value; and the finished top-level value. -/
structure ReaderState where
  open_objects : List (List (String × JsonTree) × Option String)
  document : Option JsonTree

/-- Modelled from the spec: a finished value goes to the member name waiting in the
innermost open object, or becomes the document when no object is open; it is an error
when no member name waits for it or when the document is already there. -/
def ReaderState.put_value (st : ReaderState) (v : JsonTree) : Option ReaderState :=
  match st.open_objects, st.document with
  | [], none => some ⟨[], some v⟩
  | [], some _ => none
  | (members, some name) :: outer, document =>
    some ⟨(members ++ [(name, v)], none) :: outer, document⟩
  | (_, none) :: _, _ => none

/-- Modelled from the spec: the reader takes one element of the document: the start of
an object opens one, a string is a member name when the innermost open object waits
for one and a value otherwise, and the end of an object closes the innermost open
object, which must not wait for a value. -/
def ReaderState.read_call (st : ReaderState) (c : WriterCall) : Option ReaderState :=
  match c with
  | .StartObject =>
    match st.open_objects, st.document with
    | [], none => some ⟨[([], none)], none⟩
    | (members, some name) :: outer, document =>
      some ⟨([], none) :: (members, some name) :: outer, document⟩
    | _, _ => none
  | .Str s =>
    match st.open_objects with
    | (members, none) :: outer => some ⟨(members, some s) :: outer, st.document⟩
    | _ => st.put_value (.str s)
  | .EndObject =>
    match st.open_objects with
    | (members, none) :: outer => ReaderState.put_value ⟨outer, st.document⟩ (.obj members)
    | _ => none

/-- Modelled from the spec: the reader goes through the elements of a document in
order. -/
def ReaderState.read_calls (st : ReaderState) : List WriterCall → Option ReaderState
  | [] => some st
  | c :: calls =>
    match st.read_call c with
    | some st1 => st1.read_calls calls
    | none => none

/-- Modelled from the spec: the JSON value of a document given as the sequence of its
elements; `none` when the sequence is not one well-formed value. -/
def read_document (calls : List WriterCall) : Option JsonTree :=
  match ReaderState.read_calls ⟨[], none⟩ calls with
  | some ⟨[], document⟩ => document
  | _ => none

/-- Modelled from the spec: the reader of the full-variant digest body (the "parse" of
spec 4.1 and 8), which is not part of the embedded file.  It reads the document, takes
the member "digest" and from it the members "ha1", "realm" and "qop", whatever their
order, and fails when one of them is missing or is not a string (no field is
optional). -/
def parse_digest_body (calls : List WriterCall) : Option DigestAuthVector :=
  match read_document calls with
  | none => none
  | some document =>
    match document.member JSON_DIGEST with
    | none => none
    | some digest =>
      match (digest.member JSON_HA1).bind JsonTree.string_value,
        (digest.member JSON_REALM).bind JsonTree.string_value,
        (digest.member JSON_QOP).bind JsonTree.string_value with
      | some ha1, some realm, some qop => some ⟨ha1, realm, qop⟩
      | _, _, _ => none

/-- A rendering of writer calls for evaluating the credential handlers on concrete
inputs: objects in braces, strings in double quotes, members separated by blanks. -/
def sample_GetString (calls : List WriterCall) : String :=
  String.intercalate " " (calls.map (fun c =>
    match c with
    | .StartObject => "\x7b"
    | .EndObject => "\x7d"
    | .Str s => "\"" ++ s ++ "\""))

/-- A configuration that consults the cache for authentication vectors first. -/
def sample_cache_av_config : Config :=
  ⟨true, "Unknown", "SIP Digest", "Digest-AKAv1-MD5", 3600, true, 3600⟩

/-- The request `GET /impi/i@d/<file>` with the given public identity (as both the
`public_id` and the `impu` parameter) and `autn` parameter. -/
def sample_impi_request (file public_id autn : String) : ImpiHttpRequest :=
  ⟨"/impi/i@d/" ++ file, file,
    fun name =>
      if name = "public_id" ∨ name = "impu" then public_id
      else if name = "autn" then autn else ""⟩

/-- The effects other than requests to the cache, in order. -/
def non_cache : List Effect → List Effect
  | [] => []
  | .cache_send _ :: es => non_cache es
  | e :: es => e :: non_cache es

/-- The characters of a string, each behind the mark `+`, closed by the mark `.`, then
the characters `rest`. -/
def tagged_string : List Char → List Char → List Char
  | [], rest => '.' :: rest
  | c :: cs, rest => '+' :: c :: tagged_string cs rest

/-- The characters `sample_tagged_GetString` renders for writer calls: `o` opens an
object, `c` closes one, `s` starts a string. -/
def tagged_calls : List WriterCall → List Char
  | [] => []
  | .StartObject :: calls => 'o' :: tagged_calls calls
  | .EndObject :: calls => 'c' :: tagged_calls calls
  | .Str s :: calls => 's' :: tagged_string s.data (tagged_calls calls)

/-- A rendering of writer calls under which different documents give different
strings, for evaluating statements about rendered bodies on concrete inputs. -/
def sample_tagged_GetString (calls : List WriterCall) : String :=
  String.mk (tagged_calls calls)

/-- A configuration with an HSS whose re-registration time is 2^30 seconds, so that
twice this time does not fit a 32-bit `int`. -/
def sample_long_reregistration_config : Config :=
  ⟨false, "Unknown", "SIP Digest", "Digest-AKAv1-MD5", 0, true, 1073741824⟩

/-- The string `tagged_string` rendered at the head of the characters, and the
characters after it; `none` when the characters do not start with such a rendering. -/
def untag_string : List Char → Option (List Char × List Char)
  | [] => none
  | x :: rest =>
    if x = '.' then some ([], rest)
    else if x = '+' then
      match rest with
      | [] => none
      | c :: rest1 =>
        match untag_string rest1 with
        | some (s, r) => some (c :: s, r)
        | none => none
    else none

/-- The writer calls `tagged_calls` rendered as the characters, read with at most `fuel`
calls; `none` when the characters are not such a rendering. -/
def untag_calls : Nat → List Char → Option (List WriterCall)
  | _, [] => some []
  | 0, _ :: _ => none
  | fuel + 1, x :: rest =>
    if x = 'o' then (untag_calls fuel rest).map (fun calls => .StartObject :: calls)
    else if x = 'c' then (untag_calls fuel rest).map (fun calls => .EndObject :: calls)
    else if x = 's' then
      match untag_string rest with
      | some (s, r) => (untag_calls fuel r).map (fun calls => .Str (String.mk s) :: calls)
      | none => none
    else none

/-- The reader that goes with `sample_tagged_GetString`: the writer calls a body was
rendered from. -/
def sample_tagged_reader (body : String) : Option (List WriterCall) :=
  untag_calls body.length body.data

@[simp] theorem sars_sent_append (xs ys : List Effect) :
    sars_sent (xs ++ ys) = sars_sent xs ++ sars_sent ys := by
  induction xs with
  | nil => rfl
  | cons x xs ih => cases x <;> simp [sars_sent, ih]

@[simp] theorem cache_requests_append (xs ys : List Effect) :
    cache_requests (xs ++ ys) = cache_requests xs ++ cache_requests ys := by
  induction xs with
  | nil => rfl
  | cons x xs ih => cases x <;> simp [cache_requests, ih]

theorem check_binding_true (xu : XmlUtils) (impi xml : String) (assoc : List String)
    (hb : (check_binding xu impi xml assoc).2 = true) :
    (check_binding xu impi xml assoc).1 = impi := by
  unfold check_binding at *
  split_ifs at *
  all_goals simp_all

theorem sars_sent_on_sar_response (cfg : Config) (xu : XmlUtils) (h : Handler)
    (saa : ServerAssignmentAnswer) (now : Int) :
    sars_sent (on_sar_response cfg xu h saa now).2 = [] := by
  cases hk : h.kind <;>
  simp only [on_sar_response, put_in_cache, send_reply, hk] <;>
  split_ifs <;> simp [sars_sent]

theorem new_state_on_sar_response (cfg : Config) (xu : XmlUtils) (h : Handler)
    (saa : ServerAssignmentAnswer) (now : Int) :
    (on_sar_response cfg xu h saa now).1._new_state = h._new_state := by
  simp only [on_sar_response]
  split_ifs
  all_goals rfl

theorem sars_sent_reg_data_flow (cfg : Config) (xu : XmlUtils) (h : Handler)
    (r : GetIMSSubscription) (now1 : Int) (outcome : DiameterOutcome) (now2 : Int) :
    sars_sent (reg_data_flow cfg xu h r now1 outcome now2).2 =
      sars_sent (on_get_ims_subscription_success cfg xu h r now1).2 := by
  unfold reg_data_flow
  by_cases hs : sars_sent (on_get_ims_subscription_success cfg xu h r now1).2 = []
  · simp [hs]
  · cases outcome <;>
      simp [hs, sars_sent_on_sar_response, on_diameter_timeout, sars_sent]

theorem new_state_reg_data_flow (cfg : Config) (xu : XmlUtils) (h : Handler)
    (r : GetIMSSubscription) (now1 : Int) (outcome : DiameterOutcome) (now2 : Int) :
    (reg_data_flow cfg xu h r now1 outcome now2).1._new_state =
      (on_get_ims_subscription_success cfg xu h r now1).1._new_state := by
  unfold reg_data_flow
  by_cases hs : sars_sent (on_get_ims_subscription_success cfg xu h r now1).2 = []
  · simp [hs]
  · cases outcome <;>
      simp [hs, new_state_on_sar_response, on_diameter_timeout]

@[simp] theorem sars_sent_send_reply (xu : XmlUtils) (h : Handler) :
    sars_sent (send_reply xu h) = [] := by
  cases hk : h.kind <;> simp only [send_reply, hk]
  · rfl
  · split_ifs
    all_goals rfl

@[simp] theorem sars_sent_put_in_cache (cfg : Config) (xu : XmlUtils) (h : Handler)
    (now : Int) : sars_sent (put_in_cache cfg xu h now) = [] := by
  simp only [put_in_cache]
  split_ifs
  all_goals rfl

@[simp] theorem cache_requests_send_reply (xu : XmlUtils) (h : Handler) :
    cache_requests (send_reply xu h) = [] := by
  cases hk : h.kind <;> simp only [send_reply, hk]
  · rfl
  · split_ifs
    all_goals rfl

theorem delete_public_ids_append (xs ys : List Effect) :
    delete_public_ids (xs ++ ys) = delete_public_ids xs ++ delete_public_ids ys := by
  simp [delete_public_ids]

theorem put_subscriptions_append (xs ys : List Effect) :
    put_subscriptions (xs ++ ys) = put_subscriptions xs ++ put_subscriptions ys := by
  simp [put_subscriptions]

theorem delete_public_ids_put_in_cache (cfg : Config) (xu : XmlUtils) (h : Handler)
    (now : Int) : delete_public_ids (put_in_cache cfg xu h now) = [] := by
  simp only [put_in_cache]
  split_ifs
  all_goals rfl

theorem delete_public_ids_send_reply (xu : XmlUtils) (h : Handler) :
    delete_public_ids (send_reply xu h) = [] := by
  simp [delete_public_ids]

theorem on_get_fields (cfg : Config) (xu : XmlUtils) (h : Handler) (r : GetIMSSubscription)
    (now : Int) :
    (on_get_ims_subscription_success cfg xu h r now).1.kind = h.kind ∧
    (on_get_ims_subscription_success cfg xu h r now).1._type = h._type ∧
    (on_get_ims_subscription_success cfg xu h r now).1._xml = r.xml := by
  rcases h with ⟨kind, method, impi, impu, type, xml, ns⟩
  rcases r with ⟨rxml, xttl, st, sttl, assoc⟩
  cases hb : cfg.hss_configured <;> cases type <;> cases st <;>
    simp [on_get_ims_subscription_success, hb, is_deregistration_request,
      is_auth_failure_request] <;>
    split_ifs <;> simp

theorem delete_public_ids_on_get (cfg : Config) (xu : XmlUtils) (h : Handler)
    (r : GetIMSSubscription) (now : Int) :
    delete_public_ids (on_get_ims_subscription_success cfg xu h r now).2 = [] := by
  rcases h with ⟨kind, method, impi, impu, type, xml, ns⟩
  rcases r with ⟨rxml, xttl, st, sttl, assoc⟩
  cases hb : cfg.hss_configured <;> cases type <;> cases st <;>
    simp [on_get_ims_subscription_success, hb, is_deregistration_request,
      is_auth_failure_request, send_server_assignment_request] <;>
    split_ifs <;>
    simp [delete_public_ids_append, delete_public_ids_put_in_cache,
      delete_public_ids_send_reply] <;>
    simp [delete_public_ids, cache_requests, CacheRequest.is_delete_public_ids]

theorem delete_public_ids_on_sar_response (cfg : Config) (xu : XmlUtils) (h : Handler)
    (saa : ServerAssignmentAnswer) (now : Int) :
    delete_public_ids (on_sar_response cfg xu h saa now).2 =
      (if is_deregistration_request h._type = true ∧ xu.get_public_ids h._xml ≠ [] then
        [.DeletePublicIDs (xu.get_public_ids h._xml) (get_associated_private_ids xu h) now]
       else []) := by
  rcases h with ⟨kind, method, impi, impu, type, xml, ns⟩
  cases type <;>
    simp [on_sar_response, is_deregistration_request, is_auth_failure_request] <;>
    split_ifs <;>
    simp [delete_public_ids_append, delete_public_ids_put_in_cache,
      delete_public_ids_send_reply] <;>
    simp [delete_public_ids, cache_requests, CacheRequest.is_delete_public_ids]

theorem on_get_quiet_of_sar (cfg : Config) (xu : XmlUtils) (h : Handler)
    (r : GetIMSSubscription) (now : Int)
    (hs : sars_sent (on_get_ims_subscription_success cfg xu h r now).2 ≠ []) :
    put_subscriptions (on_get_ims_subscription_success cfg xu h r now).2 = [] ∧
    ∀ (body : List String) (es : List Effect),
      replies_from body ((on_get_ims_subscription_success cfg xu h r now).2 ++ es) =
        replies_from body es := by
  rcases h with ⟨kind, method, impi, impu, type, xml, ns⟩
  rcases r with ⟨rxml, xttl, st, sttl, assoc⟩
  revert hs
  cases hb : cfg.hss_configured <;> cases type <;> cases st <;>
    simp [on_get_ims_subscription_success, hb, is_deregistration_request,
      is_auth_failure_request, send_server_assignment_request] <;>
    split_ifs <;>
    simp [sars_sent, put_subscriptions, cache_requests, replies_from,
      CacheRequest.is_put_subscription]

theorem put_subscriptions_on_sar_response (cfg : Config) (xu : XmlUtils) (h : Handler)
    (saa : ServerAssignmentAnswer) (now : Int) (hrc : saa.result_code ≠ 2001) :
    put_subscriptions (on_sar_response cfg xu h saa now).2 = [] := by
  simp only [on_sar_response, hrc, if_false]
  split_ifs <;>
    simp [put_subscriptions, cache_requests, CacheRequest.is_put_subscription]

theorem replies_on_sar_response (cfg : Config) (xu : XmlUtils) (h : Handler)
    (saa : ServerAssignmentAnswer) (now : Int) (hkind : h.kind = .ImpuRegData) :
    (replies (on_sar_response cfg xu h saa now).2).map Prod.fst =
      [if saa.result_code = 2001 then 200 else if saa.result_code = 5001 then 404
        else 500] := by
  simp only [on_sar_response, put_in_cache, send_reply, hkind]
  split_ifs <;> simp [replies, replies_from]

theorem request_type_from_body_string (json_parse : String → JsonDocument) (body s : String)
    (hobj : (json_parse body).IsObject = true)
    (hmem : (json_parse body).member "reqtype" = some (.string s)) :
    request_type_from_body json_parse body =
      (if s = "reg" then .REG
       else if s = "call" then .CALL
       else if s = "dereg-user" then .DEREG_USER
       else if s = "dereg-admin" then .DEREG_ADMIN
       else if s = "dereg-timeout" then .DEREG_TIMEOUT
       else if s = "dereg-auth-failed" then .DEREG_AUTH_FAIL
       else if s = "dereg-auth-timeout" then .DEREG_AUTH_TIMEOUT
       else .UNKNOWN) := by
  simp only [request_type_from_body, hobj, hmem, if_true]

theorem request_type_from_body_unknown_iff (json_parse : String → JsonDocument)
    (body : String) :
    request_type_from_body json_parse body = .UNKNOWN ↔
      ¬ ((json_parse body).IsObject = true ∧
        ∃ s ∈ ["reg", "call", "dereg-user", "dereg-admin", "dereg-timeout",
          "dereg-auth-failed", "dereg-auth-timeout"],
          (json_parse body).member "reqtype" = some (.string s)) := by
  cases hobj : (json_parse body).IsObject
  · simp [request_type_from_body, hobj]
  · rcases hmem : (json_parse body).member "reqtype" with _ | v
    · simp [request_type_from_body, hobj, hmem]
    · cases v with
      | other => simp [request_type_from_body, hobj, hmem]
      | string s =>
        rw [request_type_from_body_string json_parse body s hobj hmem]
        simp only [List.mem_cons, List.mem_singleton, List.not_mem_nil, or_false,
          true_and, Option.some.injEq, JsonValue.string.injEq]
        constructor
        · intro hu
          rintro ⟨x, hx, rfl⟩
          rcases hx with rfl | rfl | rfl | rfl | rfl | rfl | rfl <;> simp at hu
        · intro hn
          split_ifs with h1 h2 h3 h4 h5 h6 h7
          · exact absurd ⟨s, Or.inl h1, rfl⟩ hn
          · exact absurd ⟨s, Or.inr (Or.inl h2), rfl⟩ hn
          · exact absurd ⟨s, Or.inr (Or.inr (Or.inl h3)), rfl⟩ hn
          · exact absurd ⟨s, Or.inr (Or.inr (Or.inr (Or.inl h4))), rfl⟩ hn
          · exact absurd ⟨s, Or.inr (Or.inr (Or.inr (Or.inr (Or.inl h5)))), rfl⟩ hn
          · exact absurd ⟨s, Or.inr (Or.inr (Or.inr (Or.inr (Or.inr (Or.inl h6))))), rfl⟩ hn
          · exact absurd ⟨s, Or.inr (Or.inr (Or.inr (Or.inr (Or.inr (Or.inr h7))))), rfl⟩ hn
          · rfl

theorem cache_requests_put_in_cache (cfg : Config) (xu : XmlUtils) (h : Handler)
    (now : Int) :
    cache_requests (put_in_cache cfg xu h now) =
      (if xu.get_public_ids h._xml ≠ [] then
        [.PutIMSSubscription (xu.get_public_ids h._xml) h._xml h._new_state
          (if cfg.hss_configured = true then get_associated_private_ids xu h else [])
          now (if cfg.hss_configured = true then int_wrap (2 * cfg.hss_reregistration_time) else 0)]
       else []) := by
  simp only [put_in_cache]
  split_ifs <;> simp_all [cache_requests]

theorem cache_requests_on_get (cfg : Config) (xu : XmlUtils) (h : Handler)
    (r : GetIMSSubscription) (now : Int) :
    ∀ c ∈ cache_requests (on_get_ims_subscription_success cfg xu h r now).2,
      (cfg.hss_configured = true ∧
        c = .PutAssociatedPrivateID (xu.get_public_ids r.xml)
          (check_binding xu h._impi r.xml r.associated_impis).1 now
          (int_wrap (2 * cfg.hss_reregistration_time))) ∨
      (cfg.hss_configured = false ∧ xu.get_public_ids r.xml ≠ [] ∧
        ∃ st, c = .PutIMSSubscription (xu.get_public_ids r.xml) r.xml st [] now 0) := by
  rcases h with ⟨kind, method, impi, impu, type, xml, ns⟩
  rcases r with ⟨rxml, xttl, st, sttl, assoc⟩
  cases hb : cfg.hss_configured <;> cases type <;> cases st <;>
    simp [on_get_ims_subscription_success, hb, is_deregistration_request,
      is_auth_failure_request, send_server_assignment_request,
      cache_requests_put_in_cache] <;>
    split_ifs <;>
    simp [cache_requests, cache_requests_put_in_cache, hb]

theorem cache_requests_on_sar_response (cfg : Config) (xu : XmlUtils) (h : Handler)
    (saa : ServerAssignmentAnswer) (now : Int) :
    ∀ c ∈ cache_requests (on_sar_response cfg xu h saa now).2,
      (∃ ids impis, c = .DeletePublicIDs ids impis now) ∨
      (is_deregistration_request h._type = false ∧
        c = .PutIMSSubscription (xu.get_public_ids saa.user_data) saa.user_data
          h._new_state
          (if cfg.hss_configured = true then
            get_associated_private_ids xu { h with _xml := saa.user_data } else [])
          now (if cfg.hss_configured = true then int_wrap (2 * cfg.hss_reregistration_time) else 0)) := by
  rcases h with ⟨kind, method, impi, impu, type, xml, ns⟩
  cases hb : cfg.hss_configured <;> cases type <;>
    simp [on_sar_response, is_deregistration_request, is_auth_failure_request,
      cache_requests_put_in_cache, hb] <;>
    split_ifs <;>
    simp [cache_requests, cache_requests_put_in_cache, hb]

theorem on_get_impi (cfg : Config) (xu : XmlUtils) (h : Handler) (r : GetIMSSubscription)
    (now : Int) (hs : sars_sent (on_get_ims_subscription_success cfg xu h r now).2 ≠ []) :
    cfg.hss_configured = true ∧
    (on_get_ims_subscription_success cfg xu h r now).1._impi =
      (check_binding xu h._impi r.xml r.associated_impis).1 := by
  rcases h with ⟨kind, method, impi, impu, type, xml, ns⟩
  rcases r with ⟨rxml, xttl, st, sttl, assoc⟩
  revert hs
  cases hb : cfg.hss_configured <;> cases type <;> cases st <;>
    simp [on_get_ims_subscription_success, hb, is_deregistration_request,
      is_auth_failure_request, send_server_assignment_request] <;>
    split_ifs <;>
    simp [sars_sent]

theorem cache_requests_reg_data_flow (cfg : Config) (xu : XmlUtils) (h : Handler)
    (r : GetIMSSubscription) (now1 : Int) (outcome : DiameterOutcome) (now2 : Int) :
    ∀ c ∈ cache_requests (reg_data_flow cfg xu h r now1 outcome now2).2,
      c ∈ cache_requests (on_get_ims_subscription_success cfg xu h r now1).2 ∨
      (sars_sent (on_get_ims_subscription_success cfg xu h r now1).2 ≠ [] ∧
        ∃ saa, outcome = .response saa ∧
          c ∈ cache_requests (on_sar_response cfg xu
            (on_get_ims_subscription_success cfg xu h r now1).1 saa now2).2) := by
  intro c hc
  unfold reg_data_flow at hc
  by_cases hs : sars_sent (on_get_ims_subscription_success cfg xu h r now1).2 = []
  · simp only [hs, if_true] at hc
    exact Or.inl hc
  · rcases outcome with saa | _
    · simp only [hs, if_false, cache_requests_append, List.mem_append] at hc
      rcases hc with hc | hc
      · exact Or.inl hc
      · exact Or.inr ⟨hs, saa, rfl, hc⟩
    · simp only [hs, if_false, cache_requests_append, List.mem_append,
        on_diameter_timeout, cache_requests, List.not_mem_nil, or_false] at hc
      exact Or.inl hc

theorem reg_data_cache_request_cases (cfg : Config) (xu : XmlUtils) (h : Handler)
    (r : GetIMSSubscription) (now1 : Int) (outcome : DiameterOutcome) (now2 : Int) :
    ∀ c ∈ cache_requests (reg_data_flow cfg xu h r now1 outcome now2).2,
      (cfg.hss_configured = true ∧
        c = .PutAssociatedPrivateID (xu.get_public_ids r.xml)
          (check_binding xu h._impi r.xml r.associated_impis).1 now1
          (int_wrap (2 * cfg.hss_reregistration_time))) ∨
      (cfg.hss_configured = false ∧
        ∃ st, c = .PutIMSSubscription (xu.get_public_ids r.xml) r.xml st [] now1 0) ∨
      (∃ ids impis, c = .DeletePublicIDs ids impis now2) ∨
      (cfg.hss_configured = true ∧ ∃ (saa : ServerAssignmentAnswer) (h1 : Handler),
        h1._impi = (check_binding xu h._impi r.xml r.associated_impis).1 ∧
        c = .PutIMSSubscription (xu.get_public_ids saa.user_data) saa.user_data
          h1._new_state (get_associated_private_ids xu { h1 with _xml := saa.user_data })
          now2 (int_wrap (2 * cfg.hss_reregistration_time))) := by
  intro c hc
  rcases cache_requests_reg_data_flow cfg xu h r now1 outcome now2 c hc with h1 | h2
  · rcases cache_requests_on_get cfg xu h r now1 c h1 with ⟨hb, rfl⟩ | ⟨hb, _, st, rfl⟩
    · exact Or.inl ⟨hb, rfl⟩
    · exact Or.inr (Or.inl ⟨hb, st, rfl⟩)
  · rcases h2 with ⟨hs, saa, _, hc2⟩
    have hi := on_get_impi cfg xu h r now1 hs
    rcases cache_requests_on_sar_response cfg xu _ saa now2 c hc2 with
      ⟨ids, impis, rfl⟩ | ⟨_, rfl⟩
    · exact Or.inr (Or.inr (Or.inl ⟨ids, impis, rfl⟩))
    · refine Or.inr (Or.inr (Or.inr ⟨hi.1, saa, _, hi.2, ?_⟩))
      simp [hi.1]

theorem get_associated_private_ids_ne_nil (xu : XmlUtils) (h : Handler) :
    (get_associated_private_ids xu h ≠ [] ↔
      (h._impi ≠ "" ∨ xu.get_private_id h._xml ≠ "")) ∧
    (h._impi ≠ "" → h._impi ∈ get_associated_private_ids xu h) := by
  simp only [get_associated_private_ids]
  by_cases h1 : h._impi = "" <;> by_cases h2 : xu.get_private_id h._xml = "" <;>
    by_cases h3 : xu.get_private_id h._xml = h._impi <;>
    simp_all

theorem check_binding_of_impi (xu : XmlUtils) (impi xml : String) (assoc : List String)
    (hi : impi ≠ "") : (check_binding xu impi xml assoc).1 = impi := by
  unfold check_binding
  split_ifs
  all_goals simp_all

theorem get_replies_from_cache_aux (cfg : Config) (xu : XmlUtils) (h : Handler)
    (r : GetIMSSubscription) (now1 : Int) (outcome : DiameterOutcome) (now2 : Int)
    (hkind : h.kind = .ImpuRegData) (hm : h.method = .htp_method_GET) :
    replies (reg_data_flow cfg xu h r now1 outcome now2).2 =
      [(200, xu.build_ClearwaterRegData_xml r.reg_state r.xml)] := by
  simp [reg_data_flow, on_get_ims_subscription_success, hkind, hm, send_reply, sars_sent,
    replies, replies_from, String.join]

theorem parse_request_kind (cfg : Config) (kind : ImpiKind) (req : ImpiHttpRequest)
    (h : ImpiHandler)
    (hparse : ImpiHandler.parse_request cfg kind req = some (h, true)) :
    h.kind = kind := by
  cases kind <;>
    simp only [ImpiHandler.parse_request, ImpiDigestHandler.parse_request,
      ImpiAvHandler.parse_request] at hparse <;>
    cases hp : impi_from_path req.path <;> simp [hp] at hparse
  · rw [← hparse]
  · split_ifs at hparse <;> simp at hparse <;> rw [← hparse]

@[simp] theorem non_cache_append (xs ys : List Effect) :
    non_cache (xs ++ ys) = non_cache xs ++ non_cache ys := by
  induction xs with
  | nil => rfl
  | cons x xs ih => cases x <;> simp [non_cache, ih]

theorem replies_from_non_cache (body : List String) (es : List Effect) :
    replies_from body (non_cache es) = replies_from body es := by
  induction es generalizing body with
  | nil => rfl
  | cons x xs ih => cases x <;> simp [non_cache, replies_from, ih]

theorem releases_non_cache (es : List Effect) : releases (non_cache es) = releases es := by
  induction es with
  | nil => rfl
  | cons x xs ih => cases x <;> simp [non_cache, releases, ih]

@[simp] theorem non_cache_send_reply (xu : XmlUtils) (h : Handler) :
    non_cache (send_reply xu h) = send_reply xu h := by
  cases hk : h.kind <;> simp only [send_reply, hk]
  · rfl
  · split_ifs
    all_goals rfl

@[simp] theorem non_cache_put_in_cache (cfg : Config) (xu : XmlUtils) (h : Handler)
    (now : Int) : non_cache (put_in_cache cfg xu h now) = [] := by
  simp only [put_in_cache]
  split_ifs
  all_goals rfl

theorem send_reply_ne_nil (xu : XmlUtils) (h : Handler) : send_reply xu h ≠ [] := by
  cases hk : h.kind <;> simp only [send_reply, hk]
  · simp
  · split_ifs <;> simp

theorem replies_send_reply_release (xu : XmlUtils) (h : Handler) :
    replies (send_reply xu h ++ [.delete_this]) =
      (match h.kind with
        | .ImpuRegData => [(200, xu.build_ClearwaterRegData_xml h._new_state h._xml)]
        | .ImpuIMSSubscription => if h._xml ≠ "" then [(200, h._xml)] else [(404, "")]) := by
  cases hk : h.kind <;> simp only [send_reply, hk]
  · simp [replies, replies_from, String.join]
  · split_ifs <;> simp [replies, replies_from, String.join]

theorem releases_send_reply_release (xu : XmlUtils) (h : Handler) :
    releases (send_reply xu h ++ [.delete_this]) = 1 := by
  cases hk : h.kind <;> simp only [send_reply, hk]
  · simp [releases]
  · split_ifs <;> simp [releases]

theorem last_of_cons (x d : Effect) (ys : List Effect) (h : ys.getLast? = some d) :
    (x :: ys).getLast? = some d := by
  cases ys with
  | nil => simp at h
  | cons y ys => simpa [List.getLast?_cons_cons] using h

theorem last_of_append (d : Effect) (xs ys : List Effect) (h : ys.getLast? = some d) :
    (xs ++ ys).getLast? = some d := by
  induction xs with
  | nil => simpa using h
  | cons x xs ih => exact last_of_cons x d _ ih

theorem on_get_shape (cfg : Config) (xu : XmlUtils) (h : Handler)
    (r : GetIMSSubscription) (now : Int)
    (hs : sars_sent (on_get_ims_subscription_success cfg xu h r now).2 = []) :
    (on_get_ims_subscription_success cfg xu h r now).2.getLast? = some .delete_this ∧
    (non_cache (on_get_ims_subscription_success cfg xu h r now).2 =
        send_reply xu (on_get_ims_subscription_success cfg xu h r now).1 ++
          [.delete_this] ∨
      non_cache (on_get_ims_subscription_success cfg xu h r now).2 =
        [.send_reply 400, .delete_this] ∨
      non_cache (on_get_ims_subscription_success cfg xu h r now).2 =
        [.send_reply 404, .delete_this] ∨
      (is_auth_failure_request h._type = true ∧
        non_cache (on_get_ims_subscription_success cfg xu h r now).2 =
          [.send_reply 200, .delete_this]) ∨
      (h.method ≠ .htp_method_GET ∧ h._type = .UNKNOWN ∧
        non_cache (on_get_ims_subscription_success cfg xu h r now).2 =
          [.delete_this])) := by
  rcases h with ⟨kind, method, impi, impu, type, xml, ns⟩
  rcases r with ⟨rxml, xttl, st, sttl, assoc⟩
  revert hs
  cases hb : cfg.hss_configured <;> cases type <;> cases st <;>
    simp [on_get_ims_subscription_success, hb, is_deregistration_request,
      is_auth_failure_request, send_server_assignment_request] <;>
    split_ifs <;>
    simp [sars_sent, non_cache, send_reply_ne_nil, last_of_cons,
      last_of_append] <;>
    simp_all

theorem on_sar_response_shape (cfg : Config) (xu : XmlUtils) (h : Handler)
    (saa : ServerAssignmentAnswer) (now : Int) :
    (on_sar_response cfg xu h saa now).2.getLast? = some .delete_this ∧
    (non_cache (on_sar_response cfg xu h saa now).2 =
        send_reply xu (on_sar_response cfg xu h saa now).1 ++ [.delete_this] ∨
      non_cache (on_sar_response cfg xu h saa now).2 = [.send_reply 404, .delete_this] ∨
      non_cache (on_sar_response cfg xu h saa now).2 = [.send_reply 500, .delete_this]) := by
  simp only [on_sar_response]
  split_ifs <;>
    simp [non_cache, send_reply_ne_nil, last_of_cons, last_of_append]

theorem kind_on_sar_response (cfg : Config) (xu : XmlUtils) (h : Handler)
    (saa : ServerAssignmentAnswer) (now : Int) :
    (on_sar_response cfg xu h saa now).1.kind = h.kind := by
  simp only [on_sar_response]
  split_ifs
  all_goals rfl

theorem deprecated_replies_flow (cfg : Config) (xu : XmlUtils) (h : Handler)
    (r : GetIMSSubscription) (now1 : Int) (outcome : DiameterOutcome) (now2 : Int)
    (hkind : h.kind = .ImpuIMSSubscription)
    (ht : is_auth_failure_request h._type = false) :
    ∀ rp ∈ replies (reg_data_flow cfg xu h r now1 outcome now2).2,
      (rp = (200, (reg_data_flow cfg xu h r now1 outcome now2).1._xml) ∧
        (reg_data_flow cfg xu h r now1 outcome now2).1._xml ≠ "") ∨
      (rp.1 ≠ 200 ∧ rp.2 = "") := by
  have hf := on_get_fields cfg xu h r now1
  by_cases hs : sars_sent (on_get_ims_subscription_success cfg xu h r now1).2 = []
  · have hsh := (on_get_shape cfg xu h r now1 hs).2
    have hrep : replies (reg_data_flow cfg xu h r now1 outcome now2).2 =
        replies (non_cache (on_get_ims_subscription_success cfg xu h r now1).2) := by
      simp [reg_data_flow, hs, replies, replies_from_non_cache]
    have hfl : (reg_data_flow cfg xu h r now1 outcome now2).1 =
        (on_get_ims_subscription_success cfg xu h r now1).1 := by
      simp [reg_data_flow, hs]
    rw [hrep, hfl]
    rcases hsh with h1 | h1 | h1 | ⟨ha, _⟩ | ⟨_, _, h1⟩
    · rw [h1, replies_send_reply_release, hf.1, hkind]
      by_cases hx : (on_get_ims_subscription_success cfg xu h r now1).1._xml = "" <;>
        simp [hx]
    · rw [h1]
      simp [replies, replies_from, String.join]
    · rw [h1]
      simp [replies, replies_from, String.join]
    · rw [ht] at ha
      exact absurd ha (by simp)
    · rw [h1]
      simp [replies, replies_from]
  · have hq := (on_get_quiet_of_sar cfg xu h r now1 hs).2
    rcases outcome with saa | _
    · have hsh := (on_sar_response_shape cfg xu
        (on_get_ims_subscription_success cfg xu h r now1).1 saa now2).2
      have hk2 := kind_on_sar_response cfg xu
        (on_get_ims_subscription_success cfg xu h r now1).1 saa now2
      have hrep : replies (reg_data_flow cfg xu h r now1 (.response saa) now2).2 =
          replies (non_cache (on_sar_response cfg xu
            (on_get_ims_subscription_success cfg xu h r now1).1 saa now2).2) := by
        simp [reg_data_flow, hs, replies, hq, replies_from_non_cache]
      have hfl : (reg_data_flow cfg xu h r now1 (.response saa) now2).1 =
          (on_sar_response cfg xu
            (on_get_ims_subscription_success cfg xu h r now1).1 saa now2).1 := by
        simp [reg_data_flow, hs]
      rw [hrep, hfl]
      rcases hsh with h1 | h1 | h1
      · rw [h1, replies_send_reply_release, hk2, hf.1, hkind]
        by_cases hx : (on_sar_response cfg xu
            (on_get_ims_subscription_success cfg xu h r now1).1 saa now2).1._xml = "" <;>
          simp [hx]
      · rw [h1]
        simp [replies, replies_from, String.join]
      · rw [h1]
        simp [replies, replies_from, String.join]
    · simp [reg_data_flow, hs, replies, hq, on_diameter_timeout, replies_from,
        String.join]

theorem single_reply_flow (cfg : Config) (xu : XmlUtils) (h : Handler)
    (r : GetIMSSubscription) (now1 : Int) (outcome : DiameterOutcome) (now2 : Int)
    (ht : h.method = .htp_method_GET ∨ h._type ≠ .UNKNOWN) :
    replied_and_released_once (reg_data_flow cfg xu h r now1 outcome now2).2 := by
  have hone : ∀ g : Handler, (replies (send_reply xu g ++ [.delete_this])).length = 1 := by
    intro g
    rw [replies_send_reply_release]
    cases g.kind
    · simp
    · by_cases hx : g._xml = "" <;> simp [hx]
  by_cases hs : sars_sent (on_get_ims_subscription_success cfg xu h r now1).2 = []
  · have hsh := on_get_shape cfg xu h r now1 hs
    have hfl : (reg_data_flow cfg xu h r now1 outcome now2).2 =
        (on_get_ims_subscription_success cfg xu h r now1).2 := by
      simp [reg_data_flow, hs]
    rw [hfl]
    refine ⟨?_, ?_, hsh.1⟩
    · rw [show replies (on_get_ims_subscription_success cfg xu h r now1).2 =
        replies (non_cache (on_get_ims_subscription_success cfg xu h r now1).2) by
          simp [replies, replies_from_non_cache]]
      rcases hsh.2 with h1 | h1 | h1 | ⟨_, h1⟩ | ⟨hm, hu, _⟩
      · rw [h1]
        exact hone _
      · rw [h1]
        simp [replies, replies_from]
      · rw [h1]
        simp [replies, replies_from]
      · rw [h1]
        simp [replies, replies_from]
      · rcases ht with ht | ht
        · exact absurd ht hm
        · exact absurd hu ht
    · rw [← releases_non_cache]
      rcases hsh.2 with h1 | h1 | h1 | ⟨_, h1⟩ | ⟨hm, hu, _⟩
      · rw [h1]
        exact releases_send_reply_release xu _
      · rw [h1]
        simp [releases]
      · rw [h1]
        simp [releases]
      · rw [h1]
        simp [releases]
      · rcases ht with ht | ht
        · exact absurd ht hm
        · exact absurd hu ht
  · have hq := (on_get_quiet_of_sar cfg xu h r now1 hs).2
    have hrel : releases (on_get_ims_subscription_success cfg xu h r now1).2 = 0 := by
      rcases h with ⟨kind, method, impi, impu, type, xml, ns⟩
      rcases r with ⟨rxml, xttl, st, sttl, assoc⟩
      revert hs
      cases hb : cfg.hss_configured <;> cases type <;> cases st <;>
        simp [on_get_ims_subscription_success, hb, is_deregistration_request,
          is_auth_failure_request, send_server_assignment_request] <;>
        split_ifs <;>
        simp [sars_sent, releases]
    have happ : ∀ xs ys : List Effect, releases (xs ++ ys) = releases xs + releases ys := by
      intro xs ys
      induction xs with
      | nil => simp [releases]
      | cons x xs ih =>
        cases x <;> simp [releases, ih]
        omega
    rcases outcome with saa | _
    · have hsh := on_sar_response_shape cfg xu
        (on_get_ims_subscription_success cfg xu h r now1).1 saa now2
      have hfl : (reg_data_flow cfg xu h r now1 (.response saa) now2).2 =
          (on_get_ims_subscription_success cfg xu h r now1).2 ++
          (on_sar_response cfg xu
            (on_get_ims_subscription_success cfg xu h r now1).1 saa now2).2 := by
        simp [reg_data_flow, hs]
      rw [hfl]
      refine ⟨?_, ?_, last_of_append _ _ _ hsh.1⟩
      · rw [show replies ((on_get_ims_subscription_success cfg xu h r now1).2 ++
            (on_sar_response cfg xu
              (on_get_ims_subscription_success cfg xu h r now1).1 saa now2).2) =
          replies (non_cache (on_sar_response cfg xu
            (on_get_ims_subscription_success cfg xu h r now1).1 saa now2).2) by
            simp [replies, hq, replies_from_non_cache]]
        rcases hsh.2 with h1 | h1 | h1
        · rw [h1]
          exact hone _
        · rw [h1]
          simp [replies, replies_from]
        · rw [h1]
          simp [replies, replies_from]
      · rw [happ, hrel, ← releases_non_cache]
        rcases hsh.2 with h1 | h1 | h1
        · rw [h1, releases_send_reply_release]
        · rw [h1]
          simp [releases]
        · rw [h1]
          simp [releases]
    · have hfl : (reg_data_flow cfg xu h r now1 .timeout now2).2 =
          (on_get_ims_subscription_success cfg xu h r now1).2 ++
          [.send_reply 503, .delete_this] := by
        simp [reg_data_flow, hs, on_diameter_timeout]
      rw [hfl]
      refine ⟨?_, ?_, last_of_append _ _ _ (by simp)⟩
      · simp [replies, hq, replies_from]
      · rw [happ, hrel]
        simp [releases]

theorem impi_parsed_once (cfg : Config) (GetString : List WriterCall → String)
    (kind : ImpiKind) (req : ImpiHttpRequest) (h : ImpiHandler) (ok : Bool)
    (av_done : CacheCompletion DigestAuthVector)
    (impu_done : CacheCompletion (List String)) (mar_done : MarOutcome) (now : Int)
    (hparse : ImpiHandler.parse_request cfg kind req = some (h, ok)) :
    ∀ res, impi_request cfg GetString kind req av_done impu_done mar_done now = some res →
      replied_and_released_once res.2 := by
  intro res hres
  cases ok
  · simp [impi_request, ImpiHandler.run, hparse] at hres
    rw [← hres]
    simp [replied_and_released_once, replies, replies_from, releases]
  · cases hq : cfg.query_cache_av
    · by_cases hi : h._impu = ""
      · by_cases hsc : h._scheme = cfg.scheme_aka
        · simp [impi_request, ImpiHandler.run, hparse, hq, ImpiHandler.get_av, hi,
            hsc] at hres
          rw [← hres]
          simp [replied_and_released_once, replies, replies_from, releases]
        · rcases impu_done with ids | ⟨error, text⟩
          · rcases ids with _ | ⟨id0, ids⟩
            · simp [impi_request, ImpiHandler.run, hparse, hq, ImpiHandler.get_av, hi,
                hsc, ImpiHandler.query_cache_impu, ImpiHandler.on_get_impu_success]
                at hres
              rw [← hres]
              simp [replied_and_released_once, replies, replies_from, releases]
            · rcases mar_done with maa | _ <;> cases hk : h.kind <;>
                simp [impi_request, ImpiHandler.run, hparse, hq, ImpiHandler.get_av, hi,
                  hsc, ImpiHandler.query_cache_impu, ImpiHandler.on_get_impu_success,
                  ImpiHandler.send_mar, ImpiHandler.on_mar_response,
                  ImpiHandler.on_diameter_timeout, ImpiHandler.send_reply_digest,
                  ImpiHandler.send_reply_aka, hk] at hres <;>
                rw [← hres] <;>
                (try split_ifs) <;>
                simp [replied_and_released_once, replies, replies_from, releases]
          · by_cases he : error = .NOT_FOUND <;>
              simp [impi_request, ImpiHandler.run, hparse, hq, ImpiHandler.get_av, hi,
                hsc, ImpiHandler.query_cache_impu, ImpiHandler.on_get_impu_failure, he]
                at hres <;>
              rw [← hres] <;>
              simp [replied_and_released_once, replies, replies_from, releases]
      · rcases mar_done with maa | _ <;> cases hk : h.kind <;>
          simp [impi_request, ImpiHandler.run, hparse, hq, ImpiHandler.get_av, hi,
            ImpiHandler.send_mar, ImpiHandler.on_mar_response,
            ImpiHandler.on_diameter_timeout, ImpiHandler.send_reply_digest,
            ImpiHandler.send_reply_aka, hk] at hres <;>
          rw [← hres] <;>
          (try split_ifs) <;>
          simp [replied_and_released_once, replies, replies_from, releases]
    · rcases av_done with av | ⟨error, text⟩ <;> cases hk : h.kind <;>
        simp [impi_request, ImpiHandler.run, hparse, hq, ImpiHandler.query_cache_av,
          ImpiHandler.on_get_av_success, ImpiHandler.on_get_av_failure,
          ImpiHandler.send_reply_digest, hk] at hres <;>
        rw [← hres] <;>
        simp [replied_and_released_once, replies, replies_from, releases]

theorem tagged_string_inj (s : List Char) :
    ∀ (t r u : List Char), tagged_string s r = tagged_string t u → s = t ∧ r = u := by
  induction s with
  | nil =>
    intro t r u e
    cases t with
    | nil => simpa [tagged_string] using e
    | cons d ds => simp [tagged_string] at e
  | cons c cs ih =>
    intro t r u e
    cases t with
    | nil => simp [tagged_string] at e
    | cons d ds =>
      simp only [tagged_string, List.cons.injEq, true_and] at e
      obtain ⟨h1, h2⟩ := ih ds r u e.2
      exact ⟨by rw [e.1, h1], h2⟩

theorem tagged_calls_inj (a : List WriterCall) :
    ∀ b : List WriterCall, tagged_calls a = tagged_calls b → a = b := by
  induction a with
  | nil =>
    intro b e
    cases b with
    | nil => rfl
    | cons y ys => cases y <;> simp [tagged_calls] at e
  | cons x xs ih =>
    intro b e
    cases b with
    | nil => cases x <;> simp [tagged_calls] at e
    | cons y ys =>
      cases x <;> cases y <;> simp [tagged_calls] at e
      · rw [ih ys e]
      · rw [ih ys e]
      · obtain ⟨h1, h2⟩ := tagged_string_inj _ _ _ _ e
        rw [ih ys h2, String.ext h1]

theorem sample_tagged_GetString_injective : Function.Injective sample_tagged_GetString := by
  intro a b e
  exact tagged_calls_inj a b (congrArg String.data e)

theorem impi_cache_writes (cfg : Config) (GetString : List WriterCall → String)
    (kind : ImpiKind) (req : ImpiHttpRequest)
    (av_done : CacheCompletion DigestAuthVector)
    (impu_done : CacheCompletion (List String)) (mar_done : MarOutcome) (now : Int) :
    ∀ res, impi_request cfg GetString kind req av_done impu_done mar_done now = some res →
      cache_writes res.2 =
        (match mar_done with
          | .response maa =>
            if mars_sent res.2 ≠ [] ∧ maa.result_code = 2001 ∧
                maa.sip_auth_scheme = cfg.scheme_digest ∧ cfg.impu_cache_ttl ≠ 0 then
              [.PutAssociatedPublicID res.1._impi res.1._impu now cfg.impu_cache_ttl]
            else []
          | .timeout => []) := by
  intro res hres
  cases hparse : ImpiHandler.parse_request cfg kind req with
  | none => simp [impi_request, ImpiHandler.run, hparse] at hres
  | some p =>
    rcases p with ⟨h, ok⟩
    cases ok
    · simp [impi_request, ImpiHandler.run, hparse] at hres
      rw [← hres]
      cases mar_done <;>
        simp [cache_writes, cache_requests, mars_sent, CacheRequest.is_write]
    · cases hq : cfg.query_cache_av
      · by_cases hi : h._impu = ""
        · by_cases hsc : h._scheme = cfg.scheme_aka
          · simp [impi_request, ImpiHandler.run, hparse, hq, ImpiHandler.get_av, hi,
              hsc] at hres
            rw [← hres]
            cases mar_done <;>
              simp [cache_writes, cache_requests, mars_sent, CacheRequest.is_write]
          · rcases impu_done with ids | ⟨error, text⟩
            · rcases ids with _ | ⟨id0, ids⟩
              · simp [impi_request, ImpiHandler.run, hparse, hq, ImpiHandler.get_av, hi,
                  hsc, ImpiHandler.query_cache_impu, ImpiHandler.on_get_impu_success]
                  at hres
                rw [← hres]
                cases mar_done <;>
                  simp [cache_writes, cache_requests, mars_sent, CacheRequest.is_write]
              · rcases mar_done with maa | _ <;> cases hk : h.kind <;>
                  simp [impi_request, ImpiHandler.run, hparse, hq, ImpiHandler.get_av, hi,
                    hsc, ImpiHandler.query_cache_impu, ImpiHandler.on_get_impu_success,
                    ImpiHandler.send_mar, ImpiHandler.on_mar_response,
                    ImpiHandler.on_diameter_timeout, ImpiHandler.send_reply_digest,
                    ImpiHandler.send_reply_aka, hk] at hres <;>
                  rw [← hres] <;>
                  (try split_ifs) <;>
                  simp_all [cache_writes, cache_requests, mars_sent, CacheRequest.is_write]
            · by_cases he : error = .NOT_FOUND <;>
                simp [impi_request, ImpiHandler.run, hparse, hq, ImpiHandler.get_av, hi,
                  hsc, ImpiHandler.query_cache_impu, ImpiHandler.on_get_impu_failure, he]
                  at hres <;>
                rw [← hres] <;>
                cases mar_done <;>
                simp [cache_writes, cache_requests, mars_sent, CacheRequest.is_write]
        · rcases mar_done with maa | _ <;> cases hk : h.kind <;>
            simp [impi_request, ImpiHandler.run, hparse, hq, ImpiHandler.get_av, hi,
              ImpiHandler.send_mar, ImpiHandler.on_mar_response,
              ImpiHandler.on_diameter_timeout, ImpiHandler.send_reply_digest,
              ImpiHandler.send_reply_aka, hk] at hres <;>
            rw [← hres] <;>
            (try split_ifs) <;>
            simp_all [cache_writes, cache_requests, mars_sent, CacheRequest.is_write]
      · rcases av_done with av | ⟨error, text⟩ <;> cases hk : h.kind <;>
          simp [impi_request, ImpiHandler.run, hparse, hq, ImpiHandler.query_cache_av,
            ImpiHandler.on_get_av_success, ImpiHandler.on_get_av_failure,
            ImpiHandler.send_reply_digest, hk] at hres <;>
          rw [← hres] <;>
          cases mar_done <;>
          simp [cache_writes, cache_requests, mars_sent, CacheRequest.is_write]

theorem put_private_id_on_get (cfg : Config) (xu : XmlUtils) (h : Handler)
    (r : GetIMSSubscription) (now : Int) (hm : h.method ≠ .htp_method_GET) :
    (cache_requests (on_get_ims_subscription_success cfg xu h r now).2).filter
        CacheRequest.is_put_associated_private_id =
      (if cfg.hss_configured = true ∧
          (check_binding xu h._impi r.xml r.associated_impis).2 = true then
        [.PutAssociatedPrivateID (xu.get_public_ids r.xml) h._impi now
          (int_wrap (2 * cfg.hss_reregistration_time))]
       else []) := by
  rcases r with ⟨rxml, xttl, st, sttl, assoc⟩
  cases hb : cfg.hss_configured <;>
    cases hnb : (check_binding xu h._impi rxml assoc).2 <;>
    cases ht : h._type <;> cases st <;>
    simp [on_get_ims_subscription_success, hb, hm, ht, hnb,
      check_binding_true xu h._impi rxml assoc, is_deregistration_request,
      is_auth_failure_request, send_server_assignment_request, cache_requests,
      cache_requests_put_in_cache, CacheRequest.is_put_associated_private_id]
  split_ifs <;> simp [cache_requests, CacheRequest.is_put_associated_private_id]

theorem put_private_id_on_sar_response (cfg : Config) (xu : XmlUtils) (h : Handler)
    (saa : ServerAssignmentAnswer) (now : Int) :
    (cache_requests (on_sar_response cfg xu h saa now).2).filter
        CacheRequest.is_put_associated_private_id = [] := by
  rw [List.filter_eq_nil_iff]
  intro c hc
  rcases cache_requests_on_sar_response cfg xu h saa now c hc with ⟨ids, impis, e⟩ | ⟨_, e⟩ <;>
    simp [e, CacheRequest.is_put_associated_private_id]

theorem put_private_id_reg_data_flow (cfg : Config) (xu : XmlUtils) (h : Handler)
    (r : GetIMSSubscription) (now1 : Int) (outcome : DiameterOutcome) (now2 : Int) :
    (cache_requests (reg_data_flow cfg xu h r now1 outcome now2).2).filter
        CacheRequest.is_put_associated_private_id =
      (cache_requests (on_get_ims_subscription_success cfg xu h r now1).2).filter
        CacheRequest.is_put_associated_private_id := by
  unfold reg_data_flow
  by_cases hs : sars_sent (on_get_ims_subscription_success cfg xu h r now1).2 = []
  · simp [hs]
  · cases outcome <;>
      simp [hs, put_private_id_on_sar_response, on_diameter_timeout, cache_requests]

theorem on_get_kind (cfg : Config) (xu : XmlUtils) (h : Handler) (k : HandlerKind)
    (r : GetIMSSubscription) (now : Int) :
    (on_get_ims_subscription_success cfg xu { h with kind := k } r now).1 =
      { (on_get_ims_subscription_success cfg xu h r now).1 with kind := k } ∧
    sars_sent (on_get_ims_subscription_success cfg xu { h with kind := k } r now).2 =
      sars_sent (on_get_ims_subscription_success cfg xu h r now).2 ∧
    cache_requests (on_get_ims_subscription_success cfg xu { h with kind := k } r now).2 =
      cache_requests (on_get_ims_subscription_success cfg xu h r now).2 := by
  rcases r with ⟨rxml, xttl, st, sttl, assoc⟩
  by_cases hm : h.method = .htp_method_GET
  · simp [on_get_ims_subscription_success, hm]
  · cases hb : cfg.hss_configured <;>
      cases hnb : (check_binding xu h._impi rxml assoc).2 <;>
      cases ht : h._type <;> cases st <;>
      simp [on_get_ims_subscription_success, hb, hm, ht, hnb, is_deregistration_request,
        is_auth_failure_request, send_server_assignment_request, cache_requests,
        sars_sent, cache_requests_put_in_cache, get_associated_private_ids]
    all_goals split_ifs <;> simp [cache_requests, sars_sent]

theorem on_sar_response_kind (cfg : Config) (xu : XmlUtils) (h : Handler) (k : HandlerKind)
    (saa : ServerAssignmentAnswer) (now : Int) :
    (on_sar_response cfg xu { h with kind := k } saa now).1 =
      { (on_sar_response cfg xu h saa now).1 with kind := k } ∧
    cache_requests (on_sar_response cfg xu { h with kind := k } saa now).2 =
      cache_requests (on_sar_response cfg xu h saa now).2 := by
  rcases h with ⟨kind, m, impi, impu, ty, xml, ns⟩
  cases ty <;>
    simp [on_sar_response, is_deregistration_request, is_auth_failure_request,
      cache_requests, cache_requests_put_in_cache, get_associated_private_ids] <;>
    (try split_ifs) <;>
    simp [cache_requests, cache_requests_put_in_cache, get_associated_private_ids]

theorem reg_data_flow_kind (cfg : Config) (xu : XmlUtils) (h : Handler) (k : HandlerKind)
    (r : GetIMSSubscription) (now1 : Int) (outcome : DiameterOutcome) (now2 : Int) :
    sars_sent (reg_data_flow cfg xu { h with kind := k } r now1 outcome now2).2 =
      sars_sent (reg_data_flow cfg xu h r now1 outcome now2).2 ∧
    cache_requests (reg_data_flow cfg xu { h with kind := k } r now1 outcome now2).2 =
      cache_requests (reg_data_flow cfg xu h r now1 outcome now2).2 := by
  obtain ⟨h1, h2, h3⟩ := on_get_kind cfg xu h k r now1
  refine ⟨by rw [sars_sent_reg_data_flow, sars_sent_reg_data_flow, h2], ?_⟩
  unfold reg_data_flow
  by_cases hs : sars_sent (on_get_ims_subscription_success cfg xu h r now1).2 = []
  · simp [hs, h2, h3]
  · cases outcome with
    | response saa =>
      simp [hs, h2, h3, h1, (on_sar_response_kind cfg xu _ k saa now2).2]
    | timeout => simp [hs, h2, h3, on_diameter_timeout, cache_requests]

theorem on_get_not_get_of_sar (cfg : Config) (xu : XmlUtils) (h : Handler)
    (r : GetIMSSubscription) (now : Int)
    (hs : sars_sent (on_get_ims_subscription_success cfg xu h r now).2 ≠ []) :
    h.method ≠ .htp_method_GET := by
  intro hm
  apply hs
  simp [on_get_ims_subscription_success, hm, sars_sent]

theorem cache_requests_on_get_of_sar (cfg : Config) (xu : XmlUtils) (h : Handler)
    (r : GetIMSSubscription) (now : Int)
    (hs : sars_sent (on_get_ims_subscription_success cfg xu h r now).2 ≠ []) :
    cache_requests (on_get_ims_subscription_success cfg xu h r now).2 =
      (if (check_binding xu h._impi r.xml r.associated_impis).2 = true then
        [.PutAssociatedPrivateID (xu.get_public_ids r.xml) h._impi now
          (int_wrap (2 * cfg.hss_reregistration_time))]
       else []) := by
  have hm := on_get_not_get_of_sar cfg xu h r now hs
  have hb := (on_get_impi cfg xu h r now hs).1
  have hf := put_private_id_on_get cfg xu h r now hm
  have hall : (cache_requests (on_get_ims_subscription_success cfg xu h r now).2).filter
      CacheRequest.is_put_associated_private_id =
      cache_requests (on_get_ims_subscription_success cfg xu h r now).2 := by
    rw [List.filter_eq_self]
    intro c hc
    rcases cache_requests_on_get cfg xu h r now c hc with ⟨_, e⟩ | ⟨hn, _⟩
    · simp [e, CacheRequest.is_put_associated_private_id]
    · rw [hb] at hn
      exact absurd hn (by decide)
  rw [← hall, hf]
  simp [hb]

theorem takeWhile_until_slash (l r : List Char) (h : '/' ∉ l) :
    (l ++ '/' :: r).takeWhile (fun c => !decide (c = '/')) = l := by
  induction l with
  | nil => simp
  | cons x xs ih =>
    simp only [List.mem_cons, not_or] at h
    simp [List.takeWhile_cons, Ne.symm h.1, ih h.2]

theorem takeWhile_no_slash (l : List Char) (h : '/' ∉ l) :
    l.takeWhile (fun c => !decide (c = '/')) = l := by
  induction l with
  | nil => simp
  | cons x xs ih =>
    simp only [List.mem_cons, not_or] at h
    simp [List.takeWhile_cons, Ne.symm h.1, ih h.2]

theorem impu_from_path_route (public_id rest : String) (h : '/' ∉ public_id.data) :
    impu_from_path ("/impu/" ++ public_id ++ "/" ++ rest) = some public_id ∧
    impu_from_path ("/impu/" ++ public_id) = some public_id := by
  have h6 : ("/impu/" : String).data = ['/', 'i', 'm', 'p', 'u', '/'] := rfl
  have h1 : ("/" : String).data = ['/'] := rfl
  refine ⟨?_, ?_⟩
  · have hd : ("/impu/" ++ public_id ++ "/" ++ rest).data =
        ['/', 'i', 'm', 'p', 'u', '/'] ++ (public_id.data ++ '/' :: rest.data) := by
      simp [String.data_append, h6, h1]
    have hl : ¬ ("/impu/" ++ public_id ++ "/" ++ rest).length < 6 := by
      rw [String.length, hd]
      simp
    simp only [impu_from_path, hl, if_false, hd]
    simp [takeWhile_until_slash _ _ h]
  · have hd : ("/impu/" ++ public_id).data =
        ['/', 'i', 'm', 'p', 'u', '/'] ++ public_id.data := by
      simp [String.data_append, h6]
    have hl : ¬ ("/impu/" ++ public_id).length < 6 := by
      rw [String.length, hd]
      simp
    simp only [impu_from_path, hl, if_false, hd]
    simp [takeWhile_no_slash _ h]

theorem int_wrap_of_fits (n : Int) (hlo : -2147483648 ≤ n) (hhi : n < 2147483648) :
    int_wrap n = n := by
  unfold int_wrap
  omega

theorem int_wrap_twice (t : Int) (hlo : -1073741824 ≤ t) (hhi : t < 1073741824) :
    int_wrap (2 * t) = 2 * t :=
  int_wrap_of_fits (2 * t) (by omega) (by omega)

theorem takeWhile_no_nul (l : List Char) (h : Char.ofNat 0 ∉ l) :
    l.takeWhile (fun c => !decide (c = Char.ofNat 0)) = l := by
  induction l with
  | nil => simp
  | cons x xs ih =>
    simp only [List.mem_cons, not_or] at h
    simp [List.takeWhile_cons, Ne.symm h.1, ih h.2]

theorem c_str_of_no_nul (s : String) (h : Char.ofNat 0 ∉ s.data) : c_str s = s := by
  simp [c_str, takeWhile_no_nul _ h]

theorem c_str_ne_empty (s : String) (hs : s ≠ "")
    (h : s.data.head? ≠ some (Char.ofNat 0)) : c_str s ≠ "" := by
  rcases s with ⟨l⟩
  cases l with
  | nil => exact absurd rfl hs
  | cons x xs =>
    have hx : x ≠ Char.ofNat 0 := by
      intro e
      apply h
      simp [e]
    intro e
    have e2 := congrArg String.data e
    simp [c_str, List.takeWhile_cons, hx] at e2

@[simp] theorem c_str_JSON_DIGEST_HA1 : c_str JSON_DIGEST_HA1 = "digest_HA1" := by decide

@[simp] theorem c_str_JSON_DIGEST : c_str JSON_DIGEST = "digest" := by decide

@[simp] theorem c_str_JSON_HA1 : c_str JSON_HA1 = "ha1" := by decide

@[simp] theorem c_str_JSON_REALM : c_str JSON_REALM = "realm" := by decide

@[simp] theorem c_str_JSON_QOP : c_str JSON_QOP = "qop" := by decide

@[simp] theorem c_str_JSON_AUTH : c_str JSON_AUTH = "auth" := by decide

@[simp] theorem c_str_JSON_AKA : c_str JSON_AKA = "aka" := by decide

@[simp] theorem c_str_JSON_CHALLENGE : c_str JSON_CHALLENGE = "challenge" := by decide

@[simp] theorem c_str_JSON_RESPONSE : c_str JSON_RESPONSE = "response" := by decide

@[simp] theorem c_str_JSON_CRYPTKEY : c_str JSON_CRYPTKEY = "cryptkey" := by decide

@[simp] theorem c_str_JSON_INTEGRITYKEY : c_str JSON_INTEGRITYKEY = "integritykey" := by
  decide

theorem parse_digest_body_emitted (v : DigestAuthVector) :
    parse_digest_body (ImpiAvHandler.digest_body v) =
      some ⟨c_str v.ha1, c_str v.realm,
        c_str (if v.qop ≠ "" then v.qop else "auth")⟩ := by
  simp only [ImpiAvHandler.digest_body, c_str_JSON_DIGEST, c_str_JSON_HA1,
    c_str_JSON_REALM, c_str_JSON_QOP]
  simp [parse_digest_body, read_document, ReaderState.read_calls, ReaderState.read_call,
    ReaderState.put_value, JsonTree.member, JsonTree.string_value, List.lookup,
    JSON_DIGEST, JSON_HA1, JSON_REALM, JSON_QOP, JSON_AUTH]

theorem untag_tagged_string (s r : List Char) :
    untag_string (tagged_string s r) = some (s, r) := by
  induction s with
  | nil =>
    show untag_string ('.' :: r) = some ([], r)
    unfold untag_string
    simp
  | cons c cs ih =>
    show untag_string ('+' :: c :: tagged_string cs r) = some (c :: cs, r)
    unfold untag_string
    simp [ih]

theorem length_tagged_string (s r : List Char) :
    r.length < (tagged_string s r).length := by
  induction s with
  | nil => simp [tagged_string]
  | cons c cs ih =>
    simp only [tagged_string, List.length_cons]
    omega

theorem untag_tagged_calls (calls : List WriterCall) :
    ∀ fuel, (tagged_calls calls).length ≤ fuel →
      untag_calls fuel (tagged_calls calls) = some calls := by
  induction calls with
  | nil =>
    intro fuel _
    cases fuel <;> simp [tagged_calls, untag_calls]
  | cons c cs ih =>
    intro fuel hf
    cases c with
    | StartObject =>
      cases fuel with
      | zero => simp [tagged_calls] at hf
      | succ n =>
        simp only [tagged_calls, List.length_cons] at hf
        simp [tagged_calls, untag_calls, ih n (by omega)]
    | EndObject =>
      cases fuel with
      | zero => simp [tagged_calls] at hf
      | succ n =>
        simp only [tagged_calls, List.length_cons] at hf
        simp [tagged_calls, untag_calls, ih n (by omega)]
    | Str s =>
      cases fuel with
      | zero => simp [tagged_calls] at hf
      | succ n =>
        simp only [tagged_calls, List.length_cons] at hf
        have hl := length_tagged_string s.data (tagged_calls cs)
        simp [tagged_calls, untag_calls, untag_tagged_string, ih n (by omega)]

theorem sample_tagged_reader_reads (calls : List WriterCall) :
    sample_tagged_reader (sample_tagged_GetString calls) = some calls := by
  simp only [sample_tagged_reader, sample_tagged_GetString, String.length]
  exact untag_tagged_calls calls _ (le_refl _)

/-- C1: in HSS mode a PUT reg-data REG whose cached state is REGISTERED, with no new binding and record TTL at least hss_reregistration_time, sends no SAR, issues no cache write and replies 200 with the wrapped cached profile in state REGISTERED. -/
theorem reg_fresh_rereg_replies_from_cache (cfg : Config) (xu : XmlUtils) (h : Handler)
    (r : GetIMSSubscription) (now1 : Int) (outcome : DiameterOutcome) (now2 : Int)
    (hhss : cfg.hss_configured = true) (hkind : h.kind = .ImpuRegData)
    (hm : h.method = .htp_method_PUT) (ht : h._type = .REG)
    (hold : r.reg_state = .REGISTERED)
    (hnb : (check_binding xu h._impi r.xml r.associated_impis).2 = false)
    (httl : cfg.hss_reregistration_time ≤ r.reg_state_ttl) :
    sars_sent (reg_data_flow cfg xu h r now1 outcome now2).2 = [] ∧
    cache_writes (reg_data_flow cfg xu h r now1 outcome now2).2 = [] ∧
    replies (reg_data_flow cfg xu h r now1 outcome now2).2 =
      [(200, xu.build_ClearwaterRegData_xml .REGISTERED r.xml)] := by
  simp [reg_data_flow, on_get_ims_subscription_success, hhss, hkind, hm, ht, hold, hnb,
    not_lt.mpr httl, send_reply, sars_sent, cache_writes, cache_requests, replies,
    replies_from, String.join]

theorem reg_fresh_rereg_replies_from_cache_witness :
    sars_sent (reg_data_flow sample_hss_config sample_xml_utils (sample_put .REG)
      ⟨"P", 3600, .REGISTERED, 3600, ["i@d"]⟩ 5 .timeout 6).2 = [] ∧
    cache_writes (reg_data_flow sample_hss_config sample_xml_utils (sample_put .REG)
      ⟨"P", 3600, .REGISTERED, 3600, ["i@d"]⟩ 5 .timeout 6).2 = [] ∧
    replies (reg_data_flow sample_hss_config sample_xml_utils (sample_put .REG)
      ⟨"P", 3600, .REGISTERED, 3600, ["i@d"]⟩ 5 .timeout 6).2 =
      [(200, "REGISTERED:P")] :=
  reg_fresh_rereg_replies_from_cache sample_hss_config sample_xml_utils (sample_put .REG)
    ⟨"P", 3600, .REGISTERED, 3600, ["i@d"]⟩ 5 .timeout 6 rfl rfl rfl rfl rfl (by decide)
    (by decide)

/-- C2: in HSS mode a REG that is not answered from cache sends exactly one SAR and moves to REGISTERED; the SAR is RE_REGISTRATION when the cached state is REGISTERED, there is no new binding and the TTL is below hss_reregistration_time, and REGISTRATION otherwise. -/
theorem reg_not_from_cache_sends_one_sar (cfg : Config) (xu : XmlUtils) (h : Handler)
    (r : GetIMSSubscription) (now1 : Int) (outcome : DiameterOutcome) (now2 : Int)
    (hhss : cfg.hss_configured = true)
    (hm : h.method = .htp_method_PUT) (ht : h._type = .REG)
    (hnc : ¬ (r.reg_state = .REGISTERED ∧
      (check_binding xu h._impi r.xml r.associated_impis).2 = false ∧
      cfg.hss_reregistration_time ≤ r.reg_state_ttl)) :
    sars_sent (reg_data_flow cfg xu h r now1 outcome now2).2 =
      [if r.reg_state = .REGISTERED ∧
          (check_binding xu h._impi r.xml r.associated_impis).2 = false ∧
          r.reg_state_ttl < cfg.hss_reregistration_time
        then .RE_REGISTRATION else .REGISTRATION] ∧
    (reg_data_flow cfg xu h r now1 outcome now2).1._new_state = .REGISTERED := by
  rw [sars_sent_reg_data_flow, new_state_reg_data_flow]
  rcases r with ⟨rxml, xttl, st, sttl, assoc⟩
  revert hnc
  cases st <;> cases hnb : (check_binding xu h._impi rxml assoc).2 <;>
    by_cases hlt : sttl < cfg.hss_reregistration_time <;>
    simp [on_get_ims_subscription_success, hhss, hm, ht, hnb, hlt,
      send_server_assignment_request, sars_sent]


/-- C3: in HSS mode a CALL with cached state NOT_REGISTERED sends exactly one SAR of type UNREGISTERED_USER and moves to UNREGISTERED; with cached state UNREGISTERED or REGISTERED it sends no SAR, keeps the state and replies 200 with the wrapped cached profile in the cached state. -/
theorem call_hss_state_machine (cfg : Config) (xu : XmlUtils) (h : Handler)
    (r : GetIMSSubscription) (now1 : Int) (outcome : DiameterOutcome) (now2 : Int)
    (hhss : cfg.hss_configured = true) (hkind : h.kind = .ImpuRegData)
    (hm : h.method = .htp_method_PUT) (ht : h._type = .CALL) :
    (r.reg_state = .NOT_REGISTERED →
      sars_sent (reg_data_flow cfg xu h r now1 outcome now2).2 = [.UNREGISTERED_USER] ∧
      (reg_data_flow cfg xu h r now1 outcome now2).1._new_state = .UNREGISTERED) ∧
    (r.reg_state = .UNREGISTERED ∨ r.reg_state = .REGISTERED →
      sars_sent (reg_data_flow cfg xu h r now1 outcome now2).2 = [] ∧
      (reg_data_flow cfg xu h r now1 outcome now2).1._new_state = r.reg_state ∧
      replies (reg_data_flow cfg xu h r now1 outcome now2).2 =
        [(200, xu.build_ClearwaterRegData_xml r.reg_state r.xml)]) := by
  rcases r with ⟨rxml, xttl, st, sttl, assoc⟩
  refine ⟨?_, ?_⟩
  · intro hst
    rw [sars_sent_reg_data_flow, new_state_reg_data_flow]
    simp only at hst
    cases hnb : (check_binding xu h._impi rxml assoc).2 <;>
      simp [on_get_ims_subscription_success, hhss, hm, ht, hst, hnb,
        send_server_assignment_request, sars_sent]
  · intro hst
    simp only at hst
    cases hnb : (check_binding xu h._impi rxml assoc).2 <;>
      rcases hst with hst | hst <;>
      simp [reg_data_flow, on_get_ims_subscription_success, hhss, hkind, hm, ht, hst, hnb,
        send_reply, sars_sent, replies, replies_from, String.join]

theorem call_hss_state_machine_witness :
    (sars_sent (reg_data_flow sample_hss_config sample_xml_utils (sample_put .CALL)
        ⟨"", 0, .NOT_REGISTERED, 0, []⟩ 5 .timeout 6).2 = [.UNREGISTERED_USER] ∧
      (reg_data_flow sample_hss_config sample_xml_utils (sample_put .CALL)
        ⟨"", 0, .NOT_REGISTERED, 0, []⟩ 5 .timeout 6).1._new_state = .UNREGISTERED) ∧
    (sars_sent (reg_data_flow sample_hss_config sample_xml_utils (sample_put .CALL)
        ⟨"P", 7200, .REGISTERED, 7200, ["i@d"]⟩ 5 .timeout 6).2 = [] ∧
      (reg_data_flow sample_hss_config sample_xml_utils (sample_put .CALL)
        ⟨"P", 7200, .REGISTERED, 7200, ["i@d"]⟩ 5 .timeout 6).1._new_state = .REGISTERED ∧
      replies (reg_data_flow sample_hss_config sample_xml_utils (sample_put .CALL)
        ⟨"P", 7200, .REGISTERED, 7200, ["i@d"]⟩ 5 .timeout 6).2 =
        [(200, "REGISTERED:P")]) :=
  ⟨(call_hss_state_machine sample_hss_config sample_xml_utils (sample_put .CALL)
      ⟨"", 0, .NOT_REGISTERED, 0, []⟩ 5 .timeout 6 rfl rfl rfl rfl).1 rfl,
   (call_hss_state_machine sample_hss_config sample_xml_utils (sample_put .CALL)
      ⟨"P", 7200, .REGISTERED, 7200, ["i@d"]⟩ 5 .timeout 6 rfl rfl rfl rfl).2 (Or.inr rfl)⟩

theorem reg_not_from_cache_sends_one_sar_witness :
    sars_sent (reg_data_flow sample_hss_config sample_xml_utils (sample_put .REG)
      ⟨"P", 3599, .REGISTERED, 3599, ["i@d"]⟩ 5 (.response ⟨2001, "P"⟩) 6).2 =
      [.RE_REGISTRATION] ∧
    (reg_data_flow sample_hss_config sample_xml_utils (sample_put .REG)
      ⟨"P", 3599, .REGISTERED, 3599, ["i@d"]⟩ 5 (.response ⟨2001, "P"⟩) 6).1._new_state =
      .REGISTERED :=
  reg_not_from_cache_sends_one_sar sample_hss_config sample_xml_utils (sample_put .REG)
    ⟨"P", 3599, .REGISTERED, 3599, ["i@d"]⟩ 5 (.response ⟨2001, "P"⟩) 6 rfl rfl rfl
    (by decide)

/-- C4: in HSS mode a DEREG_USER, DEREG_ADMIN or DEREG_TIMEOUT request whose cached state is REGISTERED sends exactly one SAR, of type sar_type_for_request of the request type, and moves to NOT_REGISTERED; when the answer has result code 2001 the reply is 200 with the wrapped cached profile (not the user data of the answer) in state NOT_REGISTERED and no put_subscription is issued. -/
theorem dereg_registered_hss (cfg : Config) (xu : XmlUtils) (h : Handler)
    (r : GetIMSSubscription) (now1 now2 : Int)
    (hhss : cfg.hss_configured = true) (hkind : h.kind = .ImpuRegData)
    (hm : h.method = .htp_method_PUT)
    (ht : h._type = .DEREG_USER ∨ h._type = .DEREG_ADMIN ∨ h._type = .DEREG_TIMEOUT)
    (hold : r.reg_state = .REGISTERED) :
    (∀ outcome : DiameterOutcome,
      sars_sent (reg_data_flow cfg xu h r now1 outcome now2).2 =
        [sar_type_for_request h._type] ∧
      (reg_data_flow cfg xu h r now1 outcome now2).1._new_state = .NOT_REGISTERED) ∧
    (∀ saa : ServerAssignmentAnswer, saa.result_code = 2001 →
      replies (reg_data_flow cfg xu h r now1 (.response saa) now2).2 =
        [(200, xu.build_ClearwaterRegData_xml .NOT_REGISTERED r.xml)] ∧
      put_subscriptions (reg_data_flow cfg xu h r now1 (.response saa) now2).2 = []) := by
  rcases r with ⟨rxml, xttl, st, sttl, assoc⟩
  simp only at hold
  refine ⟨?_, ?_⟩
  · intro outcome
    rw [sars_sent_reg_data_flow, new_state_reg_data_flow]
    cases hnb : (check_binding xu h._impi rxml assoc).2 <;>
      rcases ht with ht | ht | ht <;>
      simp [on_get_ims_subscription_success, hhss, hm, ht, hold, hnb,
        is_deregistration_request, send_server_assignment_request, sars_sent]
  · intro saa hrc
    cases hnb : (check_binding xu h._impi rxml assoc).2 <;>
      rcases ht with ht | ht | ht <;>
      by_cases hp : xu.get_public_ids rxml = [] <;>
      simp [reg_data_flow, on_get_ims_subscription_success, on_sar_response, hhss, hkind,
        hm, ht, hold, hnb, hrc, hp, is_deregistration_request, is_auth_failure_request,
        send_server_assignment_request, send_reply, sars_sent, replies, replies_from,
        String.join, put_subscriptions, cache_requests, CacheRequest.is_put_subscription]

theorem dereg_registered_hss_witness :
    (sars_sent (reg_data_flow sample_hss_config sample_xml_utils (sample_put .DEREG_USER)
        ⟨"P", 7200, .REGISTERED, 7200, ["i@d"]⟩ 5 .timeout 6).2 = [.USER_DEREGISTRATION] ∧
      (reg_data_flow sample_hss_config sample_xml_utils (sample_put .DEREG_USER)
        ⟨"P", 7200, .REGISTERED, 7200, ["i@d"]⟩ 5 .timeout 6).1._new_state =
        .NOT_REGISTERED) ∧
    (replies (reg_data_flow sample_hss_config sample_xml_utils (sample_put .DEREG_USER)
        ⟨"P", 7200, .REGISTERED, 7200, ["i@d"]⟩ 5 (.response ⟨2001, "Q"⟩) 6).2 =
        [(200, "NOT_REGISTERED:P")] ∧
      put_subscriptions (reg_data_flow sample_hss_config sample_xml_utils
        (sample_put .DEREG_USER)
        ⟨"P", 7200, .REGISTERED, 7200, ["i@d"]⟩ 5 (.response ⟨2001, "Q"⟩) 6).2 = []) :=
  ⟨(dereg_registered_hss sample_hss_config sample_xml_utils (sample_put .DEREG_USER)
      ⟨"P", 7200, .REGISTERED, 7200, ["i@d"]⟩ 5 6 rfl rfl rfl (Or.inl rfl) rfl).1 .timeout,
   (dereg_registered_hss sample_hss_config sample_xml_utils (sample_put .DEREG_USER)
      ⟨"P", 7200, .REGISTERED, 7200, ["i@d"]⟩ 5 6 rfl rfl rfl (Or.inl rfl) rfl).2
      ⟨2001, "Q"⟩ rfl⟩

/-- C5: a DEREG_USER, DEREG_ADMIN or DEREG_TIMEOUT request whose cached state is not REGISTERED is answered 400, with or without an HSS, and no SAR is sent. -/
theorem dereg_not_registered_rejected (cfg : Config) (xu : XmlUtils) (h : Handler)
    (r : GetIMSSubscription) (now1 : Int) (outcome : DiameterOutcome) (now2 : Int)
    (hm : h.method = .htp_method_PUT)
    (ht : h._type = .DEREG_USER ∨ h._type = .DEREG_ADMIN ∨ h._type = .DEREG_TIMEOUT)
    (hold : r.reg_state ≠ .REGISTERED) :
    replies (reg_data_flow cfg xu h r now1 outcome now2).2 = [(400, "")] ∧
    sars_sent (reg_data_flow cfg xu h r now1 outcome now2).2 = [] := by
  rcases r with ⟨rxml, xttl, st, sttl, assoc⟩
  simp only at hold
  cases hb : cfg.hss_configured <;>
    cases hnb : (check_binding xu h._impi rxml assoc).2 <;>
    rcases ht with ht | ht | ht <;>
    simp [reg_data_flow, on_get_ims_subscription_success, hb, hm, ht, hold, hnb,
      is_deregistration_request, sars_sent, replies, replies_from, String.join]

theorem dereg_not_registered_rejected_witness :
    replies (reg_data_flow sample_no_hss_config sample_xml_utils (sample_put .DEREG_USER)
      ⟨"P", 0, .UNREGISTERED, 0, ["i@d"]⟩ 5 .timeout 6).2 = [(400, "")] ∧
    sars_sent (reg_data_flow sample_no_hss_config sample_xml_utils (sample_put .DEREG_USER)
      ⟨"P", 0, .UNREGISTERED, 0, ["i@d"]⟩ 5 .timeout 6).2 = [] :=
  dereg_not_registered_rejected sample_no_hss_config sample_xml_utils
    (sample_put .DEREG_USER) ⟨"P", 0, .UNREGISTERED, 0, ["i@d"]⟩ 5 .timeout 6 rfl
    (Or.inl rfl) (by decide)


/-- C6 fails as stated: with an HSS, the DEREG_USER request of private identity j@d on a record in state UNREGISTERED bound to i@d only is rejected with 400 and yet writes put_associated_private_id for j@d. -/
theorem dereg_rejected_writes_new_binding :
    replies (reg_data_flow sample_hss_config sample_xml_utils
      ⟨.ImpuRegData, .htp_method_PUT, "j@d", "sip:u@d", .DEREG_USER, "", .NOT_REGISTERED⟩
      ⟨"P", 100, .UNREGISTERED, 100, ["i@d"]⟩ 5 .timeout 6).2 = [(400, "")] ∧
    cache_writes (reg_data_flow sample_hss_config sample_xml_utils
      ⟨.ImpuRegData, .htp_method_PUT, "j@d", "sip:u@d", .DEREG_USER, "", .NOT_REGISTERED⟩
      ⟨"P", 100, .UNREGISTERED, 100, ["i@d"]⟩ 5 .timeout 6).2 =
      [.PutAssociatedPrivateID ["sip:u@d"] "j@d" 5 7200] := by
  decide

/-- C6 as amended: a DEREG_USER, DEREG_ADMIN or DEREG_TIMEOUT request rejected with 400 because the cached state is not REGISTERED issues no put_subscription and no delete_public_ids; its only possible cache write is put_associated_private_id of the cached public identities and the request private identity with ttl twice hss_reregistration_time (computed as a 32-bit int), issued exactly when an HSS is configured and the request carries a new binding. -/
theorem dereg_rejected_cache_writes (cfg : Config) (xu : XmlUtils) (h : Handler)
    (r : GetIMSSubscription) (now1 : Int) (outcome : DiameterOutcome) (now2 : Int)
    (hm : h.method = .htp_method_PUT)
    (ht : h._type = .DEREG_USER ∨ h._type = .DEREG_ADMIN ∨ h._type = .DEREG_TIMEOUT)
    (hold : r.reg_state ≠ .REGISTERED) :
    replies (reg_data_flow cfg xu h r now1 outcome now2).2 = [(400, "")] ∧
    cache_writes (reg_data_flow cfg xu h r now1 outcome now2).2 =
      (if cfg.hss_configured = true ∧
          (check_binding xu h._impi r.xml r.associated_impis).2 = true
        then [.PutAssociatedPrivateID (xu.get_public_ids r.xml) h._impi now1
          (int_wrap (2 * cfg.hss_reregistration_time))]
        else []) := by
  rcases r with ⟨rxml, xttl, st, sttl, assoc⟩
  simp only at hold
  cases hb : cfg.hss_configured <;>
    cases hnb : (check_binding xu h._impi rxml assoc).2 <;>
    rcases ht with ht | ht | ht <;>
    simp [reg_data_flow, on_get_ims_subscription_success, hb, hm, ht, hold, hnb,
      check_binding_true xu h._impi rxml assoc,
      is_deregistration_request, sars_sent, replies, replies_from, String.join,
      cache_writes, cache_requests, CacheRequest.is_write]

theorem dereg_rejected_cache_writes_witness :
    replies (reg_data_flow sample_hss_config sample_xml_utils (sample_put .DEREG_USER)
      ⟨"P", 100, .UNREGISTERED, 100, ["i@d"]⟩ 5 .timeout 6).2 = [(400, "")] ∧
    cache_writes (reg_data_flow sample_hss_config sample_xml_utils (sample_put .DEREG_USER)
      ⟨"P", 100, .UNREGISTERED, 100, ["i@d"]⟩ 5 .timeout 6).2 = [] :=
  dereg_rejected_cache_writes sample_hss_config sample_xml_utils (sample_put .DEREG_USER)
    ⟨"P", 100, .UNREGISTERED, 100, ["i@d"]⟩ 5 .timeout 6 rfl (Or.inl rfl) (by decide)


/-- C7 fails as stated: with an HSS, the DEREG_AUTH_FAIL request of private identity j@d on the record of sip:u@d, which is in state REGISTERED and bound to i@d only, issues put_associated_private_id for j@d before its SAR; after the request, answered 2001, the record of sip:u@d is bound to i@d and j@d, so the subscription record has changed. -/
theorem auth_failure_writes_new_binding :
    cache_writes (reg_data_after_read sample_hss_config sample_xml_utils
      ⟨.ImpuRegData, .htp_method_PUT, "j@d", "sip:u@d", .DEREG_AUTH_FAIL, "",
        .NOT_REGISTERED⟩
      (sample_store_registered.get_subscription "sip:u@d") 5 (.response ⟨2001, ""⟩) 6).2 =
      [.PutAssociatedPrivateID ["sip:u@d"] "j@d" 5 7200] ∧
    (sample_store_registered.after (reg_data_after_read sample_hss_config
      sample_xml_utils
      ⟨.ImpuRegData, .htp_method_PUT, "j@d", "sip:u@d", .DEREG_AUTH_FAIL, "",
        .NOT_REGISTERED⟩
      (sample_store_registered.get_subscription "sip:u@d") 5 (.response ⟨2001, ""⟩) 6).2)
      "sip:u@d" = some ⟨"P", .REGISTERED, ["i@d", "j@d"], 7200⟩ := by
  refine ⟨?_, ?_⟩ <;> decide

/-- C7 as amended: a DEREG_AUTH_FAIL or DEREG_AUTH_TIMEOUT request keeps the registration state and issues neither put_subscription nor delete_public_ids, whatever the cached state and the outcome of the exchange (result code or timeout); its only cache write is put_associated_private_id of the cached public identities and the request private identity, issued exactly when an HSS is configured and the request carries a new binding; in HSS mode exactly one SAR is sent, AUTHENTICATION_FAILURE for DEREG_AUTH_FAIL and AUTHENTICATION_TIMEOUT for DEREG_AUTH_TIMEOUT, and an answer with result code 2001 is replied 200 with the wrapped cached profile in the cached state; without an HSS the reply is 200 with an empty body and neither a SAR nor a cache request is issued. -/
theorem auth_failure_keeps_state (cfg : Config) (xu : XmlUtils) (h : Handler)
    (r : GetIMSSubscription) (now1 : Int) (outcome : DiameterOutcome) (now2 : Int)
    (hkind : h.kind = .ImpuRegData) (hm : h.method = .htp_method_PUT)
    (ht : h._type = .DEREG_AUTH_FAIL ∨ h._type = .DEREG_AUTH_TIMEOUT) :
    (reg_data_flow cfg xu h r now1 outcome now2).1._new_state = r.reg_state ∧
    put_subscriptions (reg_data_flow cfg xu h r now1 outcome now2).2 = [] ∧
    delete_public_ids (reg_data_flow cfg xu h r now1 outcome now2).2 = [] ∧
    cache_requests (reg_data_flow cfg xu h r now1 outcome now2).2 =
      (if cfg.hss_configured = true ∧
          (check_binding xu h._impi r.xml r.associated_impis).2 = true then
        [.PutAssociatedPrivateID (xu.get_public_ids r.xml) h._impi now1
          (int_wrap (2 * cfg.hss_reregistration_time))]
       else []) ∧
    (cfg.hss_configured = true →
      sars_sent (reg_data_flow cfg xu h r now1 outcome now2).2 =
        [if h._type = .DEREG_AUTH_FAIL then .AUTHENTICATION_FAILURE
          else .AUTHENTICATION_TIMEOUT] ∧
      ∀ saa : ServerAssignmentAnswer, outcome = .response saa → saa.result_code = 2001 →
        replies (reg_data_flow cfg xu h r now1 outcome now2).2 =
          [(200, xu.build_ClearwaterRegData_xml r.reg_state r.xml)]) ∧
    (cfg.hss_configured = false →
      replies (reg_data_flow cfg xu h r now1 outcome now2).2 = [(200, "")] ∧
      sars_sent (reg_data_flow cfg xu h r now1 outcome now2).2 = [] ∧
      cache_requests (reg_data_flow cfg xu h r now1 outcome now2).2 = []) := by
  rcases r with ⟨rxml, xttl, st, sttl, assoc⟩
  cases hb : cfg.hss_configured
  · rcases ht with ht | ht <;>
      simp [reg_data_flow, on_get_ims_subscription_success, hb, hm, ht,
        is_deregistration_request, is_auth_failure_request, sars_sent, replies,
        replies_from, String.join, put_subscriptions, delete_public_ids, cache_requests]
  · cases hnb : (check_binding xu h._impi rxml assoc).2 <;>
      rcases ht with ht | ht <;>
      rcases outcome with saa | _ <;>
      simp [reg_data_flow, on_get_ims_subscription_success, on_sar_response,
        on_diameter_timeout, hb, hkind, hm, ht, hnb,
        check_binding_true xu h._impi rxml assoc,
        is_deregistration_request, is_auth_failure_request, sar_type_for_request,
        send_server_assignment_request, send_reply, sars_sent, replies,
        replies_from, String.join, put_subscriptions, delete_public_ids, cache_requests,
        CacheRequest.is_put_subscription, CacheRequest.is_delete_public_ids] <;>
      split_ifs <;>
      simp_all [sars_sent, replies, replies_from, String.join, cache_requests]

theorem auth_failure_keeps_state_witness :
    (reg_data_flow sample_hss_config sample_xml_utils (sample_put .DEREG_AUTH_FAIL)
      ⟨"P", 7200, .REGISTERED, 7200, ["i@d"]⟩ 5 (.response ⟨2001, "Q"⟩) 6).1._new_state =
      .REGISTERED ∧
    sars_sent (reg_data_flow sample_hss_config sample_xml_utils (sample_put .DEREG_AUTH_FAIL)
      ⟨"P", 7200, .REGISTERED, 7200, ["i@d"]⟩ 5 (.response ⟨2001, "Q"⟩) 6).2 =
      [.AUTHENTICATION_FAILURE] ∧
    replies (reg_data_flow sample_hss_config sample_xml_utils (sample_put .DEREG_AUTH_FAIL)
      ⟨"P", 7200, .REGISTERED, 7200, ["i@d"]⟩ 5 (.response ⟨2001, "Q"⟩) 6).2 =
      [(200, "REGISTERED:P")] :=
  ⟨(auth_failure_keeps_state sample_hss_config sample_xml_utils
      (sample_put .DEREG_AUTH_FAIL) ⟨"P", 7200, .REGISTERED, 7200, ["i@d"]⟩ 5
      (.response ⟨2001, "Q"⟩) 6 rfl rfl (Or.inl rfl)).1,
   ((auth_failure_keeps_state sample_hss_config sample_xml_utils
      (sample_put .DEREG_AUTH_FAIL) ⟨"P", 7200, .REGISTERED, 7200, ["i@d"]⟩ 5
      (.response ⟨2001, "Q"⟩) 6 rfl rfl (Or.inl rfl)).2.2.2.2.1 rfl).1,
   ((auth_failure_keeps_state sample_hss_config sample_xml_utils
      (sample_put .DEREG_AUTH_FAIL) ⟨"P", 7200, .REGISTERED, 7200, ["i@d"]⟩ 5
      (.response ⟨2001, "Q"⟩) 6 rfl rfl (Or.inl rfl)).2.2.2.2.1 rfl).2 ⟨2001, "Q"⟩ rfl rfl⟩

/-- C8 fails as stated: with an HSS, a REG for an identity without a cached record whose answer has result code 2001 and user data without public identities is replied 200 with the wrapped user data, and no put_subscription is issued. -/
theorem sar_success_without_public_ids_not_cached :
    replies (reg_data_flow sample_hss_config sample_xml_utils (sample_put .REG)
      ⟨"", 0, .NOT_REGISTERED, 0, []⟩ 5 (.response ⟨2001, "<broken"⟩) 6).2 =
      [(200, "REGISTERED:<broken")] ∧
    put_subscriptions (reg_data_flow sample_hss_config sample_xml_utils (sample_put .REG)
      ⟨"", 0, .NOT_REGISTERED, 0, []⟩ 5 (.response ⟨2001, "<broken"⟩) 6).2 = [] := by
  decide

/-- C8 as amended: in HSS mode, when the answer to the SAR of a REG or CALL request has result code 2001, the profile becomes the user data of the answer and the reply is 200 with the wrapped user data in the new state (REGISTERED for REG, UNREGISTERED for CALL); put_subscription of the public identities of the user data, the user data, the new state, the associated private identities, the timestamp and ttl twice hss_reregistration_time (computed as a 32-bit int) is issued exactly when the user data yields at least one public identity, and no put_subscription is issued when it yields none. -/
theorem sar_success_caches_user_data (cfg : Config) (xu : XmlUtils) (h : Handler)
    (r : GetIMSSubscription) (now1 : Int) (saa : ServerAssignmentAnswer) (now2 : Int)
    (hhss : cfg.hss_configured = true) (hkind : h.kind = .ImpuRegData)
    (hm : h.method = .htp_method_PUT) (ht : h._type = .REG ∨ h._type = .CALL)
    (hsar : sars_sent (on_get_ims_subscription_success cfg xu h r now1).2 ≠ [])
    (hrc : saa.result_code = 2001) :
    (reg_data_flow cfg xu h r now1 (.response saa) now2).1._xml = saa.user_data ∧
    (reg_data_flow cfg xu h r now1 (.response saa) now2).1._new_state =
      (if h._type = .REG then .REGISTERED else .UNREGISTERED) ∧
    put_subscriptions (reg_data_flow cfg xu h r now1 (.response saa) now2).2 =
      (if xu.get_public_ids saa.user_data ≠ [] then
        [.PutIMSSubscription (xu.get_public_ids saa.user_data) saa.user_data
          (reg_data_flow cfg xu h r now1 (.response saa) now2).1._new_state
          (get_associated_private_ids xu
            (reg_data_flow cfg xu h r now1 (.response saa) now2).1)
          now2 (int_wrap (2 * cfg.hss_reregistration_time))]
       else []) ∧
    replies (reg_data_flow cfg xu h r now1 (.response saa) now2).2 =
      [(200, xu.build_ClearwaterRegData_xml
        (reg_data_flow cfg xu h r now1 (.response saa) now2).1._new_state
        saa.user_data)] := by
  rcases r with ⟨rxml, xttl, st, sttl, assoc⟩
  revert hsar
  cases hnb : (check_binding xu h._impi rxml assoc).2 <;>
    rcases ht with ht | ht <;>
    cases st <;>
    by_cases hlt : sttl < cfg.hss_reregistration_time <;>
    by_cases hp : xu.get_public_ids saa.user_data = [] <;>
    simp [reg_data_flow, on_get_ims_subscription_success, on_sar_response, put_in_cache,
      hhss, hkind, hm, ht, hnb, hrc, hlt, hp,
      is_deregistration_request, is_auth_failure_request,
      send_server_assignment_request, send_reply, sars_sent, replies,
      replies_from, String.join, put_subscriptions, cache_requests,
      CacheRequest.is_put_subscription]

theorem sar_success_caches_user_data_witness :
    (reg_data_flow sample_hss_config sample_xml_utils (sample_put .REG)
      ⟨"", 0, .NOT_REGISTERED, 0, []⟩ 5 (.response ⟨2001, "P"⟩) 6).1._xml = "P" ∧
    (reg_data_flow sample_hss_config sample_xml_utils (sample_put .REG)
      ⟨"", 0, .NOT_REGISTERED, 0, []⟩ 5 (.response ⟨2001, "P"⟩) 6).1._new_state =
      .REGISTERED ∧
    put_subscriptions (reg_data_flow sample_hss_config sample_xml_utils (sample_put .REG)
      ⟨"", 0, .NOT_REGISTERED, 0, []⟩ 5 (.response ⟨2001, "P"⟩) 6).2 =
      [.PutIMSSubscription ["sip:u@d"] "P" .REGISTERED ["i@d"] 6 7200] ∧
    replies (reg_data_flow sample_hss_config sample_xml_utils (sample_put .REG)
      ⟨"", 0, .NOT_REGISTERED, 0, []⟩ 5 (.response ⟨2001, "P"⟩) 6).2 =
      [(200, "REGISTERED:P")] :=
  sar_success_caches_user_data sample_hss_config sample_xml_utils (sample_put .REG)
    ⟨"", 0, .NOT_REGISTERED, 0, []⟩ 5 ⟨2001, "P"⟩ 6 rfl rfl rfl (Or.inl rfl) (by decide) rfl

/-- C9 fails as stated: with an HSS, a DEREG_USER on a record in state REGISTERED whose cached profile yields no public identity sends the SAR, and on the answer no delete_public_ids is issued. -/
theorem dereg_without_public_ids_deletes_nothing :
    sars_sent (reg_data_flow sample_hss_config sample_xml_utils (sample_put .DEREG_USER)
      ⟨"<broken", 7200, .REGISTERED, 7200, ["i@d"]⟩ 5 (.response ⟨2001, ""⟩) 6).2 =
      [.USER_DEREGISTRATION] ∧
    delete_public_ids (reg_data_flow sample_hss_config sample_xml_utils
      (sample_put .DEREG_USER)
      ⟨"<broken", 7200, .REGISTERED, 7200, ["i@d"]⟩ 5 (.response ⟨2001, ""⟩) 6).2 = [] := by
  decide

/-- C9 as amended: for a DEREG_USER, DEREG_ADMIN or DEREG_TIMEOUT request that receives a Server-Assignment answer, delete_public_ids of the public identities of the cached profile, the associated private identities and the timestamp is issued whatever the result code of the answer, provided the cached profile yields at least one public identity (none is issued when it yields none); for every other request type no delete_public_ids is issued, whatever the outcome. -/
theorem delete_public_ids_only_on_dereg_answer (cfg : Config) (xu : XmlUtils) (h : Handler)
    (r : GetIMSSubscription) (now1 now2 : Int) :
    (h._type = .DEREG_USER ∨ h._type = .DEREG_ADMIN ∨ h._type = .DEREG_TIMEOUT →
      sars_sent (on_get_ims_subscription_success cfg xu h r now1).2 ≠ [] →
      ∀ saa : ServerAssignmentAnswer,
        delete_public_ids (reg_data_flow cfg xu h r now1 (.response saa) now2).2 =
          (if xu.get_public_ids r.xml ≠ [] then
            [.DeletePublicIDs (xu.get_public_ids r.xml)
              (get_associated_private_ids xu
                (on_get_ims_subscription_success cfg xu h r now1).1) now2]
           else [])) ∧
    (¬ (h._type = .DEREG_USER ∨ h._type = .DEREG_ADMIN ∨ h._type = .DEREG_TIMEOUT) →
      ∀ outcome : DiameterOutcome,
        delete_public_ids (reg_data_flow cfg xu h r now1 outcome now2).2 = []) := by
  have hf := on_get_fields cfg xu h r now1
  have hd := delete_public_ids_on_get cfg xu h r now1
  refine ⟨?_, ?_⟩
  · intro ht hsar saa
    have hdr : is_deregistration_request h._type = true := by
      rcases ht with ht | ht | ht <;> simp [ht, is_deregistration_request]
    have h2 := delete_public_ids_on_sar_response cfg xu
      (on_get_ims_subscription_success cfg xu h r now1).1 saa now2
    rw [hf.2.1, hf.2.2] at h2
    simp only [delete_public_ids] at hd h2 ⊢
    simp [reg_data_flow, hsar, hd, h2, hdr]
  · intro ht outcome
    have hdr : is_deregistration_request h._type = false := by
      cases hty : h._type <;> simp_all [is_deregistration_request]
    have h2 : ∀ saa, _ := fun saa => delete_public_ids_on_sar_response cfg xu
      (on_get_ims_subscription_success cfg xu h r now1).1 saa now2
    rw [hf.2.1] at h2
    simp only [delete_public_ids] at hd h2 ⊢
    by_cases hs : sars_sent (on_get_ims_subscription_success cfg xu h r now1).2 = []
    · simp [reg_data_flow, hs, hd]
    · cases outcome <;>
        simp [reg_data_flow, hs, hd, h2, hdr, on_diameter_timeout, cache_requests]

theorem delete_public_ids_only_on_dereg_answer_witness :
    delete_public_ids (reg_data_flow sample_hss_config sample_xml_utils
      (sample_put .DEREG_USER)
      ⟨"P", 7200, .REGISTERED, 7200, ["i@d"]⟩ 5 (.response ⟨5001, ""⟩) 6).2 =
      [.DeletePublicIDs ["sip:u@d"] ["i@d"] 6] ∧
    delete_public_ids (reg_data_flow sample_hss_config sample_xml_utils (sample_put .REG)
      ⟨"P", 10, .REGISTERED, 10, ["i@d"]⟩ 5 (.response ⟨2001, "P"⟩) 6).2 = [] :=
  ⟨(delete_public_ids_only_on_dereg_answer sample_hss_config sample_xml_utils
      (sample_put .DEREG_USER) ⟨"P", 7200, .REGISTERED, 7200, ["i@d"]⟩ 5 6).1
      (Or.inl rfl) (by decide) ⟨5001, ""⟩,
   (delete_public_ids_only_on_dereg_answer sample_hss_config sample_xml_utils
      (sample_put .REG) ⟨"P", 10, .REGISTERED, 10, ["i@d"]⟩ 5 6).2
      (by decide) (.response ⟨2001, "P"⟩)⟩

/-- C10: for a reg-data request that sent a SAR exactly one reply is sent and its status depends on the outcome alone: it is 200 if and only if the result code of the answer is 2001, 404 if and only if it is 5001, 500 for every other result code and 503 (with an empty body) when the exchange times out; an outcome other than 2001 issues no put_subscription. -/
theorem sar_outcome_decides_status (cfg : Config) (xu : XmlUtils) (h : Handler)
    (r : GetIMSSubscription) (now1 now2 : Int) (hkind : h.kind = .ImpuRegData)
    (hsar : sars_sent (on_get_ims_subscription_success cfg xu h r now1).2 ≠ []) :
    (∀ saa : ServerAssignmentAnswer,
      ((replies (reg_data_flow cfg xu h r now1 (.response saa) now2).2).map Prod.fst =
          [200] ↔ saa.result_code = 2001) ∧
      ((replies (reg_data_flow cfg xu h r now1 (.response saa) now2).2).map Prod.fst =
          [404] ↔ saa.result_code = 5001) ∧
      (saa.result_code ≠ 2001 → saa.result_code ≠ 5001 →
        (replies (reg_data_flow cfg xu h r now1 (.response saa) now2).2).map Prod.fst =
          [500]) ∧
      (saa.result_code ≠ 2001 →
        put_subscriptions (reg_data_flow cfg xu h r now1 (.response saa) now2).2 = [])) ∧
    replies (reg_data_flow cfg xu h r now1 .timeout now2).2 = [(503, "")] ∧
    put_subscriptions (reg_data_flow cfg xu h r now1 .timeout now2).2 = [] := by
  have hq := on_get_quiet_of_sar cfg xu h r now1 hsar
  have hf := on_get_fields cfg xu h r now1
  refine ⟨?_, ?_, ?_⟩
  · intro saa
    have hr := replies_on_sar_response cfg xu
      (on_get_ims_subscription_success cfg xu h r now1).1 saa now2 (hf.1.trans hkind)
    have hst : (replies (reg_data_flow cfg xu h r now1 (.response saa) now2).2).map
        Prod.fst = [if saa.result_code = 2001 then 200 else
          if saa.result_code = 5001 then 404 else 500] := by
      rw [← hr]
      simp [reg_data_flow, hsar, replies, hq.2]
    refine ⟨?_, ?_, ?_, ?_⟩
    · rw [hst]
      split_ifs <;> simp_all
    · rw [hst]
      split_ifs <;> simp_all
    · intro h1 h2
      rw [hst]
      simp [h1, h2]
    · intro h1
      simp [reg_data_flow, hsar, put_subscriptions_append, hq.1,
        put_subscriptions_on_sar_response cfg xu _ saa now2 h1]
  · simp [reg_data_flow, hsar, replies, hq.2, on_diameter_timeout, replies_from,
      String.join]
  · simp [reg_data_flow, hsar, put_subscriptions_append, hq.1, on_diameter_timeout]
    simp [put_subscriptions, cache_requests]

theorem sar_outcome_decides_status_witness :
    (replies (reg_data_flow sample_hss_config sample_xml_utils (sample_put .REG)
      ⟨"", 0, .NOT_REGISTERED, 0, []⟩ 5 (.response ⟨5003, ""⟩) 6).2).map Prod.fst = [500] ∧
    replies (reg_data_flow sample_hss_config sample_xml_utils (sample_put .REG)
      ⟨"", 0, .NOT_REGISTERED, 0, []⟩ 5 .timeout 6).2 = [(503, "")] :=
  ⟨((sar_outcome_decides_status sample_hss_config sample_xml_utils (sample_put .REG)
      ⟨"", 0, .NOT_REGISTERED, 0, []⟩ 5 6 rfl (by decide)).1 ⟨5003, ""⟩).2.2.1
      (by decide) (by decide),
   (sar_outcome_decides_status sample_hss_config sample_xml_utils (sample_put .REG)
      ⟨"", 0, .NOT_REGISTERED, 0, []⟩ 5 6 rfl (by decide)).2.1⟩

/-- C11: sar_type_for_request maps DEREG_USER, DEREG_ADMIN, DEREG_TIMEOUT, DEREG_AUTH_FAIL and DEREG_AUTH_TIMEOUT to USER_DEREGISTRATION, ADMINISTRATIVE_DEREGISTRATION, TIMEOUT_DEREGISTRATION, AUTHENTICATION_FAILURE and AUTHENTICATION_TIMEOUT, so it is injective on these five types; its two call sites in the state machine are guarded by is_deregistration_request and is_auth_failure_request, which hold only for these five types, and every SAR sent for a request that is neither REG nor CALL comes from a request of one of the five types and carries the mapped type, so the default arm is never taken. -/
theorem sar_type_for_request_table (cfg : Config) (xu : XmlUtils) (h : Handler)
    (r : GetIMSSubscription) (now : Int) :
    (sar_type_for_request .DEREG_USER = .USER_DEREGISTRATION ∧
      sar_type_for_request .DEREG_ADMIN = .ADMINISTRATIVE_DEREGISTRATION ∧
      sar_type_for_request .DEREG_TIMEOUT = .TIMEOUT_DEREGISTRATION ∧
      sar_type_for_request .DEREG_AUTH_FAIL = .AUTHENTICATION_FAILURE ∧
      sar_type_for_request .DEREG_AUTH_TIMEOUT = .AUTHENTICATION_TIMEOUT) ∧
    (∀ t1 t2 : RequestType,
      t1 ∈ [RequestType.DEREG_USER, .DEREG_ADMIN, .DEREG_TIMEOUT, .DEREG_AUTH_FAIL,
        .DEREG_AUTH_TIMEOUT] →
      t2 ∈ [RequestType.DEREG_USER, .DEREG_ADMIN, .DEREG_TIMEOUT, .DEREG_AUTH_FAIL,
        .DEREG_AUTH_TIMEOUT] →
      sar_type_for_request t1 = sar_type_for_request t2 → t1 = t2) ∧
    (∀ t : RequestType,
      is_deregistration_request t = true ∨ is_auth_failure_request t = true →
      t ∈ [RequestType.DEREG_USER, .DEREG_ADMIN, .DEREG_TIMEOUT, .DEREG_AUTH_FAIL,
        .DEREG_AUTH_TIMEOUT]) ∧
    (sars_sent (on_get_ims_subscription_success cfg xu h r now).2 ≠ [] →
      h._type ≠ .REG → h._type ≠ .CALL →
      h._type ∈ [RequestType.DEREG_USER, .DEREG_ADMIN, .DEREG_TIMEOUT, .DEREG_AUTH_FAIL,
        .DEREG_AUTH_TIMEOUT] ∧
      sars_sent (on_get_ims_subscription_success cfg xu h r now).2 =
        [sar_type_for_request h._type]) := by
  refine ⟨⟨rfl, rfl, rfl, rfl, rfl⟩, ?_, ?_, ?_⟩
  · intro t1 t2 h1 h2
    cases t1 <;> cases t2 <;> simp [sar_type_for_request] at h1 h2 ⊢
  · intro t ht
    cases t <;> simp [is_deregistration_request, is_auth_failure_request] at ht ⊢
  · rcases h with ⟨kind, method, impi, impu, type, xml, ns⟩
    rcases r with ⟨rxml, xttl, st, sttl, assoc⟩
    cases hb : cfg.hss_configured <;> cases type <;> cases st <;>
      simp [on_get_ims_subscription_success, hb, is_deregistration_request,
        is_auth_failure_request, send_server_assignment_request, sar_type_for_request] <;>
      split_ifs <;>
      simp [sars_sent]

theorem sar_type_for_request_table_witness :
    sars_sent (on_get_ims_subscription_success sample_hss_config sample_xml_utils
      (sample_put .DEREG_AUTH_TIMEOUT) ⟨"P", 7200, .REGISTERED, 7200, ["i@d"]⟩ 5).2 =
      [.AUTHENTICATION_TIMEOUT] :=
  ((sar_type_for_request_table sample_hss_config sample_xml_utils
      (sample_put .DEREG_AUTH_TIMEOUT) ⟨"P", 7200, .REGISTERED, 7200, ["i@d"]⟩ 5).2.2.2
      (by decide) (by decide) (by decide)).2

/-- C12: without an HSS, a REG or CALL for a subscriber in state NOT_REGISTERED is answered 404; a REG with cached state REGISTERED is answered 200 with the wrapped cached profile in state REGISTERED, and a CALL with cached state UNREGISTERED or REGISTERED is answered 200 with the wrapped cached profile in the cached state; in all these cases no cache write is issued and no SAR is sent. -/
theorem no_hss_read_only_outcomes (cfg : Config) (xu : XmlUtils) (h : Handler)
    (r : GetIMSSubscription) (now1 : Int) (outcome : DiameterOutcome) (now2 : Int)
    (hhss : cfg.hss_configured = false) (hkind : h.kind = .ImpuRegData)
    (hm : h.method = .htp_method_PUT) :
    (h._type = .REG ∨ h._type = .CALL → r.reg_state = .NOT_REGISTERED →
      replies (reg_data_flow cfg xu h r now1 outcome now2).2 = [(404, "")] ∧
      cache_writes (reg_data_flow cfg xu h r now1 outcome now2).2 = [] ∧
      sars_sent (reg_data_flow cfg xu h r now1 outcome now2).2 = []) ∧
    (h._type = .REG → r.reg_state = .REGISTERED →
      replies (reg_data_flow cfg xu h r now1 outcome now2).2 =
        [(200, xu.build_ClearwaterRegData_xml .REGISTERED r.xml)] ∧
      cache_writes (reg_data_flow cfg xu h r now1 outcome now2).2 = [] ∧
      sars_sent (reg_data_flow cfg xu h r now1 outcome now2).2 = []) ∧
    (h._type = .CALL → r.reg_state = .UNREGISTERED ∨ r.reg_state = .REGISTERED →
      replies (reg_data_flow cfg xu h r now1 outcome now2).2 =
        [(200, xu.build_ClearwaterRegData_xml r.reg_state r.xml)] ∧
      cache_writes (reg_data_flow cfg xu h r now1 outcome now2).2 = [] ∧
      sars_sent (reg_data_flow cfg xu h r now1 outcome now2).2 = []) := by
  rcases r with ⟨rxml, xttl, st, sttl, assoc⟩
  refine ⟨?_, ?_, ?_⟩
  · intro ht hst
    simp only at hst
    rcases ht with ht | ht <;>
      simp [reg_data_flow, on_get_ims_subscription_success, hhss, hm, ht, hst,
        sars_sent, replies, replies_from, String.join, cache_writes, cache_requests]
  · intro ht hst
    simp only at hst
    simp [reg_data_flow, on_get_ims_subscription_success, hhss, hkind, hm, ht, hst,
      send_reply, sars_sent, replies, replies_from, String.join, cache_writes,
      cache_requests]
  · intro ht hst
    simp only at hst
    rcases hst with hst | hst <;>
      simp [reg_data_flow, on_get_ims_subscription_success, hhss, hkind, hm, ht, hst,
        send_reply, sars_sent, replies, replies_from, String.join, cache_writes,
        cache_requests]

theorem no_hss_read_only_outcomes_witness :
    (replies (reg_data_flow sample_no_hss_config sample_xml_utils (sample_put .CALL)
        ⟨"", 0, .NOT_REGISTERED, 0, []⟩ 5 .timeout 6).2 = [(404, "")] ∧
      cache_writes (reg_data_flow sample_no_hss_config sample_xml_utils (sample_put .CALL)
        ⟨"", 0, .NOT_REGISTERED, 0, []⟩ 5 .timeout 6).2 = [] ∧
      sars_sent (reg_data_flow sample_no_hss_config sample_xml_utils (sample_put .CALL)
        ⟨"", 0, .NOT_REGISTERED, 0, []⟩ 5 .timeout 6).2 = []) ∧
    (replies (reg_data_flow sample_no_hss_config sample_xml_utils (sample_put .REG)
        ⟨"P", 0, .REGISTERED, 0, []⟩ 5 .timeout 6).2 = [(200, "REGISTERED:P")] ∧
      cache_writes (reg_data_flow sample_no_hss_config sample_xml_utils (sample_put .REG)
        ⟨"P", 0, .REGISTERED, 0, []⟩ 5 .timeout 6).2 = [] ∧
      sars_sent (reg_data_flow sample_no_hss_config sample_xml_utils (sample_put .REG)
        ⟨"P", 0, .REGISTERED, 0, []⟩ 5 .timeout 6).2 = []) :=
  ⟨(no_hss_read_only_outcomes sample_no_hss_config sample_xml_utils (sample_put .CALL)
      ⟨"", 0, .NOT_REGISTERED, 0, []⟩ 5 .timeout 6 rfl rfl rfl).1 (Or.inr rfl) rfl,
   (no_hss_read_only_outcomes sample_no_hss_config sample_xml_utils (sample_put .REG)
      ⟨"P", 0, .REGISTERED, 0, []⟩ 5 .timeout 6 rfl rfl rfl).2.1 rfl rfl⟩

/-- C13 fails as stated: without an HSS, a REG on a record in state UNREGISTERED whose cached profile yields no public identity is answered 200 in state REGISTERED although no put_subscription is issued. -/
theorem no_hss_transition_not_persisted :
    replies (reg_data_flow sample_no_hss_config sample_xml_utils (sample_put .REG)
      ⟨"<broken", 0, .UNREGISTERED, 0, []⟩ 5 .timeout 6).2 =
      [(200, "REGISTERED:<broken")] ∧
    put_subscriptions (reg_data_flow sample_no_hss_config sample_xml_utils (sample_put .REG)
      ⟨"<broken", 0, .UNREGISTERED, 0, []⟩ 5 .timeout 6).2 = [] := by
  decide

/-- C13 as amended: without an HSS, a REG with cached state UNREGISTERED (new state REGISTERED) and a DEREG_USER, DEREG_ADMIN or DEREG_TIMEOUT with cached state REGISTERED (new state UNREGISTERED) issue, when the cached profile yields at least one public identity, one put_subscription of these identities with the unchanged cached profile, the new state, no associated private identities and ttl 0, and then reply 200 with the wrapped cached profile in the new state; when the cached profile yields no public identity only the reply is sent; no SAR and no delete_public_ids is issued. -/
theorem no_hss_transition_persisted (cfg : Config) (xu : XmlUtils) (h : Handler)
    (r : GetIMSSubscription) (now1 : Int) (outcome : DiameterOutcome) (now2 : Int)
    (new_state : RegistrationState)
    (hhss : cfg.hss_configured = false) (hkind : h.kind = .ImpuRegData)
    (hm : h.method = .htp_method_PUT)
    (ht : (h._type = .REG ∧ r.reg_state = .UNREGISTERED ∧ new_state = .REGISTERED) ∨
      ((h._type = .DEREG_USER ∨ h._type = .DEREG_ADMIN ∨ h._type = .DEREG_TIMEOUT) ∧
        r.reg_state = .REGISTERED ∧ new_state = .UNREGISTERED)) :
    (reg_data_flow cfg xu h r now1 outcome now2).2 =
      (if xu.get_public_ids r.xml ≠ [] then
        [Effect.cache_send (.PutIMSSubscription (xu.get_public_ids r.xml) r.xml new_state
          [] now1 0)]
       else []) ++
      [.add_content (xu.build_ClearwaterRegData_xml new_state r.xml), .send_reply 200,
        .delete_this] ∧
    replies (reg_data_flow cfg xu h r now1 outcome now2).2 =
      [(200, xu.build_ClearwaterRegData_xml new_state r.xml)] ∧
    sars_sent (reg_data_flow cfg xu h r now1 outcome now2).2 = [] ∧
    delete_public_ids (reg_data_flow cfg xu h r now1 outcome now2).2 = [] := by
  rcases r with ⟨rxml, xttl, st, sttl, assoc⟩
  simp only at ht
  by_cases hp : xu.get_public_ids rxml = []
  · rcases ht with ⟨ht, hst, hns⟩ | ⟨ht | ht | ht, hst, hns⟩ <;>
      simp [reg_data_flow, on_get_ims_subscription_success, put_in_cache, hhss, hkind, hm,
        ht, hst, hns, hp, is_deregistration_request, send_reply, sars_sent, replies,
        replies_from, String.join, delete_public_ids, cache_requests]
  · rcases ht with ⟨ht, hst, hns⟩ | ⟨ht | ht | ht, hst, hns⟩ <;>
      simp [reg_data_flow, on_get_ims_subscription_success, put_in_cache, hhss, hkind, hm,
        ht, hst, hns, hp, is_deregistration_request, send_reply, sars_sent, replies,
        replies_from, String.join, delete_public_ids, cache_requests,
        CacheRequest.is_delete_public_ids]

theorem no_hss_transition_persisted_witness :
    (reg_data_flow sample_no_hss_config sample_xml_utils (sample_put .DEREG_TIMEOUT)
      ⟨"P", 0, .REGISTERED, 0, []⟩ 5 .timeout 6).2 =
      [.cache_send (.PutIMSSubscription ["sip:u@d"] "P" .UNREGISTERED [] 5 0),
        .add_content "UNREGISTERED:P", .send_reply 200, .delete_this] :=
  (no_hss_transition_persisted sample_no_hss_config sample_xml_utils
    (sample_put .DEREG_TIMEOUT) ⟨"P", 0, .REGISTERED, 0, []⟩ 5 .timeout 6 .UNREGISTERED
    rfl rfl rfl (Or.inr ⟨Or.inr (Or.inr rfl), rfl, rfl⟩)).1

/-- C14: a GET on reg-data whose cache read succeeds is answered 200 with the wrapped cached profile in the cached state, with or without an HSS and whatever private identity is supplied, and sends no SAR and issues no cache write. -/
theorem get_replies_from_cache (cfg : Config) (xu : XmlUtils) (h : Handler)
    (r : GetIMSSubscription) (now1 : Int) (outcome : DiameterOutcome) (now2 : Int)
    (hkind : h.kind = .ImpuRegData) (hm : h.method = .htp_method_GET) :
    replies (reg_data_flow cfg xu h r now1 outcome now2).2 =
      [(200, xu.build_ClearwaterRegData_xml r.reg_state r.xml)] ∧
    sars_sent (reg_data_flow cfg xu h r now1 outcome now2).2 = [] ∧
    cache_writes (reg_data_flow cfg xu h r now1 outcome now2).2 = [] := by
  simp [reg_data_flow, on_get_ims_subscription_success, hkind, hm, send_reply, sars_sent,
    replies, replies_from, String.join, cache_writes, cache_requests]

theorem get_replies_from_cache_witness :
    replies (reg_data_flow sample_hss_config sample_xml_utils
      ⟨.ImpuRegData, .htp_method_GET, "j@d", "sip:u@d", .UNKNOWN, "", .NOT_REGISTERED⟩
      ⟨"P", 10, .REGISTERED, 10, ["i@d"]⟩ 5 .timeout 6).2 = [(200, "REGISTERED:P")] ∧
    sars_sent (reg_data_flow sample_hss_config sample_xml_utils
      ⟨.ImpuRegData, .htp_method_GET, "j@d", "sip:u@d", .UNKNOWN, "", .NOT_REGISTERED⟩
      ⟨"P", 10, .REGISTERED, 10, ["i@d"]⟩ 5 .timeout 6).2 = [] ∧
    cache_writes (reg_data_flow sample_hss_config sample_xml_utils
      ⟨.ImpuRegData, .htp_method_GET, "j@d", "sip:u@d", .UNKNOWN, "", .NOT_REGISTERED⟩
      ⟨"P", 10, .REGISTERED, 10, ["i@d"]⟩ 5 .timeout 6).2 = [] :=
  get_replies_from_cache sample_hss_config sample_xml_utils
    ⟨.ImpuRegData, .htp_method_GET, "j@d", "sip:u@d", .UNKNOWN, "", .NOT_REGISTERED⟩
    ⟨"P", 10, .REGISTERED, 10, ["i@d"]⟩ 5 .timeout 6 rfl rfl

/-- C15: a read of the subscription that ends with no record is not failed: the request runs as for a record with an empty profile in state NOT_REGISTERED, is never answered 502, and in particular a GET is answered 200 with the wrapped empty profile in state NOT_REGISTERED, a CALL without an HSS is answered 404, and a REG with an HSS sends one SAR of type REGISTRATION. -/
theorem not_found_read_is_not_registered (cfg : Config) (xu : XmlUtils) (h : Handler)
    (now1 : Int) (outcome : DiameterOutcome) (now2 : Int)
    (hkind : h.kind = .ImpuRegData) :
    reg_data_after_read cfg xu h .not_found now1 outcome now2 =
      reg_data_flow cfg xu h ⟨"", 0, .NOT_REGISTERED, 0, []⟩ now1 outcome now2 ∧
    (∀ rp ∈ replies (reg_data_after_read cfg xu h .not_found now1 outcome now2).2,
      rp.1 ≠ 502) ∧
    (h.method = .htp_method_GET →
      replies (reg_data_after_read cfg xu h .not_found now1 outcome now2).2 =
        [(200, xu.build_ClearwaterRegData_xml .NOT_REGISTERED "")]) ∧
    (h.method = .htp_method_PUT → h._type = .CALL → cfg.hss_configured = false →
      replies (reg_data_after_read cfg xu h .not_found now1 outcome now2).2 =
        [(404, "")]) ∧
    (h.method = .htp_method_PUT → h._type = .REG → cfg.hss_configured = true →
      sars_sent (reg_data_after_read cfg xu h .not_found now1 outcome now2).2 =
        [.REGISTRATION]) := by
  refine ⟨rfl, ?_, ?_, ?_, ?_⟩
  · rcases h with ⟨kind, method, impi, impu, type, xml, ns⟩
    simp only at hkind
    subst hkind
    by_cases hm : method = .htp_method_GET <;>
      cases hb : cfg.hss_configured <;> cases type <;>
      by_cases hi : impi = "" <;>
      rcases outcome with saa | _ <;>
      simp [reg_data_after_read, get_subscription_completion, reg_data_flow,
        on_get_ims_subscription_success, on_sar_response, on_diameter_timeout,
        check_binding, put_in_cache, hm, hb, hi,
        is_deregistration_request, is_auth_failure_request,
        send_server_assignment_request, send_reply, sars_sent, replies, replies_from] <;>
      split_ifs <;>
      simp [replies_from]
  · intro hm
    simp [reg_data_after_read, get_subscription_completion, reg_data_flow,
      on_get_ims_subscription_success, hkind, hm, send_reply, sars_sent, replies,
      replies_from, String.join]
  · intro hm ht hb
    simp [reg_data_after_read, get_subscription_completion, reg_data_flow,
      on_get_ims_subscription_success, hm, ht, hb, sars_sent, replies,
      replies_from, String.join]
  · intro hm ht hb
    rw [show reg_data_after_read cfg xu h .not_found now1 outcome now2 =
      reg_data_flow cfg xu h ⟨"", 0, .NOT_REGISTERED, 0, []⟩ now1 outcome now2 from rfl,
      sars_sent_reg_data_flow]
    by_cases hi : h._impi = "" <;>
      simp [on_get_ims_subscription_success, check_binding, hm, ht, hb, hi,
        send_server_assignment_request, sars_sent]

theorem not_found_read_is_not_registered_witness :
    replies (reg_data_after_read sample_hss_config sample_xml_utils
      ⟨.ImpuRegData, .htp_method_GET, "", "sip:u@d", .UNKNOWN, "", .NOT_REGISTERED⟩
      .not_found 5 .timeout 6).2 = [(200, "NOT_REGISTERED:")] ∧
    replies (reg_data_after_read sample_no_hss_config sample_xml_utils (sample_put .CALL)
      .not_found 5 .timeout 6).2 = [(404, "")] ∧
    sars_sent (reg_data_after_read sample_hss_config sample_xml_utils (sample_put .REG)
      .not_found 5 .timeout 6).2 = [.REGISTRATION] :=
  ⟨(not_found_read_is_not_registered sample_hss_config sample_xml_utils
      ⟨.ImpuRegData, .htp_method_GET, "", "sip:u@d", .UNKNOWN, "", .NOT_REGISTERED⟩
      5 .timeout 6 rfl).2.2.1 rfl,
   (not_found_read_is_not_registered sample_no_hss_config sample_xml_utils
      (sample_put .CALL) 5 .timeout 6 rfl).2.2.2.1 rfl rfl rfl,
   (not_found_read_is_not_registered sample_hss_config sample_xml_utils
      (sample_put .REG) 5 .timeout 6 rfl).2.2.2.2 rfl rfl rfl⟩

/-- C16 fails as stated: the PUT with the accepted body of type dereg-user for a subscriber in state UNREGISTERED is answered 400 after the cache read. -/
theorem put_with_valid_body_answered_400 :
    (sample_json_parse "\x7b\"reqtype\":\"dereg-user\"\x7d").IsObject = true ∧
    (sample_json_parse "\x7b\"reqtype\":\"dereg-user\"\x7d").member "reqtype" =
      some (.string "dereg-user") ∧
    (reg_data_request sample_hss_config sample_xml_utils sample_json_parse
      (sample_http_put "\x7b\"reqtype\":\"dereg-user\"\x7d")
      (.found ⟨"P", 100, .UNREGISTERED, 100, ["i@d"]⟩) 5 .timeout 6).map
        (fun res => replies res.2) = some [(400, "")] := by
  decide

/-- C16 as amended: on reg-data a method other than GET or PUT is answered 405, and a PUT is rejected with 400 before any cache or HSS request is issued if and only if its body is not a JSON object with a string member reqtype equal to one of reg, call, dereg-user, dereg-admin, dereg-timeout, dereg-auth-failed, dereg-auth-timeout; in both rejections the reply is the only effect besides the release of the handler; an accepted PUT issues the cache read and gets the request type REG, CALL, DEREG_USER, DEREG_ADMIN, DEREG_TIMEOUT, DEREG_AUTH_FAIL, DEREG_AUTH_TIMEOUT respectively, and these seven types are pairwise distinct. -/
theorem run_polices_method_and_body (cfg : Config) (xu : XmlUtils)
    (json_parse : String → JsonDocument) (req : HttpRequest) (impu : String)
    (read : CacheReadOutcome) (now1 : Int) (outcome : DiameterOutcome) (now2 : Int)
    (hpath : impu_from_path req.full_path = some impu) :
    (req.method ≠ .htp_method_GET → req.method ≠ .htp_method_PUT →
      (reg_data_request cfg xu json_parse req read now1 outcome now2).map
        (fun res => res.2) = some [.send_reply 405, .delete_this]) ∧
    (req.method = .htp_method_PUT →
      ((reg_data_request cfg xu json_parse req read now1 outcome now2).map
          (fun res => res.2) = some [.send_reply 400, .delete_this] ↔
        ¬ ((json_parse req.body).IsObject = true ∧
          ∃ s ∈ ["reg", "call", "dereg-user", "dereg-admin", "dereg-timeout",
            "dereg-auth-failed", "dereg-auth-timeout"],
            (json_parse req.body).member "reqtype" = some (.string s)))) ∧
    (req.method = .htp_method_PUT → (json_parse req.body).IsObject = true →
      ∀ st ∈ [("reg", RequestType.REG), ("call", .CALL), ("dereg-user", .DEREG_USER),
        ("dereg-admin", .DEREG_ADMIN), ("dereg-timeout", .DEREG_TIMEOUT),
        ("dereg-auth-failed", .DEREG_AUTH_FAIL),
        ("dereg-auth-timeout", .DEREG_AUTH_TIMEOUT)],
        (json_parse req.body).member "reqtype" = some (.string st.1) →
        ImpuRegDataHandler.run json_parse req =
          some (⟨.ImpuRegData, .htp_method_PUT, req.private_id, impu, st.2, "",
            .NOT_REGISTERED⟩, [.cache_send (.GetIMSSubscription impu)])) ∧
    [RequestType.REG, .CALL, .DEREG_USER, .DEREG_ADMIN, .DEREG_TIMEOUT, .DEREG_AUTH_FAIL,
      .DEREG_AUTH_TIMEOUT].Nodup := by
  refine ⟨?_, ?_, ?_, by decide⟩
  · intro h1 h2
    simp [reg_data_request, ImpuRegDataHandler.run, hpath, h1, h2]
  · intro hm
    rw [← request_type_from_body_unknown_iff]
    by_cases hu : request_type_from_body json_parse req.body = .UNKNOWN
    · simp [reg_data_request, ImpuRegDataHandler.run, hpath, hm, hu]
    · simp [reg_data_request, ImpuRegDataHandler.run, hpath, hm, hu]
  · intro hm hobj st hst hmem
    have hty := request_type_from_body_string json_parse req.body st.1 hobj hmem
    simp only [List.mem_cons, List.mem_singleton, List.not_mem_nil, or_false] at hst
    rcases hst with rfl | rfl | rfl | rfl | rfl | rfl | rfl <;>
      simp at hty <;>
      simp [ImpuRegDataHandler.run, hpath, hm, hty]

theorem run_polices_method_and_body_witness :
    (reg_data_request sample_hss_config sample_xml_utils sample_json_parse
      (sample_http_put "\x7b\"reqtype\":\"bogus\"\x7d") .not_found 5 .timeout 6).map
        (fun res => res.2) = some [.send_reply 400, .delete_this] ∧
    ImpuRegDataHandler.run sample_json_parse
      (sample_http_put "\x7b\"reqtype\":\"dereg-admin\"\x7d") =
      some (⟨.ImpuRegData, .htp_method_PUT, "i@d", "sip:u@d", .DEREG_ADMIN, "",
        .NOT_REGISTERED⟩, [.cache_send (.GetIMSSubscription "sip:u@d")]) :=
  ⟨((run_polices_method_and_body sample_hss_config sample_xml_utils sample_json_parse
      (sample_http_put "\x7b\"reqtype\":\"bogus\"\x7d") "sip:u@d" .not_found 5 .timeout 6
      (by decide)).2.1 rfl).2 (by decide),
   (run_polices_method_and_body sample_hss_config sample_xml_utils sample_json_parse
      (sample_http_put "\x7b\"reqtype\":\"dereg-admin\"\x7d") "sip:u@d" .not_found 5
      .timeout 6 (by decide)).2.2.1 rfl (by decide) ("dereg-admin", .DEREG_ADMIN)
      (by decide) (by decide)⟩

/-- C17: for every accepted reg-data request (a GET, or a PUT with an accepted body) on the path /impu/<public identity>/<rest>, the public identity holding no slash, run issues exactly one request, the read of the subscription of that public identity, and nothing else, so no SAR and no cache write precedes its completion; every later cache request is a write, so the read is the only one; and when the read fails the request ends with the reply 502 and neither a SAR nor a cache write. -/
theorem read_comes_first (cfg : Config) (xu : XmlUtils)
    (json_parse : String → JsonDocument) (req : HttpRequest) (public_id rest : String)
    (read : CacheReadOutcome) (now1 : Int) (outcome : DiameterOutcome) (now2 : Int)
    (hpath : req.full_path = "/impu/" ++ public_id ++ "/" ++ rest)
    (hid : '/' ∉ public_id.data)
    (hacc : req.method = .htp_method_GET ∨ (req.method = .htp_method_PUT ∧
      request_type_from_body json_parse req.body ≠ .UNKNOWN)) :
    ∃ h0 : Handler,
      h0._impu = public_id ∧
      ImpuRegDataHandler.run json_parse req =
        some (h0, [.cache_send (.GetIMSSubscription public_id)]) ∧
      reg_data_request cfg xu json_parse req read now1 outcome now2 =
        some ((reg_data_after_read cfg xu h0 read now1 outcome now2).1,
          .cache_send (.GetIMSSubscription public_id) ::
            (reg_data_after_read cfg xu h0 read now1 outcome now2).2) ∧
      (∀ c ∈ cache_requests (reg_data_after_read cfg xu h0 read now1 outcome now2).2,
        c.is_write = true) ∧
      (∀ error text, read = .failed error text →
        (reg_data_request cfg xu json_parse req read now1 outcome now2).map
          (fun res => res.2) =
          some [.cache_send (.GetIMSSubscription public_id), .send_reply 502,
            .delete_this]) := by
  have hp : impu_from_path req.full_path = some public_id := by
    rw [hpath]
    exact (impu_from_path_route public_id rest hid).1
  have hw : ∀ h0 : Handler,
      ∀ c ∈ cache_requests (reg_data_after_read cfg xu h0 read now1 outcome now2).2,
        c.is_write = true := by
    intro h0 c hc
    have key : ∀ r : GetIMSSubscription,
        c ∈ cache_requests (reg_data_flow cfg xu h0 r now1 outcome now2).2 →
        c.is_write = true := by
      intro r hr
      rcases reg_data_cache_request_cases cfg xu h0 r now1 outcome now2 c hr with
        ⟨_, rfl⟩ | ⟨_, st, rfl⟩ | ⟨ids, impis, rfl⟩ | ⟨_, saa, h1, _, rfl⟩ <;> rfl
    cases read with
    | found r => exact key r hc
    | not_found => exact key _ hc
    | failed e t =>
      simp [reg_data_after_read, get_subscription_completion,
        on_get_ims_subscription_failure, cache_requests] at hc
  rcases hacc with hm | ⟨hm, hu⟩
  · refine ⟨⟨.ImpuRegData, req.method, req.private_id, public_id, .UNKNOWN, "",
      .NOT_REGISTERED⟩, rfl, ?_, ?_, hw _, ?_⟩
    · simp [ImpuRegDataHandler.run, hp, hm]
    · simp [reg_data_request, ImpuRegDataHandler.run, hp, hm]
    · intro e t hr
      simp [reg_data_request, ImpuRegDataHandler.run, hp, hm, hr, reg_data_after_read,
        get_subscription_completion, on_get_ims_subscription_failure]
  · refine ⟨⟨.ImpuRegData, req.method, req.private_id, public_id,
      request_type_from_body json_parse req.body, "", .NOT_REGISTERED⟩, rfl, ?_, ?_,
      hw _, ?_⟩
    · simp [ImpuRegDataHandler.run, hp, hm, hu]
    · simp [reg_data_request, ImpuRegDataHandler.run, hp, hm, hu]
    · intro e t hr
      simp [reg_data_request, ImpuRegDataHandler.run, hp, hm, hu, hr,
        reg_data_after_read, get_subscription_completion,
        on_get_ims_subscription_failure]

theorem read_comes_first_witness :
    (reg_data_request sample_hss_config sample_xml_utils sample_json_parse
      (sample_http_put "\x7b\"reqtype\":\"reg\"\x7d") (.failed .BACKEND_ERROR "down") 5
      .timeout 6).map (fun res => res.2) =
      some [.cache_send (.GetIMSSubscription "sip:u@d"), .send_reply 502, .delete_this] :=
  (read_comes_first sample_hss_config sample_xml_utils sample_json_parse
    (sample_http_put "\x7b\"reqtype\":\"reg\"\x7d") "sip:u@d" "reg-data"
    (.failed .BACKEND_ERROR "down") 5 .timeout 6 (by decide) (by decide)
    (Or.inr ⟨rfl, by decide⟩)).elim
    (fun _ hw => hw.2.2.2.2 .BACKEND_ERROR "down" rfl)

/-- C18 fails as stated: with an HSS and hss_reregistration_time 1073741824 (2^30), the REG on an identity without a record, answered 2001 with the profile P, writes the subscription with ttl -2147483648, the value of the int product, which is not twice hss_reregistration_time. -/
theorem put_subscription_ttl_wraps :
    put_subscriptions (reg_data_flow sample_long_reregistration_config sample_xml_utils
      (sample_put .REG) ⟨"", 0, .NOT_REGISTERED, 0, []⟩ 5 (.response ⟨2001, "P"⟩) 6).2 =
      [.PutIMSSubscription ["sip:u@d"] "P" .REGISTERED ["i@d"] 6 (-2147483648)] ∧
    (-2147483648 : Int) ≠ 2 * sample_long_reregistration_config.hss_reregistration_time := by
  refine ⟨?_, ?_⟩ <;> decide

/-- C18 as amended: every cache request the reg-data handler issues after its read is a put_subscription, a put_associated_private_id or a delete_public_ids; every put_subscription carries as ttl the int product of 2 and hss_reregistration_time when an HSS is configured and ttl 0 when it is not, and every put_associated_private_id carries the same int product (and is issued only with an HSS); delete_public_ids carries no ttl, so no write uses another ttl; the int product is twice hss_reregistration_time whenever hss_reregistration_time is at least -2^30 and below 2^30, and its 32-bit wrap otherwise. -/
theorem ttl_policy (cfg : Config) (xu : XmlUtils) (h : Handler)
    (r : GetIMSSubscription) (now1 : Int) (outcome : DiameterOutcome) (now2 : Int) :
    ∀ c ∈ cache_requests (reg_data_flow cfg xu h r now1 outcome now2).2,
      (c.is_put_subscription = true ∨ c.is_put_associated_private_id = true ∨
        c.is_delete_public_ids = true) ∧
      (∀ ids xml st impis ts ttl, c = .PutIMSSubscription ids xml st impis ts ttl →
        ttl = (if cfg.hss_configured = true
          then int_wrap (2 * cfg.hss_reregistration_time) else 0) ∧
        (-1073741824 ≤ cfg.hss_reregistration_time →
          cfg.hss_reregistration_time < 1073741824 →
          ttl = if cfg.hss_configured = true then 2 * cfg.hss_reregistration_time
            else 0)) ∧
      (∀ ids impi ts ttl, c = .PutAssociatedPrivateID ids impi ts ttl →
        cfg.hss_configured = true ∧
        ttl = int_wrap (2 * cfg.hss_reregistration_time) ∧
        (-1073741824 ≤ cfg.hss_reregistration_time →
          cfg.hss_reregistration_time < 1073741824 →
          ttl = 2 * cfg.hss_reregistration_time)) := by
  intro c hc
  rcases reg_data_cache_request_cases cfg xu h r now1 outcome now2 c hc with
    ⟨hb, rfl⟩ | ⟨hb, st, rfl⟩ | ⟨ids, impis, rfl⟩ | ⟨hb, saa, h1, _, rfl⟩
  · refine ⟨Or.inr (Or.inl rfl), ?_, ?_⟩
    · intro _ _ _ _ _ _ hh
      cases hh
    · intro _ _ _ ttl hh
      injection hh with _ _ _ httl
      exact ⟨hb, httl.symm, fun hlo hhi => by
        rw [← httl, int_wrap_twice _ hlo hhi]⟩
  · refine ⟨Or.inl rfl, ?_, ?_⟩
    · intro _ _ _ _ _ ttl hh
      injection hh with _ _ _ _ _ httl
      simp [hb, ← httl]
    · intro _ _ _ _ hh
      cases hh
  · refine ⟨Or.inr (Or.inr rfl), ?_, ?_⟩
    · intro _ _ _ _ _ _ hh
      cases hh
    · intro _ _ _ _ hh
      cases hh
  · refine ⟨Or.inl rfl, ?_, ?_⟩
    · intro _ _ _ _ _ ttl hh
      injection hh with _ _ _ _ _ httl
      refine ⟨by simp [hb, ← httl], fun hlo hhi => ?_⟩
      rw [← httl, int_wrap_twice _ hlo hhi]
      simp [hb]
    · intro _ _ _ _ hh
      cases hh

theorem ttl_policy_witness :
    CacheRequest.PutIMSSubscription ["sip:u@d"] "P" .REGISTERED ["i@d"] 6 7200 ∈
      cache_requests (reg_data_flow sample_hss_config sample_xml_utils (sample_put .REG)
        ⟨"", 0, .NOT_REGISTERED, 0, []⟩ 5 (.response ⟨2001, "P"⟩) 6).2 ∧
    (7200 : Int) = if sample_hss_config.hss_configured = true
      then 2 * sample_hss_config.hss_reregistration_time else 0 :=
  ⟨by decide,
   ((ttl_policy sample_hss_config sample_xml_utils (sample_put .REG)
    ⟨"", 0, .NOT_REGISTERED, 0, []⟩ 5 (.response ⟨2001, "P"⟩) 6
    (.PutIMSSubscription ["sip:u@d"] "P" .REGISTERED ["i@d"] 6 7200) (by decide)).2.1
    ["sip:u@d"] "P" .REGISTERED ["i@d"] 6 7200 rfl).2 (by decide) (by decide)⟩

/-- C19 fails as stated: without an HSS, a REG on a record in state UNREGISTERED issues put_subscription with state REGISTERED and an empty list of associated private identities. -/
theorem registered_written_without_private_ids :
    put_subscriptions (reg_data_flow sample_no_hss_config sample_xml_utils (sample_put .REG)
      ⟨"P", 0, .UNREGISTERED, 0, []⟩ 5 .timeout 6).2 =
      [.PutIMSSubscription ["sip:u@d"] "P" .REGISTERED [] 5 0] := by
  decide

/-- C19 as amended: with an HSS, each put_subscription issued with state REGISTERED carries a non-empty list of associated private identities exactly when the private identity of the request (the one supplied, or else the hint of the cached profile) or the hint of the profile being written is non-empty, and the list contains the private identity supplied with the request whenever there is one; without an HSS every put_subscription carries an empty list. -/
theorem registered_record_private_ids (cfg : Config) (xu : XmlUtils) (h : Handler)
    (r : GetIMSSubscription) (now1 : Int) (outcome : DiameterOutcome) (now2 : Int)
    (ids : List String) (xml : String) (impis : List String) (ts ttl : Int)
    (hput : CacheRequest.PutIMSSubscription ids xml .REGISTERED impis ts ttl ∈
      cache_requests (reg_data_flow cfg xu h r now1 outcome now2).2) :
    (cfg.hss_configured = true →
      (impis ≠ [] ↔
        ((check_binding xu h._impi r.xml r.associated_impis).1 ≠ "" ∨
          xu.get_private_id xml ≠ "")) ∧
      (h._impi ≠ "" → h._impi ∈ impis)) ∧
    (cfg.hss_configured = false → impis = []) := by
  rcases reg_data_cache_request_cases cfg xu h r now1 outcome now2 _ hput with
    ⟨hb, hc⟩ | ⟨hb, st, hc⟩ | ⟨ids2, impis2, hc⟩ | ⟨hb, saa, h1, hi, hc⟩
  · exact absurd hc (by simp)
  · simp only [CacheRequest.PutIMSSubscription.injEq] at hc
    simp [hb, hc.2.2.2.1]
  · exact absurd hc (by simp)
  · simp only [CacheRequest.PutIMSSubscription.injEq] at hc
    obtain ⟨_, hxml, _, himpis, _, _⟩ := hc
    have hg := get_associated_private_ids_ne_nil xu { h1 with _xml := saa.user_data }
    simp only at hg
    subst hxml himpis
    refine ⟨fun _ => ⟨?_, fun hne => ?_⟩, fun hf => ?_⟩
    · rw [← hi]
      exact hg.1
    · have he : h1._impi = h._impi :=
        hi.trans (check_binding_of_impi xu h._impi r.xml r.associated_impis hne)
      rw [← he]
      exact hg.2 (he ▸ hne)
    · rw [hb] at hf
      exact absurd hf (by simp)

theorem registered_record_private_ids_witness :
    CacheRequest.PutIMSSubscription ["sip:u@d"] "P" .REGISTERED ["i@d"] 6 7200 ∈
      cache_requests (reg_data_flow sample_hss_config sample_xml_utils (sample_put .REG)
        ⟨"", 0, .NOT_REGISTERED, 0, []⟩ 5 (.response ⟨2001, "P"⟩) 6).2 ∧
    (sample_put .REG)._impi ∈ ["i@d"] :=
  ⟨by decide,
   ((registered_record_private_ids sample_hss_config sample_xml_utils (sample_put .REG)
    ⟨"", 0, .NOT_REGISTERED, 0, []⟩ 5 (.response ⟨2001, "P"⟩) 6
    ["sip:u@d"] "P" ["i@d"] 6 7200 (by decide)).1 rfl).2 (by decide)⟩

/-- C20 fails as stated: with an HSS, a REG on the identity sip:v@d, which has no cached record, completes with 2001 and the profile P whose only public identity is sip:u@d; the profile is stored under sip:u@d, the store still has no record for sip:v@d, and a following GET on sip:v@d is answered with the empty profile in state NOT_REGISTERED. -/
theorem reg_success_not_stored_for_requested_identity :
    (empty_store.after (reg_data_after_read sample_hss_config sample_xml_utils
      ⟨.ImpuRegData, .htp_method_PUT, "i@d", "sip:v@d", .REG, "", .NOT_REGISTERED⟩
      (empty_store.get_subscription "sip:v@d") 5 (.response ⟨2001, "P"⟩) 6).2)
      "sip:v@d" = none ∧
    replies (reg_data_after_read sample_hss_config sample_xml_utils
      ⟨.ImpuRegData, .htp_method_GET, "", "sip:v@d", .UNKNOWN, "", .NOT_REGISTERED⟩
      ((empty_store.after (reg_data_after_read sample_hss_config sample_xml_utils
        ⟨.ImpuRegData, .htp_method_PUT, "i@d", "sip:v@d", .REG, "", .NOT_REGISTERED⟩
        (empty_store.get_subscription "sip:v@d") 5 (.response ⟨2001, "P"⟩) 6).2
        ).get_subscription "sip:v@d") 7 .timeout 8).2 = [(200, "NOT_REGISTERED:")] := by
  decide

/-- C20 as amended: in HSS mode, for a PUT of type REG on a public identity p that has no cached record, when the Server-Assignment exchange completes with 2001 and user data P: if p is among the public identities of P, the store afterwards holds for p a record with profile P in state REGISTERED, and a following GET on p is answered 200 with the wrapped profile P in state REGISTERED; if p is not among the public identities of P (in particular when P yields none), no record is written for p: the store still holds none for p and a following GET on p is answered 200 with the wrapped empty profile in state NOT_REGISTERED. -/
theorem reg_success_then_get (cfg : Config) (xu : XmlUtils) (h g : Handler)
    (store : CacheStore) (P : String) (now1 now2 now3 now4 : Int)
    (outcome : DiameterOutcome)
    (hhss : cfg.hss_configured = true)
    (hm : h.method = .htp_method_PUT) (ht : h._type = .REG)
    (hfresh : store h._impu = none)
    (hgk : g.kind = .ImpuRegData) (hgm : g.method = .htp_method_GET)
    (hgi : g._impu = h._impu) :
    (h._impu ∈ xu.get_public_ids P →
      (∃ impis ttl,
        (store.after (reg_data_after_read cfg xu h (store.get_subscription h._impu) now1
          (.response ⟨2001, P⟩) now2).2) h._impu = some ⟨P, .REGISTERED, impis, ttl⟩) ∧
      replies (reg_data_after_read cfg xu g
        ((store.after (reg_data_after_read cfg xu h (store.get_subscription h._impu) now1
          (.response ⟨2001, P⟩) now2).2).get_subscription g._impu) now3 outcome
          now4).2 =
        [(200, xu.build_ClearwaterRegData_xml .REGISTERED P)]) ∧
    (h._impu ∉ xu.get_public_ids P →
      (store.after (reg_data_after_read cfg xu h (store.get_subscription h._impu) now1
        (.response ⟨2001, P⟩) now2).2) h._impu = none ∧
      (∀ c ∈ cache_requests (reg_data_after_read cfg xu h
          (store.get_subscription h._impu) now1 (.response ⟨2001, P⟩) now2).2,
        ∀ ids xml st impis ts ttl, c = .PutIMSSubscription ids xml st impis ts ttl →
          h._impu ∉ ids) ∧
      replies (reg_data_after_read cfg xu g
        ((store.after (reg_data_after_read cfg xu h (store.get_subscription h._impu) now1
          (.response ⟨2001, P⟩) now2).2).get_subscription g._impu) now3 outcome
          now4).2 =
        [(200, xu.build_ClearwaterRegData_xml .NOT_REGISTERED "")]) := by
  refine ⟨?_, ?_⟩
  · intro hp
    have hne : xu.get_public_ids P ≠ [] := by
      intro h0
      rw [h0] at hp
      exact absurd hp (List.not_mem_nil _)
    have hstore : ∃ impis ttl,
        (store.after (reg_data_after_read cfg xu h (store.get_subscription h._impu) now1
          (.response ⟨2001, P⟩) now2).2) h._impu =
          some ⟨P, .REGISTERED, impis, ttl⟩ := by
      by_cases hi : h._impi = "" <;>
        simp [CacheStore.after, CacheStore.get_subscription, hfresh, reg_data_after_read,
          get_subscription_completion, reg_data_flow, on_get_ims_subscription_success,
          on_sar_response, put_in_cache, check_binding, hhss, hm, ht, hi, hne, hp,
          is_deregistration_request, is_auth_failure_request,
          send_server_assignment_request, sars_sent, cache_requests, CacheStore.apply]
    refine ⟨hstore, ?_⟩
    obtain ⟨impis, ttl, hs⟩ := hstore
    rw [hgi]
    have key : ∀ S : CacheStore, S h._impu = some ⟨P, .REGISTERED, impis, ttl⟩ →
        replies (reg_data_after_read cfg xu g (S.get_subscription h._impu) now3 outcome
          now4).2 = [(200, xu.build_ClearwaterRegData_xml .REGISTERED P)] := by
      intro S hS
      simp only [CacheStore.get_subscription, hS, reg_data_after_read,
        get_subscription_completion]
      exact get_replies_from_cache_aux cfg xu g _ now3 outcome now4 hgk hgm
    exact key _ hs
  · intro hp
    have hstore :
        (store.after (reg_data_after_read cfg xu h (store.get_subscription h._impu) now1
          (.response ⟨2001, P⟩) now2).2) h._impu = none := by
      by_cases hi : h._impi = "" <;> by_cases hne : xu.get_public_ids P = [] <;>
        simp [CacheStore.after, CacheStore.get_subscription, hfresh, reg_data_after_read,
          get_subscription_completion, reg_data_flow, on_get_ims_subscription_success,
          on_sar_response, put_in_cache, check_binding, hhss, hm, ht, hi, hne, hp,
          is_deregistration_request, is_auth_failure_request,
          send_server_assignment_request, sars_sent, cache_requests, CacheStore.apply]
    refine ⟨hstore, ?_, ?_⟩
    · by_cases hi : h._impi = "" <;> by_cases hne : xu.get_public_ids P = [] <;>
        simp [CacheStore.get_subscription, hfresh, reg_data_after_read,
          get_subscription_completion, reg_data_flow, on_get_ims_subscription_success,
          on_sar_response, put_in_cache, check_binding, hhss, hm, ht, hi, hne, hp,
          is_deregistration_request, is_auth_failure_request,
          send_server_assignment_request, sars_sent, cache_requests]
      all_goals
        intro ids xml st impis ts ttl e _ _ _ _ _
        rw [← e]
        exact hp
    · rw [hgi]
      have key : ∀ S : CacheStore, S h._impu = none →
          replies (reg_data_after_read cfg xu g (S.get_subscription h._impu) now3 outcome
            now4).2 = [(200, xu.build_ClearwaterRegData_xml .NOT_REGISTERED "")] := by
        intro S hS
        simp only [CacheStore.get_subscription, hS, reg_data_after_read,
          get_subscription_completion]
        exact get_replies_from_cache_aux cfg xu g _ now3 outcome now4 hgk hgm
      exact key _ hstore

theorem reg_success_then_get_witness :
    ((empty_store.after (reg_data_after_read sample_hss_config sample_xml_utils
      (sample_put .REG) (empty_store.get_subscription (sample_put .REG)._impu) 5
      (.response ⟨2001, "P"⟩) 6).2) (sample_put .REG)._impu =
      some ⟨"P", .REGISTERED, ["i@d"], 7200⟩ ∧
    replies (reg_data_after_read sample_hss_config sample_xml_utils
      ⟨.ImpuRegData, .htp_method_GET, "", "sip:u@d", .UNKNOWN, "", .NOT_REGISTERED⟩
      ((empty_store.after (reg_data_after_read sample_hss_config sample_xml_utils
        (sample_put .REG) (empty_store.get_subscription (sample_put .REG)._impu) 5
        (.response ⟨2001, "P"⟩) 6).2).get_subscription "sip:u@d") 7 .timeout 8).2 =
      [(200, "REGISTERED:P")]) ∧
    (empty_store.after (reg_data_after_read sample_hss_config sample_xml_utils
      (sample_put .REG) (empty_store.get_subscription (sample_put .REG)._impu) 5
      (.response ⟨2001, "Q"⟩) 6).2) (sample_put .REG)._impu = none :=
  ⟨⟨by decide,
    ((reg_success_then_get sample_hss_config sample_xml_utils (sample_put .REG)
      ⟨.ImpuRegData, .htp_method_GET, "", "sip:u@d", .UNKNOWN, "", .NOT_REGISTERED⟩
      empty_store "P" 5 6 7 8 .timeout rfl rfl rfl rfl rfl rfl rfl).1 (by decide)).2⟩,
   ((reg_success_then_get sample_hss_config sample_xml_utils (sample_put .REG)
      ⟨.ImpuRegData, .htp_method_GET, "", "sip:u@d", .UNKNOWN, "", .NOT_REGISTERED⟩
      empty_store "Q" 5 6 7 8 .timeout rfl rfl rfl rfl rfl rfl rfl).2 (by decide)).1⟩

/-- C21 fails as stated: with an HSS, a DEREG_USER on sip:u@d, whose record is in state REGISTERED with a profile that yields no public identity, sends the SAR and gets the answer 2001, but no delete_public_ids is issued, the record stays, and a following GET on sip:u@d is answered in state REGISTERED. -/
theorem dereg_success_record_kept :
    sars_sent (reg_data_after_read sample_hss_config sample_xml_utils
      (sample_put .DEREG_USER) (sample_store_broken.get_subscription "sip:u@d") 5
      (.response ⟨2001, ""⟩) 6).2 = [.USER_DEREGISTRATION] ∧
    delete_public_ids (reg_data_after_read sample_hss_config sample_xml_utils
      (sample_put .DEREG_USER) (sample_store_broken.get_subscription "sip:u@d") 5
      (.response ⟨2001, ""⟩) 6).2 = [] ∧
    replies (reg_data_after_read sample_hss_config sample_xml_utils
      ⟨.ImpuRegData, .htp_method_GET, "", "sip:u@d", .UNKNOWN, "", .NOT_REGISTERED⟩
      ((sample_store_broken.after (reg_data_after_read sample_hss_config sample_xml_utils
        (sample_put .DEREG_USER) (sample_store_broken.get_subscription "sip:u@d") 5
        (.response ⟨2001, ""⟩) 6).2).get_subscription "sip:u@d") 7 .timeout 8).2 =
      [(200, "REGISTERED:<broken")] := by
  decide

/-- C21 as amended: in HSS mode, for a PUT of type DEREG_USER on a public identity p whose record is in state REGISTERED (so that the SAR is sent) and whose Server-Assignment exchange completes with an answer, 2001 in particular: if p is among the public identities of the cached profile then delete_public_ids is issued with these identities, the record of p is removed from the store, and a following GET on p is answered 200 with the wrapped empty profile in state NOT_REGISTERED on reg-data and 404 on the deprecated endpoint, never in state REGISTERED; if p is not among them the record of p stays as it was and a following GET on reg-data is answered in state REGISTERED, and when the cached profile yields no public identity no delete_public_ids is issued at all. -/
theorem dereg_success_then_get (cfg : Config) (xu : XmlUtils) (h g : Handler)
    (store : CacheStore) (record : SubscriptionRecord)
    (saa : ServerAssignmentAnswer) (now1 now2 now3 now4 : Int) (outcome : DiameterOutcome)
    (hhss : cfg.hss_configured = true)
    (hm : h.method = .htp_method_PUT) (ht : h._type = .DEREG_USER)
    (hrec : store h._impu = some record)
    (hreg : record.registration_state = .REGISTERED)
    (hgm : g.method = .htp_method_GET) (hgi : g._impu = h._impu) :
    (h._impu ∈ xu.get_public_ids record.profile_document →
      (∃ impis, delete_public_ids (reg_data_after_read cfg xu h
          (store.get_subscription h._impu) now1 (.response saa) now2).2 =
          [.DeletePublicIDs (xu.get_public_ids record.profile_document) impis now2]) ∧
      (store.after (reg_data_after_read cfg xu h (store.get_subscription h._impu) now1
        (.response saa) now2).2) h._impu = none ∧
      replies (reg_data_after_read cfg xu g
        ((store.after (reg_data_after_read cfg xu h (store.get_subscription h._impu) now1
          (.response saa) now2).2).get_subscription g._impu) now3 outcome now4).2 =
        (match g.kind with
          | .ImpuRegData => [(200, xu.build_ClearwaterRegData_xml .NOT_REGISTERED "")]
          | .ImpuIMSSubscription => [(404, "")])) ∧
    (h._impu ∉ xu.get_public_ids record.profile_document →
      (store.after (reg_data_after_read cfg xu h (store.get_subscription h._impu) now1
        (.response saa) now2).2) h._impu = some record ∧
      (g.kind = .ImpuRegData →
        replies (reg_data_after_read cfg xu g
          ((store.after (reg_data_after_read cfg xu h (store.get_subscription h._impu)
            now1 (.response saa) now2).2).get_subscription g._impu) now3 outcome
            now4).2 =
          [(200, xu.build_ClearwaterRegData_xml .REGISTERED record.profile_document)])) ∧
    (xu.get_public_ids record.profile_document = [] →
      delete_public_ids (reg_data_after_read cfg xu h
        (store.get_subscription h._impu) now1 (.response saa) now2).2 = []) := by
  refine ⟨?_, ?_, ?_⟩
  · intro hp
    have hne : xu.get_public_ids record.profile_document ≠ [] := by
      intro h0
      rw [h0] at hp
      exact absurd hp (List.not_mem_nil _)
    have hdel : ∃ impis, delete_public_ids (reg_data_after_read cfg xu h
          (store.get_subscription h._impu) now1 (.response saa) now2).2 =
          [.DeletePublicIDs (xu.get_public_ids record.profile_document) impis now2] := by
      refine ⟨get_associated_private_ids xu
        ⟨h.kind, h.method, (check_binding xu h._impi record.profile_document
          record.associated_private_ids).1, h._impu, h._type, record.profile_document,
          .NOT_REGISTERED⟩, ?_⟩
      cases hnb : (check_binding xu h._impi record.profile_document
          record.associated_private_ids).2 <;>
        by_cases h1 : saa.result_code = 2001 <;>
        by_cases h2 : saa.result_code = 5001 <;>
        simp [CacheStore.get_subscription, hrec, reg_data_after_read,
          get_subscription_completion, reg_data_flow, on_get_ims_subscription_success,
          on_sar_response, hhss, hm, ht, hreg, hnb, hne, h1, h2,
          is_deregistration_request, is_auth_failure_request,
          send_server_assignment_request, sars_sent, cache_requests, delete_public_ids,
          CacheRequest.is_delete_public_ids]
    have hstore : (store.after (reg_data_after_read cfg xu h
        (store.get_subscription h._impu) now1 (.response saa) now2).2) h._impu =
        none := by
      cases hnb : (check_binding xu h._impi record.profile_document
          record.associated_private_ids).2 <;>
        by_cases h1 : saa.result_code = 2001 <;>
        by_cases h2 : saa.result_code = 5001 <;>
        simp [CacheStore.after, CacheStore.get_subscription, hrec, reg_data_after_read,
          get_subscription_completion, reg_data_flow, on_get_ims_subscription_success,
          on_sar_response, hhss, hm, ht, hreg, hnb, hne, hp, h1, h2,
          is_deregistration_request, is_auth_failure_request,
          send_server_assignment_request, sars_sent, cache_requests, CacheStore.apply]
    refine ⟨hdel, hstore, ?_⟩
    rw [hgi]
    have key : ∀ S : CacheStore, S h._impu = none →
        replies (reg_data_after_read cfg xu g (S.get_subscription h._impu) now3 outcome
          now4).2 =
        (match g.kind with
          | .ImpuRegData => [(200, xu.build_ClearwaterRegData_xml .NOT_REGISTERED "")]
          | .ImpuIMSSubscription => [(404, "")]) := by
      intro S hS
      cases hk : g.kind <;>
        simp [CacheStore.get_subscription, hS, reg_data_after_read,
          get_subscription_completion, reg_data_flow, on_get_ims_subscription_success,
          hgm, hk, send_reply, sars_sent, replies, replies_from, String.join]
    exact key _ hstore
  · intro hp
    have hstore : (store.after (reg_data_after_read cfg xu h
        (store.get_subscription h._impu) now1 (.response saa) now2).2) h._impu =
        some record := by
      cases hnb : (check_binding xu h._impi record.profile_document
          record.associated_private_ids).2 <;>
        by_cases hne : xu.get_public_ids record.profile_document = [] <;>
        by_cases h1 : saa.result_code = 2001 <;>
        by_cases h2 : saa.result_code = 5001 <;>
        simp [CacheStore.after, CacheStore.get_subscription, hrec, reg_data_after_read,
          get_subscription_completion, reg_data_flow, on_get_ims_subscription_success,
          on_sar_response, hhss, hm, ht, hreg, hnb, hne, hp, h1, h2,
          is_deregistration_request, is_auth_failure_request,
          send_server_assignment_request, sars_sent, cache_requests, CacheStore.apply]
    refine ⟨hstore, ?_⟩
    intro hgk
    rw [hgi]
    have key : ∀ S : CacheStore, S h._impu = some record →
        replies (reg_data_after_read cfg xu g (S.get_subscription h._impu) now3 outcome
          now4).2 =
        [(200, xu.build_ClearwaterRegData_xml .REGISTERED record.profile_document)] := by
      intro S hS
      simp only [CacheStore.get_subscription, hS, reg_data_after_read,
        get_subscription_completion]
      rw [get_replies_from_cache_aux cfg xu g _ now3 outcome now4 hgk hgm, hreg]
    exact key _ hstore
  · intro hne
    cases hnb : (check_binding xu h._impi record.profile_document
        record.associated_private_ids).2 <;>
      by_cases h1 : saa.result_code = 2001 <;>
      by_cases h2 : saa.result_code = 5001 <;>
      simp [CacheStore.get_subscription, hrec, reg_data_after_read,
        get_subscription_completion, reg_data_flow, on_get_ims_subscription_success,
        on_sar_response, hhss, hm, ht, hreg, hnb, hne, h1, h2,
        is_deregistration_request, is_auth_failure_request,
        send_server_assignment_request, sars_sent, cache_requests, delete_public_ids,
        CacheRequest.is_delete_public_ids]

theorem dereg_success_then_get_witness :
    ((sample_store_registered.after (reg_data_after_read sample_hss_config
      sample_xml_utils (sample_put .DEREG_USER)
      (sample_store_registered.get_subscription (sample_put .DEREG_USER)._impu) 5
      (.response ⟨2001, ""⟩) 6).2) (sample_put .DEREG_USER)._impu = none ∧
    replies (reg_data_after_read sample_hss_config sample_xml_utils
      ⟨.ImpuRegData, .htp_method_GET, "", "sip:u@d", .UNKNOWN, "", .NOT_REGISTERED⟩
      ((sample_store_registered.after (reg_data_after_read sample_hss_config
        sample_xml_utils (sample_put .DEREG_USER)
        (sample_store_registered.get_subscription (sample_put .DEREG_USER)._impu) 5
        (.response ⟨2001, ""⟩) 6).2).get_subscription "sip:u@d") 7 .timeout 8).2 =
      [(200, "NOT_REGISTERED:")]) ∧
    (sample_store_broken.after (reg_data_after_read sample_hss_config
      sample_xml_utils (sample_put .DEREG_USER)
      (sample_store_broken.get_subscription (sample_put .DEREG_USER)._impu) 5
      (.response ⟨2001, ""⟩) 6).2) (sample_put .DEREG_USER)._impu =
      some ⟨"<broken", .REGISTERED, ["i@d"], 7200⟩ :=
  ⟨((dereg_success_then_get sample_hss_config sample_xml_utils (sample_put .DEREG_USER)
      ⟨.ImpuRegData, .htp_method_GET, "", "sip:u@d", .UNKNOWN, "", .NOT_REGISTERED⟩
      sample_store_registered ⟨"P", .REGISTERED, ["i@d"], 7200⟩ ⟨2001, ""⟩ 5 6 7 8
      .timeout rfl rfl rfl rfl rfl rfl rfl).1 (by decide)).2,
   ((dereg_success_then_get sample_hss_config sample_xml_utils (sample_put .DEREG_USER)
      ⟨.ImpuRegData, .htp_method_GET, "", "sip:u@d", .UNKNOWN, "", .NOT_REGISTERED⟩
      sample_store_broken ⟨"<broken", .REGISTERED, ["i@d"], 7200⟩ ⟨2001, ""⟩ 5 6 7 8
      .timeout rfl rfl rfl rfl rfl rfl rfl).2.1 (by decide)).1⟩

/-- C22: every request to the ping handler, a credential handler (digest or av), the reg-data handler or the deprecated subscription handler, with every choice of cache completions and Diameter outcomes, sends exactly one HTTP reply and releases its handler exactly once, as its last effect; a reg-data handler that run hands to the cache callback is a GET, which returns before the state machine, or has one of the types REG, CALL, DEREG_USER, DEREG_ADMIN, DEREG_TIMEOUT, DEREG_AUTH_FAIL, DEREG_AUTH_TIMEOUT, and a deprecated one has type CALL or REG, so the default arms, which release without a reply, are never taken. -/
theorem every_request_replies_once (cfg : Config) (xu : XmlUtils)
    (json_parse : String → JsonDocument) (GetString : List WriterCall → String) :
    replied_and_released_once PingHandler.run ∧
    (∀ kind req av_done impu_done mar_done now res,
      impi_request cfg GetString kind req av_done impu_done mar_done now = some res →
      replied_and_released_once res.2) ∧
    (∀ req read now1 outcome now2 res,
      reg_data_request cfg xu json_parse req read now1 outcome now2 = some res →
      replied_and_released_once res.2) ∧
    (∀ req read now1 outcome now2 res,
      impu_subscription_request cfg xu req read now1 outcome now2 = some res →
      replied_and_released_once res.2) ∧
    (∀ req h0 es, ImpuRegDataHandler.run json_parse req = some (h0, es) →
      Effect.delete_this ∉ es →
      h0.method = .htp_method_GET ∨
      h0._type ∈ [RequestType.REG, .CALL, .DEREG_USER, .DEREG_ADMIN, .DEREG_TIMEOUT,
        .DEREG_AUTH_FAIL, .DEREG_AUTH_TIMEOUT]) ∧
    (∀ req h0 es, ImpuIMSSubscriptionHandler.run req = some (h0, es) →
      h0._type = .CALL ∨ h0._type = .REG) := by
  have hafter : ∀ (h : Handler) (read : CacheReadOutcome) (now1 : Int)
      (outcome : DiameterOutcome) (now2 : Int) (c : CacheRequest),
      (h.method = .htp_method_GET ∨ h._type ≠ .UNKNOWN) →
      replied_and_released_once
        (.cache_send c :: (reg_data_after_read cfg xu h read now1 outcome now2).2) := by
    intro h read now1 outcome now2 c ht
    have key : replied_and_released_once
        (reg_data_after_read cfg xu h read now1 outcome now2).2 := by
      cases read with
      | found r => exact single_reply_flow cfg xu h r now1 outcome now2 ht
      | not_found => exact single_reply_flow cfg xu h _ now1 outcome now2 ht
      | failed e t =>
        simp [reg_data_after_read, get_subscription_completion,
          on_get_ims_subscription_failure, replied_and_released_once, replies,
          replies_from, releases]
    exact ⟨by simpa [replies, replies_from] using key.1,
      by simpa [releases] using key.2.1, last_of_cons _ _ _ key.2.2⟩
  refine ⟨by decide, ?_, ?_, ?_, ?_, ?_⟩
  · intro kind req av_done impu_done mar_done now res hres
    cases hparse : ImpiHandler.parse_request cfg kind req with
    | none => simp [impi_request, ImpiHandler.run, hparse] at hres
    | some p =>
      exact impi_parsed_once cfg GetString kind req p.1 p.2 av_done impu_done mar_done
        now hparse res hres
  · intro req read now1 outcome now2 res hres
    cases hp : impu_from_path req.full_path with
    | none => simp [reg_data_request, ImpuRegDataHandler.run, hp] at hres
    | some impu =>
      by_cases hput : req.method = .htp_method_PUT
      · by_cases hu : request_type_from_body json_parse req.body = .UNKNOWN
        · simp [reg_data_request, ImpuRegDataHandler.run, hp, hput, hu] at hres
          rw [← hres]
          simp [replied_and_released_once, replies, replies_from, releases]
        · simp [reg_data_request, ImpuRegDataHandler.run, hp, hput, hu] at hres
          rw [← hres]
          exact hafter _ read now1 outcome now2 _ (Or.inr hu)
      · by_cases hget : req.method = .htp_method_GET
        · simp [reg_data_request, ImpuRegDataHandler.run, hp, hget] at hres
          rw [← hres]
          exact hafter _ read now1 outcome now2 _ (Or.inl rfl)
        · simp [reg_data_request, ImpuRegDataHandler.run, hp, hput, hget] at hres
          rw [← hres]
          simp [replied_and_released_once, replies, replies_from, releases]
  · intro req read now1 outcome now2 res hres
    cases hp : impu_from_deprecated_path req.full_path with
    | none => simp [impu_subscription_request, ImpuIMSSubscriptionHandler.run, hp] at hres
    | some impu =>
      simp [impu_subscription_request, ImpuIMSSubscriptionHandler.run, hp] at hres
      rw [← hres]
      refine hafter _ read now1 outcome now2 _ (Or.inr ?_)
      simp only
      split_ifs <;> simp
  · intro req h0 es hrun hrel
    cases hp : impu_from_path req.full_path with
    | none => simp [ImpuRegDataHandler.run, hp] at hrun
    | some impu =>
      by_cases hput : req.method = .htp_method_PUT
      · by_cases hu : request_type_from_body json_parse req.body = .UNKNOWN
        · simp [ImpuRegDataHandler.run, hp, hput, hu] at hrun
          rw [← hrun.2] at hrel
          simp at hrel
        · simp [ImpuRegDataHandler.run, hp, hput, hu] at hrun
          rw [← hrun.1]
          right
          simp only
          cases hty : request_type_from_body json_parse req.body <;> simp_all
      · by_cases hget : req.method = .htp_method_GET
        · simp [ImpuRegDataHandler.run, hp, hget] at hrun
          rw [← hrun.1]
          exact Or.inl rfl
        · simp [ImpuRegDataHandler.run, hp, hput, hget] at hrun
          rw [← hrun.2] at hrel
          simp at hrel
  · intro req h0 es hrun
    cases hp : impu_from_deprecated_path req.full_path with
    | none => simp [ImpuIMSSubscriptionHandler.run, hp] at hrun
    | some impu =>
      simp [ImpuIMSSubscriptionHandler.run, hp] at hrun
      rw [← hrun.1]
      simp only
      split_ifs <;> simp

theorem every_request_replies_once_witness :
    replied_and_released_once
      [.cache_send (.GetIMSSubscription "sip:u@d"),
        .sar_send "i@d" "sip:u@d" .REGISTRATION,
        .cache_send (.PutIMSSubscription ["sip:u@d"] "P" .REGISTERED ["i@d"] 6 7200),
        .add_content "REGISTERED:P", .send_reply 200, .delete_this] :=
  (every_request_replies_once sample_hss_config sample_xml_utils sample_json_parse
    sample_GetString).2.2.1 (sample_http_put "\x7b\"reqtype\":\"reg\"\x7d") .not_found 5
    (.response ⟨2001, "P"⟩) 6
    (⟨.ImpuRegData, .htp_method_PUT, "i@d", "sip:u@d", .REG, "P", .REGISTERED⟩,
      [.cache_send (.GetIMSSubscription "sip:u@d"),
        .sar_send "i@d" "sip:u@d" .REGISTRATION,
        .cache_send (.PutIMSSubscription ["sip:u@d"] "P" .REGISTERED ["i@d"] 6 7200),
        .add_content "REGISTERED:P", .send_reply 200, .delete_this]) rfl

/-- C23 fails as stated: with query_cache_av set, the GET on /impi/i@d/digest whose cached vector has the ha1 a, NUL, b is answered 200 with the body written for the ha1 a: the member digest_HA1 holds a, not the ha1 of the vector. -/
theorem cached_digest_ha1_cut_at_nul :
    (impi_request sample_cache_av_config sample_tagged_GetString .ImpiDigest
      (sample_impi_request "digest" "sip:u@d" "") (.success ⟨"a\x00b", "r", ""⟩)
      (.success []) .timeout 5).map (fun res => replies res.2) =
      some [(200, sample_tagged_GetString
        [.StartObject, .Str "digest_HA1", .Str "a", .EndObject])] ∧
    sample_tagged_GetString [.StartObject, .Str "digest_HA1", .Str "a", .EndObject] ≠
      sample_tagged_GetString
        [.StartObject, .Str "digest_HA1", .Str "a\x00b", .EndObject] := by
  refine ⟨?_, ?_⟩ <;> decide

/-- C23 as amended: with query_cache_av set, a credential request that parses issues exactly one cache request, get_auth_vector of its private and public identity, and no Multimedia-Auth or Server-Assignment request, whatever the completions; on success the reply is 200 with the digest vector rendered by the endpoint, each value written up to its first NUL character: on the digest endpoint the object with the single member digest_HA1 holding ha1, whatever realm and qop are (all of ha1 when it has no NUL character), and on the av endpoint the object digest with ha1, realm and the qop or auth; on every cache failure, NOT_FOUND included, the reply is 502. -/
theorem cached_vector_request (cfg : Config) (GetString : List WriterCall → String)
    (kind : ImpiKind) (req : ImpiHttpRequest) (h : ImpiHandler)
    (av_done : CacheCompletion DigestAuthVector)
    (impu_done : CacheCompletion (List String)) (mar_done : MarOutcome) (now : Int)
    (hq : cfg.query_cache_av = true)
    (hparse : ImpiHandler.parse_request cfg kind req = some (h, true)) :
    (impi_request cfg GetString kind req av_done impu_done mar_done now).map
      (fun res => (cache_requests res.2, mars_sent res.2, sars_sent res.2)) =
      some ([.GetAuthVector h._impi h._impu], [], []) ∧
    (∀ av, av_done = .success av →
      (impi_request cfg GetString kind req av_done impu_done mar_done now).map
        (fun res => replies res.2) =
        some [(200, GetString
          (match kind with
            | .ImpiDigest =>
              [.StartObject, .Str "digest_HA1", .Str (c_str av.ha1), .EndObject]
            | .ImpiAv =>
              [.StartObject, .Str "digest", .StartObject, .Str "ha1",
                .Str (c_str av.ha1), .Str "realm", .Str (c_str av.realm), .Str "qop",
                .Str (c_str (if av.qop ≠ "" then av.qop else "auth")), .EndObject,
                .EndObject]))] ∧
      (kind = .ImpiDigest → Char.ofNat 0 ∉ av.ha1.data →
        (impi_request cfg GetString kind req av_done impu_done mar_done now).map
          (fun res => replies res.2) =
          some [(200, GetString
            [.StartObject, .Str "digest_HA1", .Str av.ha1, .EndObject])])) ∧
    (∀ error text, av_done = .failure error text →
      (impi_request cfg GetString kind req av_done impu_done mar_done now).map
        (fun res => replies res.2) = some [(502, "")]) := by
  have hk : h.kind = kind := parse_request_kind cfg kind req h hparse
  cases av_done with
  | success av =>
    cases kind
    · refine ⟨?_, ?_, ?_⟩
      · simp [impi_request, ImpiHandler.run, hparse, hq, ImpiHandler.query_cache_av,
          ImpiHandler.on_get_av_success, ImpiHandler.send_reply_digest, hk,
          cache_requests, mars_sent, sars_sent]
      · intro av2 hav
        injection hav with hav
        subst hav
        refine ⟨?_, ?_⟩
        · simp [impi_request, ImpiHandler.run, hparse, hq, ImpiHandler.query_cache_av,
            ImpiHandler.on_get_av_success, ImpiHandler.send_reply_digest, hk,
            ImpiDigestHandler.digest_body, replies, replies_from, String.join]
        · intro _ hn
          simp [impi_request, ImpiHandler.run, hparse, hq, ImpiHandler.query_cache_av,
            ImpiHandler.on_get_av_success, ImpiHandler.send_reply_digest, hk,
            ImpiDigestHandler.digest_body, replies, replies_from, String.join,
            c_str_of_no_nul _ hn]
      · intro error text hav
        cases hav
    · refine ⟨?_, ?_, ?_⟩
      · simp [impi_request, ImpiHandler.run, hparse, hq, ImpiHandler.query_cache_av,
          ImpiHandler.on_get_av_success, ImpiHandler.send_reply_digest, hk,
          cache_requests, mars_sent, sars_sent]
      · intro av2 hav
        injection hav with hav
        subst hav
        refine ⟨?_, ?_⟩
        · simp [impi_request, ImpiHandler.run, hparse, hq, ImpiHandler.query_cache_av,
            ImpiHandler.on_get_av_success, ImpiHandler.send_reply_digest, hk,
            ImpiAvHandler.digest_body, JSON_AUTH, replies, replies_from, String.join]
        · intro hkk
          cases hkk
      · intro error text hav
        cases hav
  | failure error text =>
    simp [impi_request, ImpiHandler.run, hparse, hq, ImpiHandler.query_cache_av,
      ImpiHandler.on_get_av_failure, cache_requests, mars_sent, sars_sent, replies,
      replies_from, String.join]

theorem cached_vector_request_witness :
    (impi_request sample_cache_av_config sample_GetString .ImpiDigest
      (sample_impi_request "digest" "sip:u@d" "") (.success ⟨"abc", "r", ""⟩)
      (.success []) .timeout 5).map
      (fun res => (cache_requests res.2, mars_sent res.2, sars_sent res.2)) =
      some ([.GetAuthVector "i@d" "sip:u@d"], [], []) ∧
    (impi_request sample_cache_av_config sample_GetString .ImpiDigest
      (sample_impi_request "digest" "sip:u@d" "") (.success ⟨"abc", "r", ""⟩)
      (.success []) .timeout 5).map (fun res => replies res.2) =
      some [(200, sample_GetString
        [.StartObject, .Str "digest_HA1", .Str "abc", .EndObject])] :=
  ⟨(cached_vector_request sample_cache_av_config sample_GetString .ImpiDigest
      (sample_impi_request "digest" "sip:u@d" "")
      ⟨.ImpiDigest, "i@d", "sip:u@d", "SIP Digest", ""⟩ (.success ⟨"abc", "r", ""⟩)
      (.success []) .timeout 5 rfl (by decide)).1,
   ((cached_vector_request sample_cache_av_config sample_GetString .ImpiDigest
      (sample_impi_request "digest" "sip:u@d" "")
      ⟨.ImpiDigest, "i@d", "sip:u@d", "SIP Digest", ""⟩ (.success ⟨"abc", "r", ""⟩)
      (.success []) .timeout 5 rfl (by decide)).2.1 ⟨"abc", "r", ""⟩ rfl).2 rfl
      (by decide)⟩

/-- C24: with query_cache_av unset, a credential request whose scheme is the configured AKA scheme and whose public identity is empty is answered 404 and issues neither get_associated_public_ids nor a Multimedia-Auth request (the reply and the release are its only effects); and no request whose scheme is the configured AKA scheme ever issues get_associated_public_ids, whatever the configuration and the completions. -/
theorem aka_never_looks_up_public_id (cfg : Config) (GetString : List WriterCall → String)
    (kind : ImpiKind) (req : ImpiHttpRequest) (h : ImpiHandler)
    (av_done : CacheCompletion DigestAuthVector)
    (impu_done : CacheCompletion (List String)) (mar_done : MarOutcome) (now : Int)
    (hparse : ImpiHandler.parse_request cfg kind req = some (h, true))
    (haka : h._scheme = cfg.scheme_aka) :
    (cfg.query_cache_av = false → h._impu = "" →
      (impi_request cfg GetString kind req av_done impu_done mar_done now).map
        (fun res => res.2) = some [.send_reply 404, .delete_this]) ∧
    (∃ res, impi_request cfg GetString kind req av_done impu_done mar_done now =
        some res ∧
      ∀ private_id, CacheRequest.GetAssociatedPublicIDs private_id ∉
        cache_requests res.2) := by
  have hk : h.kind = kind := parse_request_kind cfg kind req h hparse
  refine ⟨?_, ?_⟩
  · intro hq hi
    simp [impi_request, ImpiHandler.run, hparse, hq, ImpiHandler.get_av, hi, haka]
  · cases hq : cfg.query_cache_av
    · by_cases hi : h._impu = ""
      · simp [impi_request, ImpiHandler.run, hparse, hq, ImpiHandler.get_av, hi, haka,
          cache_requests]
      · rcases mar_done with maa | _
        · cases hkk : h.kind <;>
            simp [impi_request, ImpiHandler.run, hparse, hq, ImpiHandler.get_av, hi,
              ImpiHandler.send_mar, ImpiHandler.on_mar_response,
              ImpiHandler.send_reply_digest, ImpiHandler.send_reply_aka, hkk,
              cache_requests] <;>
            split_ifs <;> simp [cache_requests]
        · simp [impi_request, ImpiHandler.run, hparse, hq, ImpiHandler.get_av, hi,
            ImpiHandler.send_mar, ImpiHandler.on_diameter_timeout, cache_requests]
    · cases av_done <;> cases hkk : h.kind <;>
        simp [impi_request, ImpiHandler.run, hparse, hq, ImpiHandler.query_cache_av,
          ImpiHandler.on_get_av_success, ImpiHandler.on_get_av_failure,
          ImpiHandler.send_reply_digest, hkk, cache_requests]

theorem aka_never_looks_up_public_id_witness :
    (impi_request sample_hss_config sample_GetString .ImpiAv
      (sample_impi_request "aka" "" "X") (.success ⟨"abc", "r", ""⟩)
      (.success ["sip:u@d"]) .timeout 5).map (fun res => res.2) =
      some [.send_reply 404, .delete_this] :=
  (aka_never_looks_up_public_id sample_hss_config sample_GetString .ImpiAv
    (sample_impi_request "aka" "" "X") ⟨.ImpiAv, "i@d", "", "Digest-AKAv1-MD5", "X"⟩
    (.success ⟨"abc", "r", ""⟩) (.success ["sip:u@d"]) .timeout 5 (by decide) rfl).1
    rfl rfl

/-- C25 fails as stated: with query_cache_av unset, the GET on /impi/i@d/av with an empty impu parameter issues get_associated_public_ids for i@d, and when that returns sip:u@d a Multimedia-Auth request is sent and its digest answer is replied 200. -/
theorem av_without_public_id_queries_cache :
    (impi_request sample_hss_config sample_GetString .ImpiAv
      (sample_impi_request "av" "" "X") (.success ⟨"abc", "r", ""⟩)
      (.success ["sip:u@d"])
      (.response ⟨2001, "SIP Digest", ⟨"h", "r", ""⟩, ⟨"c", "r", "k", "i"⟩⟩) 5).map
      (fun res => cache_requests res.2) = some [.GetAssociatedPublicIDs "i@d"] ∧
    (impi_request sample_hss_config sample_GetString .ImpiAv
      (sample_impi_request "av" "" "X") (.success ⟨"abc", "r", ""⟩)
      (.success ["sip:u@d"])
      (.response ⟨2001, "SIP Digest", ⟨"h", "r", ""⟩, ⟨"c", "r", "k", "i"⟩⟩) 5).map
      (fun res => mars_sent res.2) = some [("i@d", "sip:u@d", "Unknown", "X")] ∧
    (impi_request sample_hss_config sample_GetString .ImpiAv
      (sample_impi_request "av" "" "X") (.success ⟨"abc", "r", ""⟩)
      (.success ["sip:u@d"])
      (.response ⟨2001, "SIP Digest", ⟨"h", "r", ""⟩, ⟨"c", "r", "k", "i"⟩⟩) 5).map
      (fun res => (replies res.2).map Prod.fst) = some [200] := by
  refine ⟨?_, ?_, ?_⟩ <;> decide

/-- C25 as amended: with query_cache_av unset, a GET on the av handler with an empty impu parameter is answered 404 with no backend traffic (no cache request and no Multimedia-Auth request) when the endpoint is /impi/<id>/aka, and also on /impi/<id>/av when the configured unknown scheme equals the configured AKA scheme; otherwise the GET on /impi/<id>/av first issues get_associated_public_ids of the private identity. -/
theorem av_endpoint_without_public_id (cfg : Config) (GetString : List WriterCall → String)
    (req : ImpiHttpRequest) (impi : String)
    (av_done : CacheCompletion DigestAuthVector)
    (impu_done : CacheCompletion (List String)) (mar_done : MarOutcome) (now : Int)
    (hq : cfg.query_cache_av = false)
    (hpath : impi_from_path req.path = some impi)
    (himpu : req.param "impu" = "") :
    (req.file = "aka" ∨ (req.file = "av" ∧ cfg.scheme_unknown = cfg.scheme_aka) →
      (impi_request cfg GetString .ImpiAv req av_done impu_done mar_done now).map
        (fun res => res.2) = some [.send_reply 404, .delete_this]) ∧
    (req.file = "av" → cfg.scheme_unknown ≠ cfg.scheme_aka →
      (ImpiHandler.run cfg .ImpiAv req).map (fun res => res.2) =
        some [.cache_send (.GetAssociatedPublicIDs impi)] ∧
      ∃ rest,
        (impi_request cfg GetString .ImpiAv req av_done impu_done mar_done now).map
          (fun res => res.2) =
          some (.cache_send (.GetAssociatedPublicIDs impi) :: rest)) := by
  refine ⟨?_, ?_⟩
  · rintro (hf | ⟨hf, hs⟩)
    · simp [impi_request, ImpiHandler.run, ImpiHandler.parse_request,
        ImpiAvHandler.parse_request, hpath, hf, hq, himpu, ImpiHandler.get_av]
    · simp [impi_request, ImpiHandler.run, ImpiHandler.parse_request,
        ImpiAvHandler.parse_request, hpath, hf, hq, himpu, ImpiHandler.get_av, hs]
  · intro hf hs
    refine ⟨?_, ?_⟩
    · simp [ImpiHandler.run, ImpiHandler.parse_request, ImpiAvHandler.parse_request,
        hpath, hf, hq, himpu, ImpiHandler.get_av, hs, ImpiHandler.query_cache_impu]
    · simp [impi_request, ImpiHandler.run, ImpiHandler.parse_request,
        ImpiAvHandler.parse_request, hpath, hf, hq, himpu, ImpiHandler.get_av, hs,
        ImpiHandler.query_cache_impu]

theorem av_endpoint_without_public_id_witness :
    (impi_request sample_hss_config sample_GetString .ImpiAv
      (sample_impi_request "aka" "" "X") (.success ⟨"abc", "r", ""⟩)
      (.success ["sip:u@d"]) .timeout 5).map (fun res => res.2) =
      some [.send_reply 404, .delete_this] ∧
    (ImpiHandler.run sample_hss_config .ImpiAv (sample_impi_request "av" "" "X")).map
      (fun res => res.2) = some [.cache_send (.GetAssociatedPublicIDs "i@d")] :=
  ⟨(av_endpoint_without_public_id sample_hss_config sample_GetString
      (sample_impi_request "aka" "" "X") "i@d" (.success ⟨"abc", "r", ""⟩)
      (.success ["sip:u@d"]) .timeout 5 rfl (by decide) rfl).1 (Or.inl rfl),
   ((av_endpoint_without_public_id sample_hss_config sample_GetString
      (sample_impi_request "av" "" "X") "i@d" (.success ⟨"abc", "r", ""⟩)
      (.success ["sip:u@d"]) .timeout 5 rfl (by decide) rfl).2 rfl (by decide)).1⟩

/-- C26: with query_cache_av unset, a credential request that parses with an empty public identity and a scheme other than the configured AKA scheme issues get_associated_public_ids of its private identity; when that returns no identity or fails with NOT_FOUND the reply is 404 and no Multimedia-Auth request is sent, when it fails with another error the reply is 502, and when it returns identities one Multimedia-Auth request is sent with the first of them as public identity; with a public identity supplied the Multimedia-Auth request is sent with it and no cache read is issued. -/
theorem public_id_lookup (cfg : Config) (GetString : List WriterCall → String)
    (kind : ImpiKind) (req : ImpiHttpRequest) (h : ImpiHandler)
    (av_done : CacheCompletion DigestAuthVector)
    (impu_done : CacheCompletion (List String)) (mar_done : MarOutcome) (now : Int)
    (hq : cfg.query_cache_av = false)
    (hparse : ImpiHandler.parse_request cfg kind req = some (h, true)) :
    (h._impu = "" → h._scheme ≠ cfg.scheme_aka →
      (ImpiHandler.run cfg kind req).map (fun res => res.2) =
        some [.cache_send (.GetAssociatedPublicIDs h._impi)] ∧
      (impu_done = .success [] ∨ (∃ text, impu_done = .failure .NOT_FOUND text) →
        (impi_request cfg GetString kind req av_done impu_done mar_done now).map
          (fun res => res.2) =
          some [.cache_send (.GetAssociatedPublicIDs h._impi), .send_reply 404,
            .delete_this]) ∧
      (∀ error text, impu_done = .failure error text → error ≠ .NOT_FOUND →
        (impi_request cfg GetString kind req av_done impu_done mar_done now).map
          (fun res => res.2) =
          some [.cache_send (.GetAssociatedPublicIDs h._impi), .send_reply 502,
            .delete_this]) ∧
      (∀ id0 ids, impu_done = .success (id0 :: ids) →
        (impi_request cfg GetString kind req av_done impu_done mar_done now).map
          (fun res => (cache_requests res.2).filter (fun c => ! c.is_write)) =
          some [.GetAssociatedPublicIDs h._impi] ∧
        (impi_request cfg GetString kind req av_done impu_done mar_done now).map
          (fun res => mars_sent res.2) =
          some [(h._impi, id0, h._scheme, h._authorization)])) ∧
    (h._impu ≠ "" →
      (impi_request cfg GetString kind req av_done impu_done mar_done now).map
        (fun res => mars_sent res.2) =
        some [(h._impi, h._impu, h._scheme, h._authorization)] ∧
      (impi_request cfg GetString kind req av_done impu_done mar_done now).map
        (fun res => (cache_requests res.2).filter (fun c => ! c.is_write)) = some []) := by
  refine ⟨?_, ?_⟩
  · intro hi hs
    refine ⟨?_, ?_, ?_, ?_⟩
    · simp [ImpiHandler.run, hparse, hq, ImpiHandler.get_av, hi, hs,
        ImpiHandler.query_cache_impu]
    · rintro (hd | ⟨text, hd⟩) <;>
        simp [impi_request, ImpiHandler.run, hparse, hq, ImpiHandler.get_av, hi, hs,
          ImpiHandler.query_cache_impu, hd, ImpiHandler.on_get_impu_success,
          ImpiHandler.on_get_impu_failure]
    · intro error text hd he
      simp [impi_request, ImpiHandler.run, hparse, hq, ImpiHandler.get_av, hi, hs,
        ImpiHandler.query_cache_impu, hd, ImpiHandler.on_get_impu_failure, he]
    · intro id0 ids hd
      rcases mar_done with maa | _
      · cases hkk : h.kind <;>
          simp [impi_request, ImpiHandler.run, hparse, hq, ImpiHandler.get_av, hi, hs,
            ImpiHandler.query_cache_impu, hd, ImpiHandler.on_get_impu_success,
            ImpiHandler.send_mar, ImpiHandler.on_mar_response,
            ImpiHandler.send_reply_digest, ImpiHandler.send_reply_aka, hkk,
            cache_requests, mars_sent, CacheRequest.is_write] <;>
          split_ifs <;> simp [cache_requests, mars_sent, CacheRequest.is_write]
      · simp [impi_request, ImpiHandler.run, hparse, hq, ImpiHandler.get_av, hi, hs,
          ImpiHandler.query_cache_impu, hd, ImpiHandler.on_get_impu_success,
          ImpiHandler.send_mar, ImpiHandler.on_diameter_timeout,
          cache_requests, mars_sent, CacheRequest.is_write]
  · intro hi
    rcases mar_done with maa | _
    · cases hkk : h.kind <;>
        simp [impi_request, ImpiHandler.run, hparse, hq, ImpiHandler.get_av, hi,
          ImpiHandler.send_mar, ImpiHandler.on_mar_response,
          ImpiHandler.send_reply_digest, ImpiHandler.send_reply_aka, hkk,
          cache_requests, mars_sent, CacheRequest.is_write] <;>
        split_ifs <;> simp [cache_requests, mars_sent, CacheRequest.is_write]
    · simp [impi_request, ImpiHandler.run, hparse, hq, ImpiHandler.get_av, hi,
        ImpiHandler.send_mar, ImpiHandler.on_diameter_timeout,
        cache_requests, mars_sent, CacheRequest.is_write]

theorem public_id_lookup_witness :
    (impi_request sample_hss_config sample_GetString .ImpiDigest
      (sample_impi_request "digest" "" "") (.success ⟨"abc", "r", ""⟩)
      (.success ["sip:a@d", "sip:b@d"]) .timeout 5).map (fun res => mars_sent res.2) =
      some [("i@d", "sip:a@d", "SIP Digest", "")] ∧
    (impi_request sample_hss_config sample_GetString .ImpiDigest
      (sample_impi_request "digest" "" "") (.success ⟨"abc", "r", ""⟩)
      (.failure .BACKEND_ERROR "down") .timeout 5).map (fun res => res.2) =
      some [.cache_send (.GetAssociatedPublicIDs "i@d"), .send_reply 502, .delete_this] :=
  ⟨(((public_id_lookup sample_hss_config sample_GetString .ImpiDigest
      (sample_impi_request "digest" "" "") ⟨.ImpiDigest, "i@d", "", "SIP Digest", ""⟩
      (.success ⟨"abc", "r", ""⟩) (.success ["sip:a@d", "sip:b@d"]) .timeout 5 rfl
      (by decide)).1 rfl (by decide)).2.2.2 "sip:a@d" ["sip:b@d"] rfl).2,
   ((public_id_lookup sample_hss_config sample_GetString .ImpiDigest
      (sample_impi_request "digest" "" "") ⟨.ImpiDigest, "i@d", "", "SIP Digest", ""⟩
      (.success ⟨"abc", "r", ""⟩) (.failure .BACKEND_ERROR "down") .timeout 5 rfl
      (by decide)).1 rfl (by decide)).2.2.1 .BACKEND_ERROR "down" rfl (by decide)⟩

/-- C27: the reply to a Multimedia-Auth outcome: for result code 2001 and the digest scheme it is 200 with the digest body of the endpoint (the object digest_HA1 with ha1 on the digest handler, the object digest with ha1, realm and the qop or auth on the av handler); for 2001 and the AKA scheme (the digest scheme being tested first, should the two configured names be equal) it is 200 with the AKA body, the object aka with challenge, response, cryptkey and integritykey, on the av handler and 404 on the digest handler; for 2001 and any other scheme it is 404; for 5001 it is 404; for every other result code it is 500; on timeout it is 503; each value of a body is written up to its first NUL character. -/
theorem mar_outcome_status (cfg : Config) (GetString : List WriterCall → String)
    (h : ImpiHandler) (maa : MultimediaAuthAnswer) (now : Int) :
    (maa.result_code = 2001 → maa.sip_auth_scheme = cfg.scheme_digest →
      replies (ImpiHandler.on_mar_response cfg GetString h maa now).2 =
        [(200, GetString
          (match h.kind with
            | .ImpiDigest =>
              [.StartObject, .Str "digest_HA1", .Str (c_str maa.digest_auth_vector.ha1),
                .EndObject]
            | .ImpiAv =>
              [.StartObject, .Str "digest", .StartObject, .Str "ha1",
                .Str (c_str maa.digest_auth_vector.ha1), .Str "realm",
                .Str (c_str maa.digest_auth_vector.realm), .Str "qop",
                .Str (c_str (if maa.digest_auth_vector.qop ≠ ""
                  then maa.digest_auth_vector.qop else "auth")),
                .EndObject, .EndObject]))]) ∧
    (maa.result_code = 2001 → maa.sip_auth_scheme = cfg.scheme_aka →
      cfg.scheme_aka ≠ cfg.scheme_digest →
      replies (ImpiHandler.on_mar_response cfg GetString h maa now).2 =
        (match h.kind with
          | .ImpiDigest => [(404, "")]
          | .ImpiAv =>
            [(200, GetString
              [.StartObject, .Str "aka", .StartObject, .Str "challenge",
                .Str (c_str maa.aka_auth_vector.challenge), .Str "response",
                .Str (c_str maa.aka_auth_vector.response), .Str "cryptkey",
                .Str (c_str maa.aka_auth_vector.crypt_key), .Str "integritykey",
                .Str (c_str maa.aka_auth_vector.integrity_key), .EndObject,
                .EndObject])])) ∧
    (maa.result_code = 2001 → maa.sip_auth_scheme ≠ cfg.scheme_digest →
      maa.sip_auth_scheme ≠ cfg.scheme_aka →
      replies (ImpiHandler.on_mar_response cfg GetString h maa now).2 = [(404, "")]) ∧
    (maa.result_code = 5001 →
      replies (ImpiHandler.on_mar_response cfg GetString h maa now).2 = [(404, "")]) ∧
    (maa.result_code ≠ 2001 → maa.result_code ≠ 5001 →
      replies (ImpiHandler.on_mar_response cfg GetString h maa now).2 = [(500, "")]) ∧
    replies (ImpiHandler.on_diameter_timeout h).2 = [(503, "")] := by
  refine ⟨?_, ?_, ?_, ?_, ?_, ?_⟩
  · intro h1 h2
    cases hk : h.kind <;> by_cases ht : cfg.impu_cache_ttl = 0 <;>
      simp [ImpiHandler.on_mar_response, ImpiHandler.send_reply_digest, h1, h2, hk, ht,
        ImpiDigestHandler.digest_body, ImpiAvHandler.digest_body, JSON_AUTH,
        replies, replies_from, String.join]
  · intro h1 h2 h3
    cases hk : h.kind <;>
      simp [ImpiHandler.on_mar_response, ImpiHandler.send_reply_aka, h1, h2, h3, hk,
        ImpiAvHandler.aka_body, replies, replies_from, String.join]
  · intro h1 h2 h3
    simp [ImpiHandler.on_mar_response, h1, h2, h3, replies, replies_from, String.join]
  · intro h1
    simp [ImpiHandler.on_mar_response, h1, replies, replies_from, String.join]
  · intro h1 h2
    simp [ImpiHandler.on_mar_response, h1, h2, replies, replies_from, String.join]
  · simp [ImpiHandler.on_diameter_timeout, replies, replies_from, String.join]

theorem mar_outcome_status_witness :
    replies (ImpiHandler.on_mar_response sample_hss_config sample_GetString
      ⟨.ImpiDigest, "i@d", "sip:u@d", "SIP Digest", ""⟩
      ⟨2001, "Digest-AKAv1-MD5", ⟨"h", "r", ""⟩, ⟨"c", "r", "k", "i"⟩⟩ 5).2 =
      [(404, "")] ∧
    replies (ImpiHandler.on_mar_response sample_hss_config sample_GetString
      ⟨.ImpiAv, "i@d", "sip:u@d", "Unknown", ""⟩
      ⟨2001, "SIP Digest", ⟨"h", "r", ""⟩, ⟨"c", "r", "k", "i"⟩⟩ 5).2 =
      [(200, sample_GetString
        [.StartObject, .Str "digest", .StartObject, .Str "ha1", .Str "h", .Str "realm",
          .Str "r", .Str "qop", .Str "auth", .EndObject, .EndObject])] ∧
    replies (ImpiHandler.on_mar_response sample_hss_config sample_GetString
      ⟨.ImpiAv, "i@d", "sip:u@d", "Digest-AKAv1-MD5", "X"⟩
      ⟨2001, "Digest-AKAv1-MD5", ⟨"h", "r", ""⟩, ⟨"c", "r", "k", "i"⟩⟩ 5).2 =
      [(200, sample_GetString
        [.StartObject, .Str "aka", .StartObject, .Str "challenge", .Str "c",
          .Str "response", .Str "r", .Str "cryptkey", .Str "k", .Str "integritykey",
          .Str "i", .EndObject, .EndObject])] :=
  ⟨(mar_outcome_status sample_hss_config sample_GetString
      ⟨.ImpiDigest, "i@d", "sip:u@d", "SIP Digest", ""⟩
      ⟨2001, "Digest-AKAv1-MD5", ⟨"h", "r", ""⟩, ⟨"c", "r", "k", "i"⟩⟩ 5).2.1 rfl rfl
      (by decide),
   (mar_outcome_status sample_hss_config sample_GetString
      ⟨.ImpiAv, "i@d", "sip:u@d", "Unknown", ""⟩
      ⟨2001, "SIP Digest", ⟨"h", "r", ""⟩, ⟨"c", "r", "k", "i"⟩⟩ 5).1 rfl rfl,
   (mar_outcome_status sample_hss_config sample_GetString
      ⟨.ImpiAv, "i@d", "sip:u@d", "Digest-AKAv1-MD5", "X"⟩
      ⟨2001, "Digest-AKAv1-MD5", ⟨"h", "r", ""⟩, ⟨"c", "r", "k", "i"⟩⟩ 5).2.1 rfl rfl
      (by decide)⟩

/-- C28 fails as stated: for the digest vector with ha1 abc, realm r and a qop that is the one character NUL, the qop is not empty, so it is not replaced by auth, and the body the av handler writes has an empty qop member. -/
theorem av_digest_body_qop_empty :
    ImpiHandler.send_reply_digest sample_GetString
      ⟨.ImpiAv, "i@d", "sip:u@d", "Unknown", ""⟩ ⟨"abc", "r", "\x00"⟩ =
      [.add_content (sample_GetString
        [.StartObject, .Str "digest", .StartObject, .Str "ha1", .Str "abc",
          .Str "realm", .Str "r", .Str "qop", .Str "", .EndObject, .EndObject]),
        .send_reply 200] := by
  decide

/-- C28 as amended: the body the av handler writes for a digest vector is the object with the one member digest holding the members ha1, realm and qop, in this order, each value written up to its first NUL character; the qop written is auth when the qop of the vector is empty and the qop of the vector up to its first NUL otherwise, so it is non-empty whenever the qop of the vector does not start with a NUL; for values without a NUL character ha1 and realm are written unchanged and the qop written is the qop of the vector when that is non-empty. -/
theorem av_digest_body_qop (GetString : List WriterCall → String) (h : ImpiHandler)
    (av : DigestAuthVector) (hk : h.kind = .ImpiAv) :
    ∃ qop : String,
      ImpiHandler.send_reply_digest GetString h av =
        [.add_content (GetString
          [.StartObject, .Str "digest", .StartObject, .Str "ha1", .Str (c_str av.ha1),
            .Str "realm", .Str (c_str av.realm), .Str "qop", .Str qop, .EndObject,
            .EndObject]),
          .send_reply 200] ∧
      (av.qop ≠ "" → qop = c_str av.qop) ∧ (av.qop = "" → qop = "auth") ∧
      (av.qop.data.head? ≠ some (Char.ofNat 0) → qop ≠ "") ∧
      (av.qop ≠ "" → Char.ofNat 0 ∉ av.qop.data → qop = av.qop) ∧
      (Char.ofNat 0 ∉ av.ha1.data → c_str av.ha1 = av.ha1) ∧
      (Char.ofNat 0 ∉ av.realm.data → c_str av.realm = av.realm) := by
  refine ⟨c_str (if av.qop ≠ "" then av.qop else JSON_AUTH), ?_, ?_, ?_, ?_, ?_,
    c_str_of_no_nul _, c_str_of_no_nul _⟩
  · simp [ImpiHandler.send_reply_digest, hk, ImpiAvHandler.digest_body]
  · intro hq
    simp [hq]
  · intro hq
    simp [hq]
  · intro hh
    by_cases hq : av.qop = ""
    · simp [hq]
    · simpa [hq] using c_str_ne_empty av.qop hq hh
  · intro hq hn
    simp [hq, c_str_of_no_nul _ hn]

theorem av_digest_body_qop_witness :
    ImpiHandler.send_reply_digest sample_GetString
      ⟨.ImpiAv, "i@d", "sip:u@d", "Unknown", ""⟩ ⟨"abc", "r", ""⟩ =
      [.add_content (sample_GetString
        [.StartObject, .Str "digest", .StartObject, .Str "ha1", .Str "abc",
          .Str "realm", .Str "r", .Str "qop", .Str "auth", .EndObject, .EndObject]),
        .send_reply 200] := by
  obtain ⟨qop, h1, _, h4, _⟩ := av_digest_body_qop sample_GetString
    ⟨.ImpiAv, "i@d", "sip:u@d", "Unknown", ""⟩ ⟨"abc", "r", ""⟩ rfl
  rw [h4 rfl] at h1
  exact h1

/-- C29 fails as stated: the digest vectors with the ha1 a, NUL, b and with the ha1 a, of the same realm and qop, are written as the same body although their ha1 differ, and reading the body written for the first gives the second, not the first. -/
theorem digest_vectors_same_body :
    ImpiHandler.send_reply_digest sample_tagged_GetString
      ⟨.ImpiAv, "i@d", "sip:u@d", "Unknown", ""⟩ ⟨"a\x00b", "r", "auth"⟩ =
    ImpiHandler.send_reply_digest sample_tagged_GetString
      ⟨.ImpiAv, "i@d", "sip:u@d", "Unknown", ""⟩ ⟨"a", "r", "auth"⟩ ∧
    ("a\x00b" : String) ≠ "a" ∧
    parse_digest_body (ImpiAvHandler.digest_body ⟨"a\x00b", "r", "auth"⟩) =
      some ⟨"a", "r", "auth"⟩ := by
  refine ⟨?_, ?_, ?_⟩ <;> decide

/-- C29 as amended: reading the full-variant body written for a digest vector gives back its ha1, realm and qop, each cut at its first NUL character, with an empty qop replaced by auth; two digest vectors are written as the same document exactly when they agree in these three values, which carries over to the rendered bodies for every rendering of documents that is injective, and the round trip carries over to rendered bodies for every rendering and reader of documents where the reader gives back the document rendered; for vectors whose values hold no NUL character the values come back unchanged (an empty qop as auth) and the bodies agree exactly when ha1, realm and the qop after replacing an empty one by auth agree. -/
theorem digest_body_round_trip (v w : DigestAuthVector) :
    parse_digest_body (ImpiAvHandler.digest_body v) =
      some ⟨c_str v.ha1, c_str v.realm, c_str (if v.qop ≠ "" then v.qop else "auth")⟩ ∧
    (ImpiAvHandler.digest_body v = ImpiAvHandler.digest_body w ↔
      (c_str v.ha1 = c_str w.ha1 ∧ c_str v.realm = c_str w.realm ∧
        c_str (if v.qop ≠ "" then v.qop else "auth") =
          c_str (if w.qop ≠ "" then w.qop else "auth"))) ∧
    (∀ GetString : List WriterCall → String, Function.Injective GetString →
      (GetString (ImpiAvHandler.digest_body v) = GetString (ImpiAvHandler.digest_body w) ↔
        (c_str v.ha1 = c_str w.ha1 ∧ c_str v.realm = c_str w.realm ∧
          c_str (if v.qop ≠ "" then v.qop else "auth") =
            c_str (if w.qop ≠ "" then w.qop else "auth")))) ∧
    (∀ (GetString : List WriterCall → String) (reader : String → Option (List WriterCall)),
      (∀ calls, reader (GetString calls) = some calls) →
      (reader (GetString (ImpiAvHandler.digest_body v))).bind parse_digest_body =
        some ⟨c_str v.ha1, c_str v.realm,
          c_str (if v.qop ≠ "" then v.qop else "auth")⟩) ∧
    (Char.ofNat 0 ∉ v.ha1.data → Char.ofNat 0 ∉ v.realm.data →
      Char.ofNat 0 ∉ v.qop.data →
      parse_digest_body (ImpiAvHandler.digest_body v) =
        some ⟨v.ha1, v.realm, if v.qop ≠ "" then v.qop else "auth"⟩ ∧
      (Char.ofNat 0 ∉ w.ha1.data → Char.ofNat 0 ∉ w.realm.data →
        Char.ofNat 0 ∉ w.qop.data →
        (ImpiAvHandler.digest_body v = ImpiAvHandler.digest_body w ↔
          (v.ha1 = w.ha1 ∧ v.realm = w.realm ∧
            (if v.qop ≠ "" then v.qop else "auth") =
              (if w.qop ≠ "" then w.qop else "auth"))))) := by
  have hbody : ImpiAvHandler.digest_body v = ImpiAvHandler.digest_body w ↔
      (c_str v.ha1 = c_str w.ha1 ∧ c_str v.realm = c_str w.realm ∧
        c_str (if v.qop ≠ "" then v.qop else "auth") =
          c_str (if w.qop ≠ "" then w.qop else "auth")) := by
    simp [ImpiAvHandler.digest_body, JSON_AUTH]
  have hqop : ∀ u : DigestAuthVector, Char.ofNat 0 ∉ u.qop.data →
      c_str (if u.qop ≠ "" then u.qop else "auth") =
        (if u.qop ≠ "" then u.qop else "auth") := by
    intro u hu
    by_cases hq : u.qop = ""
    · simp only [hq, ne_eq, not_true_eq_false, if_false]
      decide
    · simp only [hq, ne_eq, not_false_eq_true, if_true]
      exact c_str_of_no_nul _ hu
  refine ⟨parse_digest_body_emitted v, hbody, ?_, ?_, ?_⟩
  · intro GetString hinj
    rw [← hbody]
    exact ⟨fun e => hinj e, fun e => by rw [e]⟩
  · intro GetString reader hread
    rw [hread]
    exact parse_digest_body_emitted v
  · intro h1 h2 h3
    refine ⟨?_, ?_⟩
    · rw [parse_digest_body_emitted, c_str_of_no_nul _ h1, c_str_of_no_nul _ h2,
        hqop v h3]
    · intro h4 h5 h6
      rw [hbody, c_str_of_no_nul _ h1, c_str_of_no_nul _ h2, hqop v h3,
        c_str_of_no_nul _ h4, c_str_of_no_nul _ h5, hqop w h6]

theorem digest_body_round_trip_witness :
    (sample_tagged_reader (sample_tagged_GetString
      (ImpiAvHandler.digest_body ⟨"abc", "r", ""⟩))).bind parse_digest_body =
      some ⟨"abc", "r", "auth"⟩ ∧
    sample_tagged_GetString (ImpiAvHandler.digest_body ⟨"abc", "r", ""⟩) =
      sample_tagged_GetString (ImpiAvHandler.digest_body ⟨"abc", "r", "auth"⟩) ∧
    parse_digest_body (ImpiAvHandler.digest_body ⟨"abc", "r", ""⟩) =
      some ⟨"abc", "r", "auth"⟩ :=
  ⟨(digest_body_round_trip ⟨"abc", "r", ""⟩ ⟨"abc", "r", "auth"⟩).2.2.2.1
      sample_tagged_GetString sample_tagged_reader sample_tagged_reader_reads,
   ((digest_body_round_trip ⟨"abc", "r", ""⟩ ⟨"abc", "r", "auth"⟩).2.2.1
      sample_tagged_GetString sample_tagged_GetString_injective).2 ⟨rfl, rfl, rfl⟩,
   ((digest_body_round_trip ⟨"abc", "r", ""⟩ ⟨"abc", "r", "auth"⟩).2.2.2.2 (by decide)
      (by decide) (by decide)).1⟩

/-- C30: on the deprecated endpoint the success reply is 200 with the raw profile as body when the profile is non-empty and 404 with no body when it is empty; and in every request on this endpoint each reply is either 200 with the raw profile, which is then non-empty, or has another status and an empty body, so the wrapped document is never emitted. -/
theorem deprecated_endpoint_raw_profile (cfg : Config) (xu : XmlUtils) (h : Handler)
    (req : HttpRequest) (read : CacheReadOutcome) (now1 : Int) (outcome : DiameterOutcome)
    (now2 : Int) (hkind : h.kind = .ImpuIMSSubscription) :
    (h._xml ≠ "" → send_reply xu h = [.add_content h._xml, .send_reply 200]) ∧
    (h._xml = "" → send_reply xu h = [.send_reply 404]) ∧
    (∀ res, impu_subscription_request cfg xu req read now1 outcome now2 = some res →
      ∀ rp ∈ replies res.2,
        (rp = (200, res.1._xml) ∧ res.1._xml ≠ "") ∨ (rp.1 ≠ 200 ∧ rp.2 = "")) := by
  refine ⟨?_, ?_, ?_⟩
  · intro hx
    simp [send_reply, hkind, hx]
  · intro hx
    simp [send_reply, hkind, hx]
  · intro res hres
    cases hp : impu_from_deprecated_path req.full_path with
    | none => simp [impu_subscription_request, ImpuIMSSubscriptionHandler.run, hp] at hres
    | some impu =>
      simp only [impu_subscription_request, ImpuIMSSubscriptionHandler.run, hp,
        Option.some.injEq] at hres
      rw [← hres]
      have ht : is_auth_failure_request
          (if req.private_id = "" then RequestType.CALL else RequestType.REG) = false := by
        split_ifs <;> rfl
      have key := fun r => deprecated_replies_flow cfg xu
        ⟨.ImpuIMSSubscription, req.method, req.private_id, impu,
          if req.private_id = "" then .CALL else .REG, "", .NOT_REGISTERED⟩
        r now1 outcome now2 rfl ht
      cases read with
      | found r =>
        simpa [replies, replies_from, reg_data_after_read, get_subscription_completion]
          using key r
      | not_found =>
        simpa [replies, replies_from, reg_data_after_read, get_subscription_completion]
          using key ⟨"", 0, .NOT_REGISTERED, 0, []⟩
      | failed e t =>
        simp [reg_data_after_read, get_subscription_completion,
          on_get_ims_subscription_failure, replies, replies_from, String.join]

theorem deprecated_endpoint_raw_profile_witness :
    send_reply sample_xml_utils
      ⟨.ImpuIMSSubscription, .htp_method_GET, "", "sip:u@d", .CALL, "P", .REGISTERED⟩ =
      [.add_content "P", .send_reply 200] ∧
    send_reply sample_xml_utils
      ⟨.ImpuIMSSubscription, .htp_method_GET, "", "sip:u@d", .CALL, "", .NOT_REGISTERED⟩ =
      [.send_reply 404] :=
  ⟨(deprecated_endpoint_raw_profile sample_hss_config sample_xml_utils
      ⟨.ImpuIMSSubscription, .htp_method_GET, "", "sip:u@d", .CALL, "P", .REGISTERED⟩
      ⟨.htp_method_GET, "/impu/sip:u@d", "", ""⟩ .not_found 5 .timeout 6 rfl).1
      (by decide),
   (deprecated_endpoint_raw_profile sample_hss_config sample_xml_utils
      ⟨.ImpuIMSSubscription, .htp_method_GET, "", "sip:u@d", .CALL, "", .NOT_REGISTERED⟩
      ⟨.htp_method_GET, "/impu/sip:u@d", "", ""⟩ .not_found 5 .timeout 6 rfl).2.1 rfl⟩

/-- C33: get_associated_private_ids returns the request private identity followed by the private identity of the profile, empty strings left out and a repetition left out: with i the private identity of the handler and hint the one of its profile, the result is [i, hint] when both are non-empty and different, [i] when i is non-empty and hint is empty or equal to i, [hint] when i is empty and hint is not, and the empty list when both are empty; so it is the list [i, hint] without its empty strings and with duplicates removed, it never holds an empty string or a duplicate, and it has at most two elements. -/
theorem get_associated_private_ids_table (xu : XmlUtils) (h : Handler) :
    (h._impi ≠ "" → xu.get_private_id h._xml ≠ "" → xu.get_private_id h._xml ≠ h._impi →
      get_associated_private_ids xu h = [h._impi, xu.get_private_id h._xml]) ∧
    (h._impi ≠ "" → (xu.get_private_id h._xml = "" ∨ xu.get_private_id h._xml = h._impi) →
      get_associated_private_ids xu h = [h._impi]) ∧
    (h._impi = "" → xu.get_private_id h._xml ≠ "" →
      get_associated_private_ids xu h = [xu.get_private_id h._xml]) ∧
    (h._impi = "" → xu.get_private_id h._xml = "" → get_associated_private_ids xu h = []) ∧
    get_associated_private_ids xu h =
      ([h._impi, xu.get_private_id h._xml].filter (fun s => s ≠ "")).dedup ∧
    "" ∉ get_associated_private_ids xu h ∧
    (get_associated_private_ids xu h).Nodup ∧
    (get_associated_private_ids xu h).length ≤ 2 := by
  by_cases hi : h._impi = "" <;> by_cases hx : xu.get_private_id h._xml = "" <;>
    by_cases he : xu.get_private_id h._xml = h._impi <;>
    simp_all [get_associated_private_ids, List.dedup_cons_of_not_mem, Ne.symm]

theorem get_associated_private_ids_table_witness :
    get_associated_private_ids ⟨fun _ => [], fun _ => "j@d", fun _ xml => xml⟩
      (sample_put .REG) = ["i@d", "j@d"] :=
  (get_associated_private_ids_table ⟨fun _ => [], fun _ => "j@d", fun _ xml => xml⟩
    (sample_put .REG)).1 (by decide) (by decide) (by decide)

/-- C34: in the credential flow the callback of a Multimedia-Auth answer issues put_associated_public_id of the private identity, the public identity, the timestamp and impu_cache_ttl exactly when the result code is 2001, the scheme of the answer is the configured digest scheme and impu_cache_ttl is not zero, and it issues no other cache request; the write then stands between the 200 reply and the release of the handler, and the replies are the ones sent with impu_cache_ttl zero; a timeout issues no cache request; and over a whole credential request the cache writes are this one write, when a Multimedia-Auth request was sent and answered so, and none otherwise. -/
theorem put_associated_public_id_rule (cfg : Config) (GetString : List WriterCall → String)
    (h : ImpiHandler) (maa : MultimediaAuthAnswer) (now : Int) (kind : ImpiKind)
    (req : ImpiHttpRequest) (av_done : CacheCompletion DigestAuthVector)
    (impu_done : CacheCompletion (List String)) (mar_done : MarOutcome) :
    cache_requests (ImpiHandler.on_mar_response cfg GetString h maa now).2 =
      (if maa.result_code = 2001 ∧ maa.sip_auth_scheme = cfg.scheme_digest ∧
          cfg.impu_cache_ttl ≠ 0 then
        [.PutAssociatedPublicID h._impi h._impu now cfg.impu_cache_ttl]
       else []) ∧
    (maa.result_code = 2001 → maa.sip_auth_scheme = cfg.scheme_digest →
      cfg.impu_cache_ttl ≠ 0 →
      ∃ body, (ImpiHandler.on_mar_response cfg GetString h maa now).2 =
        [.add_content body, .send_reply 200,
          .cache_send (.PutAssociatedPublicID h._impi h._impu now cfg.impu_cache_ttl),
          .delete_this]) ∧
    replies (ImpiHandler.on_mar_response cfg GetString h maa now).2 =
      replies (ImpiHandler.on_mar_response { cfg with impu_cache_ttl := 0 } GetString h
        maa now).2 ∧
    cache_requests (ImpiHandler.on_diameter_timeout h).2 = [] ∧
    (∀ res, impi_request cfg GetString kind req av_done impu_done mar_done now = some res →
      cache_writes res.2 =
        (match mar_done with
          | .response maa =>
            if mars_sent res.2 ≠ [] ∧ maa.result_code = 2001 ∧
                maa.sip_auth_scheme = cfg.scheme_digest ∧ cfg.impu_cache_ttl ≠ 0 then
              [.PutAssociatedPublicID res.1._impi res.1._impu now cfg.impu_cache_ttl]
            else []
          | .timeout => [])) := by
  refine ⟨?_, ?_, ?_, ?_, impi_cache_writes cfg GetString kind req av_done impu_done
    mar_done now⟩
  · cases hk : h.kind <;>
      simp only [ImpiHandler.on_mar_response, ImpiHandler.send_reply_digest,
        ImpiHandler.send_reply_aka, hk] <;>
      split_ifs <;> simp_all [cache_requests]
  · intro h1 h2 h3
    cases hk : h.kind <;>
      simp [ImpiHandler.on_mar_response, ImpiHandler.send_reply_digest, hk, h1, h2, h3]
  · cases hk : h.kind <;>
      simp only [ImpiHandler.on_mar_response, ImpiHandler.send_reply_digest,
        ImpiHandler.send_reply_aka, hk] <;>
      split_ifs <;> simp_all [replies, replies_from]
  · simp [ImpiHandler.on_diameter_timeout, cache_requests]

theorem put_associated_public_id_rule_witness :
    ∃ body, (ImpiHandler.on_mar_response sample_cache_av_config sample_GetString
      ⟨.ImpiDigest, "i@d", "sip:u@d", "SIP Digest", ""⟩
      ⟨2001, "SIP Digest", ⟨"h", "r", ""⟩, ⟨"c", "r", "k", "i"⟩⟩ 5).2 =
      [.add_content body, .send_reply 200,
        .cache_send (.PutAssociatedPublicID "i@d" "sip:u@d" 5 3600), .delete_this] :=
  (put_associated_public_id_rule sample_cache_av_config sample_GetString
    ⟨.ImpiDigest, "i@d", "sip:u@d", "SIP Digest", ""⟩
    ⟨2001, "SIP Digest", ⟨"h", "r", ""⟩, ⟨"c", "r", "k", "i"⟩⟩ 5 .ImpiDigest
    (sample_impi_request "digest" "sip:u@d" "") (.success ⟨"abc", "r", ""⟩) (.success [])
    .timeout).2.1 rfl rfl (by decide)

/-- C32 fails as stated: with an HSS and hss_reregistration_time 1073741824 (2^30), the REG of the private identity j@d on the record of sip:u@d, which is bound to i@d only, issues put_associated_private_id with ttl -2147483648, the value of the int product, which is not twice hss_reregistration_time. -/
theorem put_private_id_ttl_wraps :
    (cache_requests (reg_data_flow sample_long_reregistration_config sample_xml_utils
      ⟨.ImpuRegData, .htp_method_PUT, "j@d", "sip:u@d", .REG, "", .NOT_REGISTERED⟩
      ⟨"P", 100, .REGISTERED, 100, ["i@d"]⟩ 5 .timeout 6).2).filter
        CacheRequest.is_put_associated_private_id =
      [.PutAssociatedPrivateID ["sip:u@d"] "j@d" 5 (-2147483648)] ∧
    (-2147483648 : Int) ≠ 2 * sample_long_reregistration_config.hss_reregistration_time := by
  refine ⟨?_, ?_⟩ <;> decide

/-- C32 as amended: for a PUT reg-data request the new_binding flag is set exactly when the request private identity is non-empty, the cached profile is non-empty and the private identity is not among the cached associated private identities; a request without private identity takes it from the cached profile and has no new binding, and a request with one keeps it; and over the whole request put_associated_private_id is issued exactly when an HSS is configured and the flag is set, once, with the public identities of the cached profile, the request private identity, the timestamp and the int product of 2 and hss_reregistration_time, which is twice hss_reregistration_time whenever hss_reregistration_time is at least -2^30 and below 2^30; it is never issued without an HSS. -/
theorem new_binding_rule (cfg : Config) (xu : XmlUtils) (h : Handler)
    (r : GetIMSSubscription) (now1 : Int) (outcome : DiameterOutcome) (now2 : Int)
    (hm : h.method = .htp_method_PUT) :
    ((check_binding xu h._impi r.xml r.associated_impis).2 = true ↔
      (h._impi ≠ "" ∧ r.xml ≠ "" ∧ h._impi ∉ r.associated_impis)) ∧
    (h._impi = "" →
      check_binding xu h._impi r.xml r.associated_impis =
        (xu.get_private_id r.xml, false)) ∧
    (h._impi ≠ "" → (check_binding xu h._impi r.xml r.associated_impis).1 = h._impi) ∧
    (cache_requests (reg_data_flow cfg xu h r now1 outcome now2).2).filter
        CacheRequest.is_put_associated_private_id =
      (if cfg.hss_configured = true ∧
          (check_binding xu h._impi r.xml r.associated_impis).2 = true then
        [.PutAssociatedPrivateID (xu.get_public_ids r.xml) h._impi now1
          (int_wrap (2 * cfg.hss_reregistration_time))]
       else []) ∧
    (-1073741824 ≤ cfg.hss_reregistration_time →
      cfg.hss_reregistration_time < 1073741824 →
      (cache_requests (reg_data_flow cfg xu h r now1 outcome now2).2).filter
          CacheRequest.is_put_associated_private_id =
        (if cfg.hss_configured = true ∧
            (check_binding xu h._impi r.xml r.associated_impis).2 = true then
          [.PutAssociatedPrivateID (xu.get_public_ids r.xml) h._impi now1
            (2 * cfg.hss_reregistration_time)]
         else [])) ∧
    (cfg.hss_configured = false →
      (cache_requests (reg_data_flow cfg xu h r now1 outcome now2).2).filter
        CacheRequest.is_put_associated_private_id = []) := by
  have hget : h.method ≠ .htp_method_GET := by
    rw [hm]
    decide
  have hflow := put_private_id_reg_data_flow cfg xu h r now1 outcome now2
  have hon := put_private_id_on_get cfg xu h r now1 hget
  refine ⟨?_, ?_, ?_, ?_, ?_, ?_⟩
  · by_cases hi : h._impi = ""
    · simp [check_binding, hi]
    · by_cases hx : r.xml = ""
      · simp [check_binding, hi, hx]
      · by_cases ha : h._impi ∈ r.associated_impis
        · have hne : r.associated_impis ≠ [] := List.ne_nil_of_mem ha
          simp [check_binding, hi, hx, ha, hne]
        · simp [check_binding, hi, hx, ha]
  · intro hi
    simp [check_binding, hi]
  · intro hi
    exact check_binding_of_impi xu h._impi r.xml r.associated_impis hi
  · rw [hflow, hon]
  · intro hlo hhi
    rw [hflow, hon, int_wrap_twice _ hlo hhi]
  · intro hb
    rw [hflow, hon]
    simp [hb]

theorem new_binding_rule_witness :
    (cache_requests (reg_data_flow sample_hss_config sample_xml_utils
      ⟨.ImpuRegData, .htp_method_PUT, "j@d", "sip:u@d", .REG, "", .NOT_REGISTERED⟩
      ⟨"P", 100, .REGISTERED, 100, ["i@d"]⟩ 5 .timeout 6).2).filter
        CacheRequest.is_put_associated_private_id =
      [.PutAssociatedPrivateID ["sip:u@d"] "j@d" 5 7200] :=
  (new_binding_rule sample_hss_config sample_xml_utils
    ⟨.ImpuRegData, .htp_method_PUT, "j@d", "sip:u@d", .REG, "", .NOT_REGISTERED⟩
    ⟨"P", 100, .REGISTERED, 100, ["i@d"]⟩ 5 .timeout 6 rfl).2.2.2.2.1 (by decide)
    (by decide)

/-- C31 fails as stated: with an HSS, the GET on /impu/sip:u@d without private identity for an identity that has no record (state NOT_REGISTERED) sends no SAR and is answered 404, and the GET with the private identity i@d for an identity in state UNREGISTERED sends no SAR and is answered 200 with the cached profile. -/
theorem deprecated_get_sends_no_sar :
    (impu_subscription_request sample_hss_config sample_xml_utils
      ⟨.htp_method_GET, "/impu/sip:u@d", "", ""⟩ .not_found 5 (.response ⟨2001, "P"⟩)
      6).map (fun res => sars_sent res.2) = some [] ∧
    (impu_subscription_request sample_hss_config sample_xml_utils
      ⟨.htp_method_GET, "/impu/sip:u@d", "", ""⟩ .not_found 5 (.response ⟨2001, "P"⟩)
      6).map (fun res => replies res.2) = some [(404, "")] ∧
    (impu_subscription_request sample_hss_config sample_xml_utils
      ⟨.htp_method_GET, "/impu/sip:u@d", "i@d", ""⟩
      (.found ⟨"P", 100, .UNREGISTERED, 100, []⟩) 5 (.response ⟨2001, "P"⟩)
      6).map (fun res => sars_sent res.2) = some [] ∧
    (impu_subscription_request sample_hss_config sample_xml_utils
      ⟨.htp_method_GET, "/impu/sip:u@d", "i@d", ""⟩
      (.found ⟨"P", 100, .UNREGISTERED, 100, []⟩) 5 (.response ⟨2001, "P"⟩)
      6).map (fun res => replies res.2) = some [(200, "P")] := by
  refine ⟨?_, ?_, ?_, ?_⟩ <;> decide

/-- C31 as amended: run on the deprecated endpoint gives the handler the type CALL when the private identity is absent and REG when it is present and issues the cache read; a GET is then answered from what the read returned (200 with the raw profile, 404 when it is empty) with no SAR and no cache write; a request with another method runs the state machine of reg-data with that type, sending the same SARs and the same cache requests as the reg-data handler does, so that in HSS mode without private identity and in state NOT_REGISTERED it sends SAR(UNREGISTERED_USER), and with a private identity and a state other than REGISTERED it sends SAR(REGISTRATION). -/
theorem deprecated_endpoint_flow (cfg : Config) (xu : XmlUtils) (req : HttpRequest)
    (read : CacheReadOutcome) (now1 : Int) (outcome : DiameterOutcome) (now2 : Int)
    (h0 : Handler) (es : List Effect)
    (hrun : ImpuIMSSubscriptionHandler.run req = some (h0, es)) :
    h0.kind = .ImpuIMSSubscription ∧
    h0._type = (if req.private_id = "" then .CALL else .REG) ∧
    es = [.cache_send (.GetIMSSubscription h0._impu)] ∧
    (∃ res, impu_subscription_request cfg xu req read now1 outcome now2 = some res ∧
      (req.method = .htp_method_GET →
        sars_sent res.2 = [] ∧ cache_writes res.2 = [] ∧
        ∀ r, get_subscription_completion read = .inl r →
          replies res.2 = if r.xml ≠ "" then [(200, r.xml)] else [(404, "")]) ∧
      (req.method ≠ .htp_method_GET →
        ∀ r, get_subscription_completion read = .inl r →
          sars_sent res.2 =
            sars_sent (reg_data_flow cfg xu { h0 with kind := .ImpuRegData } r now1
              outcome now2).2 ∧
          cache_requests res.2 =
            .GetIMSSubscription h0._impu ::
              cache_requests (reg_data_flow cfg xu { h0 with kind := .ImpuRegData } r now1
                outcome now2).2 ∧
          (cfg.hss_configured = true → req.private_id = "" →
            r.reg_state = .NOT_REGISTERED → sars_sent res.2 = [.UNREGISTERED_USER]) ∧
          (cfg.hss_configured = true → req.private_id ≠ "" →
            r.reg_state ≠ .REGISTERED → sars_sent res.2 = [.REGISTRATION]))) := by
  cases hp : impu_from_deprecated_path req.full_path with
  | none => simp [ImpuIMSSubscriptionHandler.run, hp] at hrun
  | some impu =>
    simp only [ImpuIMSSubscriptionHandler.run, hp, Option.some.injEq, Prod.mk.injEq]
      at hrun
    obtain ⟨hh, hes⟩ := hrun
    subst hh
    subst hes
    refine ⟨rfl, rfl, rfl, _, by
      simp only [impu_subscription_request, ImpuIMSSubscriptionHandler.run, hp]
      rfl, ?_, ?_⟩
    · intro hm
      cases hc : get_subscription_completion read with
      | inl r =>
        rcases r with ⟨rxml, xttl, st, sttl, assoc⟩
        by_cases hx : rxml = "" <;>
          simp [reg_data_after_read, hc, reg_data_flow, on_get_ims_subscription_success,
            hm, send_reply, sars_sent, cache_writes, cache_requests, replies, replies_from,
            hx, String.join, CacheRequest.is_write]
      | inr e =>
        simp [reg_data_after_read, hc, on_get_ims_subscription_failure, sars_sent,
          cache_writes, cache_requests, CacheRequest.is_write]
    · intro hm r hc
      have hk := reg_data_flow_kind cfg xu
        ⟨.ImpuIMSSubscription, req.method, req.private_id, impu,
          if req.private_id = "" then .CALL else .REG, "", .NOT_REGISTERED⟩
        .ImpuRegData r now1 outcome now2
      simp only at hk
      refine ⟨?_, ?_, ?_, ?_⟩
      · simp [reg_data_after_read, hc, sars_sent, hk.1]
      · simp [reg_data_after_read, hc, cache_requests, hk.2]
      · intro hb hi hst
        rcases r with ⟨rxml, xttl, st, sttl, assoc⟩
        simp only at hst
        simp [reg_data_after_read, hc, sars_sent, sars_sent_reg_data_flow,
          on_get_ims_subscription_success, hm, hb, hi, hst, check_binding,
          send_server_assignment_request]
      · intro hb hi hst
        rcases r with ⟨rxml, xttl, st, sttl, assoc⟩
        simp only at hst
        cases hnb : (check_binding xu req.private_id rxml assoc).2 <;>
          simp [reg_data_after_read, hc, sars_sent, sars_sent_reg_data_flow,
            on_get_ims_subscription_success, hm, hb, hi, hst, hnb,
            send_server_assignment_request]

theorem deprecated_endpoint_flow_witness :
    ∃ res, impu_subscription_request sample_hss_config sample_xml_utils
        ⟨.htp_method_PUT, "/impu/sip:u@d", "", ""⟩ .not_found 5 .timeout 6 = some res ∧
      sars_sent res.2 = [.UNREGISTERED_USER] :=
  (deprecated_endpoint_flow sample_hss_config sample_xml_utils
    ⟨.htp_method_PUT, "/impu/sip:u@d", "", ""⟩ .not_found 5 .timeout 6
    ⟨.ImpuIMSSubscription, .htp_method_PUT, "", "sip:u@d", .CALL, "", .NOT_REGISTERED⟩
    [.cache_send (.GetIMSSubscription "sip:u@d")] rfl).2.2.2.elim
    (fun res hres => ⟨res, hres.1,
      (hres.2.2 (by decide) ⟨"", 0, .NOT_REGISTERED, 0, []⟩ rfl).2.2.1 rfl rfl rfl⟩)

/-- C35: the timeout callback of a Diameter exchange, on a subscription handler and on a credential handler, replies 503 and releases the handler and does nothing else: it issues no cache request and leaves the store as it was. So a reg-data request whose Server-Assignment request times out is answered 503 only and issues no delete_public_ids and no put_subscription; the only cache request it can have issued is the put_associated_private_id of a new binding, sent before the SAR, and every record of the store keeps its registration state and its profile (a record in state REGISTERED is still REGISTERED after a timed-out deregistration); and a credential request whose Multimedia-Auth request times out issues no cache write. -/
theorem timeout_replies_503_only (cfg : Config) (xu : XmlUtils) (h : Handler)
    (ih : ImpiHandler) (r : GetIMSSubscription) (now1 now2 : Int) (store : CacheStore)
    (GetString : List WriterCall → String) (kind : ImpiKind) (req : ImpiHttpRequest)
    (av_done : CacheCompletion DigestAuthVector)
    (impu_done : CacheCompletion (List String)) :
    on_diameter_timeout h = (h, [.send_reply 503, .delete_this]) ∧
    ImpiHandler.on_diameter_timeout ih = (ih, [.send_reply 503, .delete_this]) ∧
    cache_requests (on_diameter_timeout h).2 = [] ∧
    cache_requests (ImpiHandler.on_diameter_timeout ih).2 = [] ∧
    store.after (on_diameter_timeout h).2 = store ∧
    store.after (ImpiHandler.on_diameter_timeout ih).2 = store ∧
    (sars_sent (on_get_ims_subscription_success cfg xu h r now1).2 ≠ [] →
      (reg_data_flow cfg xu h r now1 .timeout now2).2 =
        (on_get_ims_subscription_success cfg xu h r now1).2 ++
          [.send_reply 503, .delete_this] ∧
      replies (reg_data_flow cfg xu h r now1 .timeout now2).2 = [(503, "")] ∧
      delete_public_ids (reg_data_flow cfg xu h r now1 .timeout now2).2 = [] ∧
      put_subscriptions (reg_data_flow cfg xu h r now1 .timeout now2).2 = [] ∧
      cache_requests (reg_data_flow cfg xu h r now1 .timeout now2).2 =
        (if (check_binding xu h._impi r.xml r.associated_impis).2 = true then
          [.PutAssociatedPrivateID (xu.get_public_ids r.xml) h._impi now1
            (int_wrap (2 * cfg.hss_reregistration_time))]
         else []) ∧
      ∀ p record, store p = some record →
        ∃ kept, (store.after (reg_data_flow cfg xu h r now1 .timeout now2).2) p =
            some kept ∧
          kept.registration_state = record.registration_state ∧
          kept.profile_document = record.profile_document) ∧
    (∀ res, impi_request cfg GetString kind req av_done impu_done .timeout now1 = some res →
      cache_writes res.2 = []) := by
  refine ⟨rfl, rfl, rfl, rfl, rfl, rfl, ?_, ?_⟩
  · intro hs
    have hfl : (reg_data_flow cfg xu h r now1 .timeout now2).2 =
        (on_get_ims_subscription_success cfg xu h r now1).2 ++
          [.send_reply 503, .delete_this] := by
      simp [reg_data_flow, hs, on_diameter_timeout]
    have hq := on_get_quiet_of_sar cfg xu h r now1 hs
    have hc := cache_requests_on_get_of_sar cfg xu h r now1 hs
    have hcf : cache_requests (reg_data_flow cfg xu h r now1 .timeout now2).2 =
        (if (check_binding xu h._impi r.xml r.associated_impis).2 = true then
          [.PutAssociatedPrivateID (xu.get_public_ids r.xml) h._impi now1
            (int_wrap (2 * cfg.hss_reregistration_time))]
         else []) := by
      rw [hfl, cache_requests_append, hc]
      simp [cache_requests]
    refine ⟨hfl, ?_, ?_, ?_, hcf, ?_⟩
    · rw [hfl, replies, hq.2]
      simp [replies_from, String.join]
    · rw [hfl, delete_public_ids_append, delete_public_ids_on_get]
      simp [delete_public_ids, cache_requests]
    · rw [hfl, put_subscriptions_append, hq.1]
      simp [put_subscriptions, cache_requests]
    · intro p record hp
      rw [CacheStore.after, hcf]
      by_cases hnb : (check_binding xu h._impi r.xml r.associated_impis).2 = true
      · by_cases hmem : p ∈ xu.get_public_ids r.xml <;>
          simp [hnb, CacheStore.apply, hmem, hp]
      · simp [hnb, hp]
  · intro res hres
    have hw := impi_cache_writes cfg GetString kind req av_done impu_done .timeout now1
      res hres
    simpa using hw

theorem timeout_replies_503_only_witness :
    replies (reg_data_flow sample_hss_config sample_xml_utils (sample_put .DEREG_USER)
      ⟨"P", 100, .REGISTERED, 100, ["i@d"]⟩ 5 .timeout 6).2 = [(503, "")] ∧
    cache_requests (reg_data_flow sample_hss_config sample_xml_utils
      (sample_put .DEREG_USER) ⟨"P", 100, .REGISTERED, 100, ["i@d"]⟩ 5 .timeout 6).2 = [] :=
  ⟨((timeout_replies_503_only sample_hss_config sample_xml_utils (sample_put .DEREG_USER)
      ⟨.ImpiDigest, "i@d", "sip:u@d", "SIP Digest", ""⟩
      ⟨"P", 100, .REGISTERED, 100, ["i@d"]⟩ 5 6 sample_store_registered sample_GetString
      .ImpiDigest (sample_impi_request "digest" "sip:u@d" "") (.success ⟨"abc", "r", ""⟩)
      (.success [])).2.2.2.2.2.2.1 (by decide)).2.1,
   ((timeout_replies_503_only sample_hss_config sample_xml_utils (sample_put .DEREG_USER)
      ⟨.ImpiDigest, "i@d", "sip:u@d", "SIP Digest", ""⟩
      ⟨"P", 100, .REGISTERED, 100, ["i@d"]⟩ 5 6 sample_store_registered sample_GetString
      .ImpiDigest (sample_impi_request "digest" "sip:u@d" "") (.success ⟨"abc", "r", ""⟩)
      (.success [])).2.2.2.2.2.2.1 (by decide)).2.2.2.2.1⟩

end Homestead
